import Mathlib

/-!
# Range data serialization of the animation compression library

A shallow embedding of `includes/acl/compression/stream/write_range_data.h`:
the size estimator `get_stream_range_data_size`, the per-channel writer
`write_range_track_data_impl`, the per-bone engine `write_range_track_data`
with its two entry points, and the interleaved writer `write_clip_track_data`.

Conventions of the embedding.

* A byte is a natural number; a 32-bit float is its bit pattern.
* The destination `uint8_t*` is an `OutBuffer`: a byte-addressed memory and
  the address the cursor points to.  The null pointer is address `0`.
* Input arrays are lists.  Reading past the end of an input array, undefined
  behaviour in the source, is the fault `out_of_bounds`.
* `ACL_ASSERT` is fatal when assertion checks are compiled in
  (`ACL_HAS_ASSERT_CHECKS`) and expands to nothing otherwise; the flag is the
  parameter `assert_checks`.
* `uint32_t` arithmetic is taken modulo `2 ^ 32`.
-/

namespace acl

/-! ## Data model -/

/-- Modelled from the spec: `RotationFormat8` is declared in `track_types.h`,
which is not part of the sources at hand.  The source only distinguishes the
4-component quaternion format `Quat_128` from every other, narrower,
3-component format. -/
inductive RotationFormat8 where
  | Quat_128
  | Narrower (code : Nat)
  deriving DecidableEq, Repr

/-- Modelled from the spec: `RangeReductionFlags8` is declared in
`range_reduction_types.h`; it is the set of channel kinds, among rotation,
translation and scale, that take part in range reduction. -/
structure RangeReductionFlags8 where
  rotations : Bool
  translations : Bool
  scales : Bool
  deriving DecidableEq, Repr

/-- The flag set holding rotations only. -/
def RangeReductionFlags8.Rotations : RangeReductionFlags8 := ⟨true, false, false⟩

/-- The flag set holding translations only. -/
def RangeReductionFlags8.Translations : RangeReductionFlags8 := ⟨false, true, false⟩

/-- The flag set holding scales only. -/
def RangeReductionFlags8.Scales : RangeReductionFlags8 := ⟨false, false, true⟩

/-- Modelled from the spec: `are_any_enum_flags_set` of `enum_utils.h` tells
whether the two flag sets have a kind in common. -/
def are_any_enum_flags_set (flags flags_to_test : RangeReductionFlags8) : Bool :=
  (flags.rotations && flags_to_test.rotations)
    || (flags.translations && flags_to_test.translations)
    || (flags.scales && flags_to_test.scales)

/-- Four 32-bit floats, each held as its bit pattern. -/
structure Vector4_32 where
  x : Nat
  y : Nat
  z : Nat
  w : Nat
  deriving DecidableEq, Repr

/-- The four bytes of a 32-bit float in memory, least significant first. -/
def float_bytes (f : Nat) : List Nat :=
  [f % 256, f / 256 % 256, f / 65536 % 256, f / 16777216 % 256]

/-- The bytes `vector_as_float_ptr` points to: the components `x y z w` in
this order, four bytes each. -/
def vector_as_float_ptr (v : Vector4_32) : List Nat :=
  float_bytes v.x ++ float_bytes v.y ++ float_bytes v.z ++ float_bytes v.w

/-- Modelled from the spec: `TrackStreamRange` of `clip_context.h` holds the
minimum and the extent of a channel. -/
structure TrackStreamRange where
  min : Vector4_32
  extent : Vector4_32
  deriving DecidableEq, Repr

/-- Accessor `get_min`. -/
def TrackStreamRange.get_min (range : TrackStreamRange) : Vector4_32 := range.min

/-- Accessor `get_extent`. -/
def TrackStreamRange.get_extent (range : TrackStreamRange) : Vector4_32 := range.extent

/-- Modelled from the spec: `TrackStream` of `track_stream.h` holds the raw
bytes of the samples of a channel, sample 0 first, the size in bytes of one
sample and the bit rate of the channel. -/
structure TrackStream where
  samples : List Nat
  sample_size : Nat
  bit_rate : Nat
  deriving DecidableEq, Repr

/-- The bytes `get_raw_sample_ptr (sample_index)` points to. -/
def TrackStream.get_raw_sample_ptr (track : TrackStream) (sample_index : Nat) : List Nat :=
  track.samples.drop (sample_index * track.sample_size)

/-- Accessor `get_sample_size`. -/
def TrackStream.get_sample_size (track : TrackStream) : Nat := track.sample_size

/-- Accessor `get_bit_rate`. -/
def TrackStream.get_bit_rate (track : TrackStream) : Nat := track.bit_rate

/-- A rotation channel: a track stream that also records its rotation format. -/
structure RotationTrackStream extends TrackStream where
  rotation_format : RotationFormat8
  deriving DecidableEq, Repr

/-- Accessor `get_rotation_format`. -/
def RotationTrackStream.get_rotation_format (track : RotationTrackStream) : RotationFormat8 :=
  track.rotation_format

/-- Modelled from the spec: `BoneStreams` of `clip_context.h`, the three
channels of a bone and the flags that classify each of them. -/
structure BoneStreams where
  rotations : RotationTrackStream
  translations : TrackStream
  scales : TrackStream
  is_rotation_constant : Bool
  is_rotation_default : Bool
  is_translation_constant : Bool
  is_translation_default : Bool
  is_scale_constant : Bool
  is_scale_default : Bool
  deriving DecidableEq, Repr

/-- Modelled from the spec: a rotation is animated when it is neither
constant nor default. -/
def BoneStreams.is_rotation_animated (bone_stream : BoneStreams) : Bool :=
  !bone_stream.is_rotation_constant && !bone_stream.is_rotation_default

/-- Modelled from the spec: a translation is animated when it is neither
constant nor default. -/
def BoneStreams.is_translation_animated (bone_stream : BoneStreams) : Bool :=
  !bone_stream.is_translation_constant && !bone_stream.is_translation_default

/-- Modelled from the spec: a scale is animated when it is neither constant
nor default. -/
def BoneStreams.is_scale_animated (bone_stream : BoneStreams) : Bool :=
  !bone_stream.is_scale_constant && !bone_stream.is_scale_default

/-- Modelled from the spec: `BoneRanges` of `clip_context.h`, one range per
channel of a bone. -/
structure BoneRanges where
  rotation : TrackStreamRange
  translation : TrackStreamRange
  scale : TrackStreamRange
  deriving DecidableEq, Repr

/-- Modelled from the spec: `SegmentContext` of `clip_context.h`, the bone
streams of a segment and the segment's own ranges, both indexed by bone. -/
structure SegmentContext where
  bone_streams : List BoneStreams
  ranges : List BoneRanges
  deriving DecidableEq, Repr

/-- The bones `bone_iterator` goes through. -/
def SegmentContext.bone_iterator (segment : SegmentContext) : List BoneStreams :=
  segment.bone_streams

/-- Modelled from the spec: `ClipContext` of `clip_context.h`, the segments of
a clip, the clip-wide ranges indexed by bone, and whether the clip has scale. -/
structure ClipContext where
  segments : List SegmentContext
  ranges : List BoneRanges
  has_scale : Bool
  deriving DecidableEq, Repr

/-- Modelled from the spec: the primitives of `track_types.h` and of the
packing headers that the writers call.  `pack_vector3_u24_unsafe` and
`pack_vector4_32` give the bytes they store at their destination. -/
structure Primitives where
  is_constant_bit_rate : Nat → Bool
  pack_vector3_u24_unsafe : Vector4_32 → List Nat
  pack_vector4_32 : Vector4_32 → Bool → List Nat

/-- Modelled from the spec: `get_range_reduction_rotation_size` of
`range_reduction_types.h`, a range of 8 floats for `Quat_128` and of 6 floats
for a narrower format. -/
def get_range_reduction_rotation_size (rotation_format : RotationFormat8) : Nat :=
  match rotation_format with
  | .Quat_128 => 4 * 8
  | .Narrower _ => 4 * 6

/-- Modelled from the spec: `k_clip_range_reduction_vector3_range_size`, a
range of 6 floats. -/
def k_clip_range_reduction_vector3_range_size : Nat := 4 * 6

/-! ## Faults and the destination buffer -/

/-- The ways a call can fail. -/
inductive Fault where
  | null_buffer
  | out_of_bounds
  | wrote_too_much (output_index : Nat)
  | wrote_too_little
  deriving DecidableEq, Repr

/-- The destination: a byte-addressed memory and the cursor into it. -/
structure OutBuffer where
  memory : Nat → Nat
  ptr : Nat

/-- Stores `bytes` from the cursor on; the cursor does not move. -/
def OutBuffer.store (out : OutBuffer) (bytes : List Nat) : OutBuffer :=
  { out with
    memory := fun a =>
      if out.ptr ≤ a ∧ a < out.ptr + bytes.length then bytes.getD (a - out.ptr) 0
      else out.memory a }

/-- Moves the cursor forward by `n` bytes. -/
def OutBuffer.advance (out : OutBuffer) (n : Nat) : OutBuffer :=
  { out with ptr := out.ptr + n }

/-- Copies the first `n` bytes of `src` to the cursor, as `memcpy` does; the
cursor does not move. -/
def memcpy (out : OutBuffer) (src : List Nat) (n : Nat) : Except Fault OutBuffer :=
  if n ≤ src.length then .ok (out.store (src.take n)) else .error .out_of_bounds

/-- Reads entry `i` of an input array. -/
def at_index {α : Type} (xs : List α) (i : Nat) : Except Fault α :=
  match xs[i]? with
  | some x => .ok x
  | none => .error .out_of_bounds

/-- The check `ACL_ASSERT (expression, ...)`. -/
def ACL_ASSERT (assert_checks : Bool) (expression : Bool) (fault : Fault) : Except Fault Unit :=
  if assert_checks && !expression then .error fault else .ok ()

/-! ## The size estimator -/

/-- Lines 42 to 64: `get_stream_range_data_size`. -/
def get_stream_range_data_size (clip_context : ClipContext) (range_reduction : RangeReductionFlags8)
    (rotation_format : RotationFormat8) : Except Fault Nat := do
  let rotation_size :=
    if are_any_enum_flags_set range_reduction .Rotations then
      get_range_reduction_rotation_size rotation_format else 0
  let translation_size :=
    if are_any_enum_flags_set range_reduction .Translations then
      k_clip_range_reduction_vector3_range_size else 0
  let scale_size :=
    if are_any_enum_flags_set range_reduction .Scales then
      k_clip_range_reduction_vector3_range_size else 0
  let segment ← at_index clip_context.segments 0
  let range_data_size := segment.bone_iterator.foldl
    (fun range_data_size bone_stream =>
      let range_data_size :=
        if bone_stream.is_rotation_animated then (range_data_size + rotation_size) % 2 ^ 32
        else range_data_size
      let range_data_size :=
        if bone_stream.is_translation_animated then (range_data_size + translation_size) % 2 ^ 32
        else range_data_size
      let range_data_size :=
        if clip_context.has_scale && bone_stream.is_scale_animated then
          (range_data_size + scale_size) % 2 ^ 32
        else range_data_size
      range_data_size) 0
  return range_data_size

/-! ## The per-bone range writer -/

/-- Lines 66 to 96: `write_range_track_data_impl`. -/
def write_range_track_data_impl (P : Primitives) (track : TrackStream) (range : TrackStreamRange)
    (is_clip_range_data : Bool) (out_range_data : OutBuffer) : Except Fault OutBuffer := do
  let range_min := range.get_min
  let range_extent := range.get_extent
  if is_clip_range_data then
    let range_member_size := 4 * 3
    let out_range_data ← memcpy out_range_data (vector_as_float_ptr range_min) range_member_size
    let out_range_data := out_range_data.advance range_member_size
    let out_range_data ← memcpy out_range_data (vector_as_float_ptr range_extent) range_member_size
    let out_range_data := out_range_data.advance range_member_size
    return out_range_data
  else
    if P.is_constant_bit_rate track.get_bit_rate then
      let sample_ptr := track.get_raw_sample_ptr 0
      let out_range_data ← memcpy out_range_data sample_ptr (2 * 3)
      let out_range_data := out_range_data.advance (2 * 3)
      return out_range_data
    else
      let out_range_data := out_range_data.store (P.pack_vector3_u24_unsafe range_min)
      let out_range_data := out_range_data.advance (1 * 3)
      let out_range_data := out_range_data.store (P.pack_vector3_u24_unsafe range_extent)
      let out_range_data := out_range_data.advance (1 * 3)
      return out_range_data

/-- Lines 120 to 160: the rotation block of the loop body of
`write_range_track_data`. -/
def write_range_track_data_rotation (P : Primitives) (bone_stream : BoneStreams)
    (bone_range : BoneRanges) (range_reduction : RangeReductionFlags8) (is_clip_range_data : Bool)
    (range_data : OutBuffer) : Except Fault OutBuffer := do
  if are_any_enum_flags_set range_reduction .Rotations && bone_stream.is_rotation_animated then
    let range_min := bone_range.rotation.get_min
    let range_extent := bone_range.rotation.get_extent
    if is_clip_range_data then
      let range_member_size :=
        if bone_stream.rotations.get_rotation_format = .Quat_128 then 4 * 4 else 4 * 3
      let range_data ← memcpy range_data (vector_as_float_ptr range_min) range_member_size
      let range_data := range_data.advance range_member_size
      let range_data ← memcpy range_data (vector_as_float_ptr range_extent) range_member_size
      let range_data := range_data.advance range_member_size
      return range_data
    else
      if bone_stream.rotations.get_rotation_format = .Quat_128 then
        let range_data := range_data.store (P.pack_vector4_32 range_min true)
        let range_data := range_data.advance (1 * 4)
        let range_data := range_data.store (P.pack_vector4_32 range_extent true)
        let range_data := range_data.advance (1 * 4)
        return range_data
      else
        if P.is_constant_bit_rate bone_stream.rotations.get_bit_rate then
          let rotation := bone_stream.rotations.get_raw_sample_ptr 0
          let range_data ← memcpy range_data rotation (2 * 3)
          let range_data := range_data.advance (2 * 3)
          return range_data
        else
          let range_data := range_data.store (P.pack_vector3_u24_unsafe range_min)
          let range_data := range_data.advance (1 * 3)
          let range_data := range_data.store (P.pack_vector3_u24_unsafe range_extent)
          let range_data := range_data.advance (1 * 3)
          return range_data
  else
    return range_data

/-- Lines 162 and 163: the translation statement of the loop body of
`write_range_track_data`. -/
def write_range_track_data_translation (P : Primitives) (bone_stream : BoneStreams)
    (bone_range : BoneRanges) (range_reduction : RangeReductionFlags8) (is_clip_range_data : Bool)
    (range_data : OutBuffer) : Except Fault OutBuffer :=
  if are_any_enum_flags_set range_reduction .Translations && bone_stream.is_translation_animated then
    write_range_track_data_impl P bone_stream.translations bone_range.translation
      is_clip_range_data range_data
  else
    .ok range_data

/-- Lines 165 and 166: the scale statement of the loop body of
`write_range_track_data`. -/
def write_range_track_data_scale (P : Primitives) (clip_context : ClipContext)
    (bone_stream : BoneStreams) (bone_range : BoneRanges) (range_reduction : RangeReductionFlags8)
    (is_clip_range_data : Bool) (range_data : OutBuffer) : Except Fault OutBuffer :=
  if clip_context.has_scale && are_any_enum_flags_set range_reduction .Scales
      && bone_stream.is_scale_animated then
    write_range_track_data_impl P bone_stream.scales bone_range.scale is_clip_range_data range_data
  else
    .ok range_data

/-- Lines 112 to 166: the loop body of `write_range_track_data` for the bone
`bone_index`, up to the assertion that ends it. -/
def write_range_track_data_bone (P : Primitives) (clip_context : ClipContext)
    (bone_streams : List BoneStreams) (bone_ranges : List BoneRanges)
    (range_reduction : RangeReductionFlags8) (is_clip_range_data : Bool)
    (bone_index : Nat) (range_data : OutBuffer) : Except Fault OutBuffer := do
  let bone_stream ← at_index bone_streams bone_index
  let bone_range ← at_index bone_ranges bone_index
  let range_data ← write_range_track_data_rotation P bone_stream bone_range range_reduction
    is_clip_range_data range_data
  let range_data ← write_range_track_data_translation P bone_stream bone_range range_reduction
    is_clip_range_data range_data
  let range_data ← write_range_track_data_scale P clip_context bone_stream bone_range
    range_reduction is_clip_range_data range_data
  return range_data

/-- The loop `for (output_index = 0; output_index < num_output_bones; ++output_index)`
of both writers (lines 110 to 169 and 217 to 272): the body runs on every entry
of the output bone mapping in turn, and the 'wrote too much' assertion follows
each run.  The list holds the `num_output_bones` entries of the mapping. -/
def output_bone_loop (assert_checks : Bool) (data_end : Nat)
    (body : Nat → OutBuffer → Except Fault OutBuffer) :
    List Nat → Nat → OutBuffer → Except Fault OutBuffer
  | [], _, out => .ok out
  | bone_index :: rest, output_index, out => do
    let out ← body bone_index out
    ACL_ASSERT assert_checks (decide (out.ptr ≤ data_end)) (.wrote_too_much output_index)
    output_bone_loop assert_checks data_end body rest (output_index + 1) out

/-- Lines 98 to 172: `write_range_track_data`.  The destination pointer
`range_data` is the cursor of `out`. -/
def write_range_track_data (P : Primitives) (assert_checks : Bool) (clip_context : ClipContext)
    (bone_streams : List BoneStreams) (bone_ranges : List BoneRanges)
    (range_reduction : RangeReductionFlags8) (is_clip_range_data : Bool)
    (out : OutBuffer) (range_data_size : Nat) (output_bone_mapping : List Nat) :
    Except Fault OutBuffer := do
  ACL_ASSERT assert_checks (decide (out.ptr ≠ 0)) .null_buffer
  let range_data_end := out.ptr + range_data_size
  let out ← output_bone_loop assert_checks range_data_end
    (write_range_track_data_bone P clip_context bone_streams bone_ranges range_reduction
      is_clip_range_data) output_bone_mapping 0 out
  ACL_ASSERT assert_checks (decide (out.ptr = range_data_end)) .wrote_too_little
  return out

/-- Lines 174 to 181: `write_clip_range_data`. -/
def write_clip_range_data (P : Primitives) (assert_checks : Bool) (clip_context : ClipContext)
    (range_reduction : RangeReductionFlags8) (out : OutBuffer) (range_data_size : Nat)
    (output_bone_mapping : List Nat) : Except Fault OutBuffer := do
  let segment ← at_index clip_context.segments 0
  write_range_track_data P assert_checks clip_context segment.bone_streams clip_context.ranges
    range_reduction true out range_data_size output_bone_mapping

/-- Lines 183 to 186: `write_segment_range_data`. -/
def write_segment_range_data (P : Primitives) (assert_checks : Bool) (clip_context : ClipContext)
    (segment : SegmentContext) (range_reduction : RangeReductionFlags8) (out : OutBuffer)
    (range_data_size : Nat) (output_bone_mapping : List Nat) : Except Fault OutBuffer :=
  write_range_track_data P assert_checks clip_context segment.bone_streams segment.ranges
    range_reduction false out range_data_size output_bone_mapping

/-! ## The interleaved track writer -/

/-- Lines 201 to 210: the local function `write_range_data` of
`write_clip_track_data`. -/
def write_range_data (range : TrackStreamRange) (range_member_size : Nat)
    (out_range_data : OutBuffer) : Except Fault OutBuffer := do
  let range_min := range.get_min
  let range_extent := range.get_extent
  let out_range_data ← memcpy out_range_data (vector_as_float_ptr range_min) range_member_size
  let out_range_data := out_range_data.advance range_member_size
  let out_range_data ← memcpy out_range_data (vector_as_float_ptr range_extent) range_member_size
  let out_range_data := out_range_data.advance range_member_size
  return out_range_data

/-- Lines 223 to 237: the rotation block of the loop body of
`write_clip_track_data`. -/
def write_clip_track_data_rotation (bone_stream : BoneStreams) (bone_range : BoneRanges)
    (range_reduction : RangeReductionFlags8) (out_track_data : OutBuffer) :
    Except Fault OutBuffer := do
  if !bone_stream.is_rotation_default then
    if bone_stream.is_rotation_constant then
      let rotation_ptr := bone_stream.rotations.get_raw_sample_ptr 0
      let sample_size := bone_stream.rotations.get_sample_size
      let out_track_data ← memcpy out_track_data rotation_ptr sample_size
      let out_track_data := out_track_data.advance sample_size
      return out_track_data
    else if are_any_enum_flags_set range_reduction .Rotations
        && bone_stream.is_rotation_animated then
      let range_member_size :=
        if bone_stream.rotations.get_rotation_format = .Quat_128 then 4 * 4 else 4 * 3
      write_range_data bone_range.rotation range_member_size out_track_data
    else
      return out_track_data
  else
    return out_track_data

/-- Lines 239 to 253: the translation block of the loop body of
`write_clip_track_data`. -/
def write_clip_track_data_translation (bone_stream : BoneStreams) (bone_range : BoneRanges)
    (range_reduction : RangeReductionFlags8) (out_track_data : OutBuffer) :
    Except Fault OutBuffer := do
  if !bone_stream.is_translation_default then
    if bone_stream.is_translation_constant then
      let translation_ptr := bone_stream.translations.get_raw_sample_ptr 0
      let sample_size := bone_stream.translations.get_sample_size
      let out_track_data ← memcpy out_track_data translation_ptr sample_size
      let out_track_data := out_track_data.advance sample_size
      return out_track_data
    else if are_any_enum_flags_set range_reduction .Translations
        && bone_stream.is_translation_animated then
      let range_member_size := 4 * 3
      write_range_data bone_range.translation range_member_size out_track_data
    else
      return out_track_data
  else
    return out_track_data

/-- Lines 255 to 269: the scale block of the loop body of
`write_clip_track_data`. -/
def write_clip_track_data_scale (clip_context : ClipContext) (bone_stream : BoneStreams)
    (bone_range : BoneRanges) (range_reduction : RangeReductionFlags8)
    (out_track_data : OutBuffer) : Except Fault OutBuffer := do
  if clip_context.has_scale && !bone_stream.is_scale_default then
    if bone_stream.is_scale_constant then
      let scale_ptr := bone_stream.scales.get_raw_sample_ptr 0
      let sample_size := bone_stream.scales.get_sample_size
      let out_track_data ← memcpy out_track_data scale_ptr sample_size
      let out_track_data := out_track_data.advance sample_size
      return out_track_data
    else if are_any_enum_flags_set range_reduction .Scales && bone_stream.is_scale_animated then
      let range_member_size := 4 * 3
      write_range_data bone_range.scale range_member_size out_track_data
    else
      return out_track_data
  else
    return out_track_data

/-- Lines 219 to 269: the loop body of `write_clip_track_data` for the bone
`bone_index`, up to the assertion that ends it. -/
def write_clip_track_data_bone (clip_context : ClipContext) (segment : SegmentContext)
    (range_reduction : RangeReductionFlags8) (bone_index : Nat) (out_track_data : OutBuffer) :
    Except Fault OutBuffer := do
  let bone_stream ← at_index segment.bone_streams bone_index
  let bone_range ← at_index clip_context.ranges bone_index
  let out_track_data ← write_clip_track_data_rotation bone_stream bone_range range_reduction
    out_track_data
  let out_track_data ← write_clip_track_data_translation bone_stream bone_range range_reduction
    out_track_data
  let out_track_data ← write_clip_track_data_scale clip_context bone_stream bone_range
    range_reduction out_track_data
  return out_track_data

/-- Lines 189 to 275: `write_clip_track_data`.  The destination pointer
`out_track_data` is the cursor of `out`. -/
def write_clip_track_data (assert_checks : Bool) (clip_context : ClipContext)
    (range_reduction : RangeReductionFlags8) (out : OutBuffer) (track_data_size : Nat)
    (output_bone_mapping : List Nat) : Except Fault OutBuffer := do
  ACL_ASSERT assert_checks (decide (out.ptr ≠ 0)) .null_buffer
  let segment ← at_index clip_context.segments 0
  let track_data_end := out.ptr + track_data_size
  let out ← output_bone_loop assert_checks track_data_end
    (write_clip_track_data_bone clip_context segment range_reduction) output_bone_mapping 0 out
  ACL_ASSERT assert_checks (decide (out.ptr = track_data_end)) .wrote_too_little
  return out

/-! ## Stream view of the writers

What a writer stores, seen as the list of bytes it appends at the cursor.  The
theorems below relate each writer to its view. -/

/-- Stores `bytes` at the cursor and moves the cursor past them. -/
def OutBuffer.write (out : OutBuffer) (bytes : List Nat) : OutBuffer :=
  (out.store bytes).advance bytes.length

/-- The `n` bytes of memory from address `start` on. -/
def read_bytes (memory : Nat → Nat) (start n : Nat) : List Nat :=
  (List.range n).map (fun i => memory (start + i))

/-- The two packing primitives store exactly the bytes the cursor then skips:
3 bytes for `pack_vector3_u24_unsafe`, 4 bytes for `pack_vector4_32`. -/
def Primitives.exact (P : Primitives) : Prop :=
  (∀ v, (P.pack_vector3_u24_unsafe v).length = 3) ∧ (∀ v b, (P.pack_vector4_32 v b).length = 4)

/-- The first `n` bytes of `src`, when it holds that many. -/
def take_bytes (src : List Nat) (n : Nat) : Except Fault (List Nat) :=
  if n ≤ src.length then .ok (src.take n) else .error .out_of_bounds

/-- The bytes of a full-precision range pair: the first `range_member_size`
bytes of the minimum, then those of the extent. -/
def range_pair_bytes (range : TrackStreamRange) (range_member_size : Nat) : List Nat :=
  (vector_as_float_ptr range.min).take range_member_size
    ++ (vector_as_float_ptr range.extent).take range_member_size

/-- The width in bytes of one member of a rotation range pair. -/
def rotation_member_size (bone_stream : BoneStreams) : Nat :=
  if bone_stream.rotations.get_rotation_format = .Quat_128 then 4 * 4 else 4 * 3

/-- The bytes `write_range_track_data_impl` appends. -/
def range_impl_bytes (P : Primitives) (track : TrackStream) (range : TrackStreamRange)
    (is_clip_range_data : Bool) : Except Fault (List Nat) :=
  if is_clip_range_data then .ok (range_pair_bytes range 12)
  else if P.is_constant_bit_rate track.bit_rate then take_bytes (track.get_raw_sample_ptr 0) 6
  else .ok (P.pack_vector3_u24_unsafe range.min ++ P.pack_vector3_u24_unsafe range.extent)

/-- The bytes the rotation block of `write_range_track_data` appends. -/
def range_rotation_bytes (P : Primitives) (bone_stream : BoneStreams) (bone_range : BoneRanges)
    (range_reduction : RangeReductionFlags8) (is_clip_range_data : Bool) :
    Except Fault (List Nat) :=
  if are_any_enum_flags_set range_reduction .Rotations && bone_stream.is_rotation_animated then
    if is_clip_range_data then
      .ok (range_pair_bytes bone_range.rotation (rotation_member_size bone_stream))
    else if bone_stream.rotations.rotation_format = .Quat_128 then
      .ok (P.pack_vector4_32 bone_range.rotation.min true
        ++ P.pack_vector4_32 bone_range.rotation.extent true)
    else if P.is_constant_bit_rate bone_stream.rotations.bit_rate then
      take_bytes (bone_stream.rotations.get_raw_sample_ptr 0) 6
    else
      .ok (P.pack_vector3_u24_unsafe bone_range.rotation.min
        ++ P.pack_vector3_u24_unsafe bone_range.rotation.extent)
  else .ok []

/-- The bytes the translation statement of `write_range_track_data` appends. -/
def range_translation_bytes (P : Primitives) (bone_stream : BoneStreams) (bone_range : BoneRanges)
    (range_reduction : RangeReductionFlags8) (is_clip_range_data : Bool) :
    Except Fault (List Nat) :=
  if are_any_enum_flags_set range_reduction .Translations && bone_stream.is_translation_animated then
    range_impl_bytes P bone_stream.translations bone_range.translation is_clip_range_data
  else .ok []

/-- The bytes the scale statement of `write_range_track_data` appends. -/
def range_scale_bytes (P : Primitives) (has_scale : Bool) (bone_stream : BoneStreams)
    (bone_range : BoneRanges) (range_reduction : RangeReductionFlags8)
    (is_clip_range_data : Bool) : Except Fault (List Nat) :=
  if has_scale && are_any_enum_flags_set range_reduction .Scales
      && bone_stream.is_scale_animated then
    range_impl_bytes P bone_stream.scales bone_range.scale is_clip_range_data
  else .ok []

/-- The block of a bone in the output of `write_range_track_data`: a function
of the bone's streams and ranges, of the flags, of the mode and of `has_scale`. -/
def range_block_bytes (P : Primitives) (has_scale : Bool) (range_reduction : RangeReductionFlags8)
    (is_clip_range_data : Bool) (bone_stream : BoneStreams) (bone_range : BoneRanges) :
    Except Fault (List Nat) := do
  let r ← range_rotation_bytes P bone_stream bone_range range_reduction is_clip_range_data
  let t ← range_translation_bytes P bone_stream bone_range range_reduction is_clip_range_data
  let s ← range_scale_bytes P has_scale bone_stream bone_range range_reduction is_clip_range_data
  return r ++ t ++ s

/-- The bytes the rotation block of `write_clip_track_data` appends. -/
def track_rotation_bytes (bone_stream : BoneStreams) (bone_range : BoneRanges)
    (range_reduction : RangeReductionFlags8) : Except Fault (List Nat) :=
  if !bone_stream.is_rotation_default then
    if bone_stream.is_rotation_constant then
      take_bytes (bone_stream.rotations.get_raw_sample_ptr 0) bone_stream.rotations.sample_size
    else if are_any_enum_flags_set range_reduction .Rotations
        && bone_stream.is_rotation_animated then
      .ok (range_pair_bytes bone_range.rotation (rotation_member_size bone_stream))
    else .ok []
  else .ok []

/-- The bytes the translation block of `write_clip_track_data` appends. -/
def track_translation_bytes (bone_stream : BoneStreams) (bone_range : BoneRanges)
    (range_reduction : RangeReductionFlags8) : Except Fault (List Nat) :=
  if !bone_stream.is_translation_default then
    if bone_stream.is_translation_constant then
      take_bytes (bone_stream.translations.get_raw_sample_ptr 0)
        bone_stream.translations.sample_size
    else if are_any_enum_flags_set range_reduction .Translations
        && bone_stream.is_translation_animated then
      .ok (range_pair_bytes bone_range.translation 12)
    else .ok []
  else .ok []

/-- The bytes the scale block of `write_clip_track_data` appends. -/
def track_scale_bytes (has_scale : Bool) (bone_stream : BoneStreams) (bone_range : BoneRanges)
    (range_reduction : RangeReductionFlags8) : Except Fault (List Nat) :=
  if has_scale && !bone_stream.is_scale_default then
    if bone_stream.is_scale_constant then
      take_bytes (bone_stream.scales.get_raw_sample_ptr 0) bone_stream.scales.sample_size
    else if are_any_enum_flags_set range_reduction .Scales && bone_stream.is_scale_animated then
      .ok (range_pair_bytes bone_range.scale 12)
    else .ok []
  else .ok []

/-- The block of a bone in the output of `write_clip_track_data`: a function
of the bone's streams and ranges, of the flags and of `has_scale`. -/
def track_block_bytes (has_scale : Bool) (range_reduction : RangeReductionFlags8)
    (bone_stream : BoneStreams) (bone_range : BoneRanges) : Except Fault (List Nat) := do
  let r ← track_rotation_bytes bone_stream bone_range range_reduction
  let t ← track_translation_bytes bone_stream bone_range range_reduction
  let s ← track_scale_bytes has_scale bone_stream bone_range range_reduction
  return r ++ t ++ s

/-- The block of the mapping entry `bone_index`: the bone's streams and ranges
are looked up, then `block` gives the bytes. -/
def entry_block (bone_streams : List BoneStreams) (bone_ranges : List BoneRanges)
    (block : BoneStreams → BoneRanges → Except Fault (List Nat)) (bone_index : Nat) :
    Except Fault (List Nat) := do
  let bone_stream ← at_index bone_streams bone_index
  let bone_range ← at_index bone_ranges bone_index
  block bone_stream bone_range

/-- The blocks of the entries of a mapping, in the order of the mapping. -/
def mapping_blocks (block : Nat → Except Fault (List Nat)) :
    List Nat → Except Fault (List (List Nat))
  | [] => .ok []
  | bone_index :: rest => do
    let b ← block bone_index
    let bs ← mapping_blocks block rest
    return b :: bs

/-- The number of bytes the rotation block of `write_range_track_data` skips. -/
def range_rotation_size (bone_stream : BoneStreams) (range_reduction : RangeReductionFlags8)
    (is_clip_range_data : Bool) : Nat :=
  if are_any_enum_flags_set range_reduction .Rotations && bone_stream.is_rotation_animated then
    if is_clip_range_data then 2 * rotation_member_size bone_stream
    else if bone_stream.rotations.rotation_format = .Quat_128 then 8 else 6
  else 0

/-- The number of bytes the translation statement of `write_range_track_data`
skips. -/
def range_translation_size (bone_stream : BoneStreams) (range_reduction : RangeReductionFlags8)
    (is_clip_range_data : Bool) : Nat :=
  if are_any_enum_flags_set range_reduction .Translations && bone_stream.is_translation_animated then
    if is_clip_range_data then 24 else 6
  else 0

/-- The number of bytes the scale statement of `write_range_track_data` skips. -/
def range_scale_size (has_scale : Bool) (bone_stream : BoneStreams)
    (range_reduction : RangeReductionFlags8) (is_clip_range_data : Bool) : Nat :=
  if has_scale && are_any_enum_flags_set range_reduction .Scales
      && bone_stream.is_scale_animated then
    if is_clip_range_data then 24 else 6
  else 0

/-- The number of bytes the loop body of `write_range_track_data` skips for a
bone. -/
def range_block_size (has_scale : Bool) (range_reduction : RangeReductionFlags8)
    (is_clip_range_data : Bool) (bone_stream : BoneStreams) : Nat :=
  range_rotation_size bone_stream range_reduction is_clip_range_data
    + range_translation_size bone_stream range_reduction is_clip_range_data
    + range_scale_size has_scale bone_stream range_reduction is_clip_range_data

/-- The value of `size` at the bone of the mapping entry `bone_index`, and
zero when there is no such bone. -/
def entry_value (bone_streams : List BoneStreams) (size : BoneStreams → Nat) (bone_index : Nat) :
    Nat :=
  match bone_streams[bone_index]? with
  | some bone_stream => size bone_stream
  | none => 0

/-- The output index at which the cursor first passes `data_end`, when the
entries of the mapping skip `size` bytes each, from the cursor `cursor` and the
output index `output_index` on. -/
def first_overrun (size : Nat → Nat) (data_end : Nat) : List Nat → Nat → Nat → Option Nat
  | [], _, _ => none
  | bone_index :: rest, cursor, output_index =>
    if cursor + size bone_index ≤ data_end then
      first_overrun size data_end rest (cursor + size bone_index) (output_index + 1)
    else some output_index

/-- What `get_stream_range_data_size` adds for one bone. -/
def estimated_bone_size (has_scale : Bool) (range_reduction : RangeReductionFlags8)
    (rotation_format : RotationFormat8) (bone_stream : BoneStreams) : Nat :=
  (if bone_stream.is_rotation_animated then
      (if are_any_enum_flags_set range_reduction .Rotations then
        get_range_reduction_rotation_size rotation_format else 0)
    else 0)
  + (if bone_stream.is_translation_animated then
      (if are_any_enum_flags_set range_reduction .Translations then
        k_clip_range_reduction_vector3_range_size else 0)
    else 0)
  + (if has_scale && bone_stream.is_scale_animated then
      (if are_any_enum_flags_set range_reduction .Scales then
        k_clip_range_reduction_vector3_range_size else 0)
    else 0)

/-- The number of enabled animated channels of a bone that are stored in a
3-component format: the rotation when its format is not `Quat_128`, the
translation, and the scale when the clip has scale. -/
def narrow_channel_count (has_scale : Bool) (range_reduction : RangeReductionFlags8)
    (bone_stream : BoneStreams) : Nat :=
  (if are_any_enum_flags_set range_reduction .Rotations = true
      ∧ bone_stream.is_rotation_animated = true
      ∧ bone_stream.rotations.get_rotation_format ≠ .Quat_128 then 1 else 0)
  + (if are_any_enum_flags_set range_reduction .Translations = true
      ∧ bone_stream.is_translation_animated = true then 1 else 0)
  + (if has_scale = true ∧ are_any_enum_flags_set range_reduction .Scales = true
      ∧ bone_stream.is_scale_animated = true then 1 else 0)

/-- The number of enabled animated `Quat_128` rotation channels of a bone:
one or none. -/
def quat_channel_count (range_reduction : RangeReductionFlags8) (bone_stream : BoneStreams) :
    Nat :=
  if are_any_enum_flags_set range_reduction .Rotations = true
      ∧ bone_stream.is_rotation_animated = true
      ∧ bone_stream.rotations.get_rotation_format = .Quat_128 then 1 else 0

/-- Every track of the bone whose bit rate is the constant bit rate holds the
6 bytes of raw sample that the constant-bit-rate shortcut copies. -/
def shortcut_samples_present (P : Primitives) (bone_stream : BoneStreams) : Prop :=
  (P.is_constant_bit_rate bone_stream.rotations.bit_rate = true →
      6 ≤ bone_stream.rotations.samples.length)
  ∧ (P.is_constant_bit_rate bone_stream.translations.bit_rate = true →
      6 ≤ bone_stream.translations.samples.length)
  ∧ (P.is_constant_bit_rate bone_stream.scales.bit_rate = true →
      6 ≤ bone_stream.scales.samples.length)

instance (P : Primitives) (bone_stream : BoneStreams) :
    Decidable (shortcut_samples_present P bone_stream) := by
  unfold shortcut_samples_present
  infer_instance

/-- Every entry of the mapping is the index of a bone that has streams and
ranges. -/
def mapping_in_bounds (bone_streams : List BoneStreams) (bone_ranges : List BoneRanges)
    (output_bone_mapping : List Nat) : Prop :=
  ∀ bone_index ∈ output_bone_mapping,
    bone_index < bone_streams.length ∧ bone_index < bone_ranges.length

instance (bone_streams : List BoneStreams) (bone_ranges : List BoneRanges)
    (output_bone_mapping : List Nat) :
    Decidable (mapping_in_bounds bone_streams bone_ranges output_bone_mapping) := by
  unfold mapping_in_bounds
  infer_instance

/-! ## Concrete inputs -/

/-- A sample choice of the primitives: bit rate `0` is the constant bit rate,
and a component is packed into its low byte. -/
def sample_primitives : Primitives where
  is_constant_bit_rate := fun bit_rate => bit_rate == 0
  pack_vector3_u24_unsafe := fun v => [v.x % 256, v.y % 256, v.z % 256]
  pack_vector4_32 := fun v _ => [v.x % 256, v.y % 256, v.z % 256, v.w % 256]

/-- A sample range. -/
def sample_range : TrackStreamRange :=
  { min := ⟨1, 2, 3, 4⟩, extent := ⟨5, 6, 7, 8⟩ }

/-- The ranges of a sample bone. -/
def sample_bone_ranges : BoneRanges :=
  { rotation := sample_range, translation := sample_range, scale := sample_range }

/-- A sample track: one raw sample of 12 bytes, at a bit rate that is not the
constant one. -/
def sample_track : TrackStream :=
  { samples := [10, 11, 12, 13, 14, 15, 16, 17, 18, 19, 20, 21], sample_size := 12, bit_rate := 5 }

/-- Bone 0 of the end-to-end scenario: rotation animated in a narrower format
at a non-constant bit rate, translation animated, no scale. -/
def scenario_bone0 : BoneStreams :=
  { rotations := { sample_track with rotation_format := .Narrower 0 }
    translations := sample_track
    scales := sample_track
    is_rotation_constant := false
    is_rotation_default := false
    is_translation_constant := false
    is_translation_default := false
    is_scale_constant := true
    is_scale_default := true }

/-- Bone 1 of the end-to-end scenario: rotation constant, translation default,
no scale. -/
def scenario_bone1 : BoneStreams :=
  { rotations := { sample_track with rotation_format := .Narrower 0 }
    translations := sample_track
    scales := sample_track
    is_rotation_constant := true
    is_rotation_default := false
    is_translation_constant := true
    is_translation_default := true
    is_scale_constant := true
    is_scale_default := true }

/-- The segment of the end-to-end scenario. -/
def scenario_segment : SegmentContext :=
  { bone_streams := [scenario_bone0, scenario_bone1]
    ranges := [sample_bone_ranges, sample_bone_ranges] }

/-- The clip of the end-to-end scenario: two bones, scale disabled. -/
def scenario_clip : ClipContext :=
  { segments := [scenario_segment]
    ranges := [sample_bone_ranges, sample_bone_ranges]
    has_scale := false }

/-- The flags of the end-to-end scenario: rotations and translations. -/
def scenario_flags : RangeReductionFlags8 :=
  { rotations := true, translations := true, scales := false }

/-- A memory of zeroes. -/
def zero_memory : Nat → Nat := fun _ => 0

/-- A bone whose rotation is animated in the `Quat_128` format; its translation
and scale are default. -/
def quat_bone : BoneStreams :=
  { rotations := { sample_track with rotation_format := .Quat_128 }
    translations := sample_track
    scales := sample_track
    is_rotation_constant := false
    is_rotation_default := false
    is_translation_constant := true
    is_translation_default := true
    is_scale_constant := true
    is_scale_default := true }

/-- A segment of one bone, `quat_bone`. -/
def quat_segment : SegmentContext :=
  { bone_streams := [quat_bone], ranges := [sample_bone_ranges] }

/-- A clip of one segment, `quat_segment`, with scale. -/
def quat_clip : ClipContext :=
  { segments := [quat_segment], ranges := [sample_bone_ranges], has_scale := true }

/-- Every kind enabled. -/
def all_flags : RangeReductionFlags8 :=
  { rotations := true, translations := true, scales := true }

/-- No kind enabled. -/
def no_flags : RangeReductionFlags8 :=
  { rotations := false, translations := false, scales := false }

/-- A sample track at the constant bit rate of `sample_primitives`. -/
def shortcut_track : TrackStream :=
  { sample_track with bit_rate := 0 }

/-- A bone whose three channels are animated, in a narrower rotation format,
at the constant bit rate of `sample_primitives`. -/
def shortcut_bone : BoneStreams :=
  { rotations := { shortcut_track with rotation_format := .Narrower 0 }
    translations := shortcut_track
    scales := shortcut_track
    is_rotation_constant := false
    is_rotation_default := false
    is_translation_constant := false
    is_translation_default := false
    is_scale_constant := false
    is_scale_default := false }

/-- A bone whose three channels are animated, in a narrower rotation format. -/
def animated_bone : BoneStreams :=
  { rotations := { sample_track with rotation_format := .Narrower 0 }
    translations := sample_track
    scales := sample_track
    is_rotation_constant := false
    is_rotation_default := false
    is_translation_constant := false
    is_translation_default := false
    is_scale_constant := false
    is_scale_default := false }

/-- A bone whose three channels are constant and not default. -/
def constant_bone : BoneStreams :=
  { rotations := { sample_track with rotation_format := .Narrower 0 }
    translations := sample_track
    scales := sample_track
    is_rotation_constant := true
    is_rotation_default := false
    is_translation_constant := true
    is_translation_default := false
    is_scale_constant := true
    is_scale_default := false }

/-- A bone whose three channels are default. -/
def default_bone : BoneStreams :=
  { rotations := { sample_track with rotation_format := .Narrower 0 }
    translations := sample_track
    scales := sample_track
    is_rotation_constant := true
    is_rotation_default := true
    is_translation_constant := true
    is_translation_default := true
    is_scale_constant := true
    is_scale_default := true }

/-- A segment of three bones: all animated, all constant, all default. -/
def mixed_segment : SegmentContext :=
  { bone_streams := [animated_bone, constant_bone, default_bone]
    ranges := [sample_bone_ranges, sample_bone_ranges, sample_bone_ranges] }

/-- A clip over `mixed_segment` that has no scale. -/
def noscale_clip : ClipContext :=
  { segments := [mixed_segment]
    ranges := [sample_bone_ranges, sample_bone_ranges, sample_bone_ranges]
    has_scale := false }

/-- A clip over `mixed_segment` that has scale. -/
def scale_clip : ClipContext :=
  { segments := [mixed_segment]
    ranges := [sample_bone_ranges, sample_bone_ranges, sample_bone_ranges]
    has_scale := true }

/-- The raw sample 0 of a channel when the channel is constant and not
default, and no byte otherwise. -/
def constant_sample_bytes (is_default is_constant : Bool) (track : TrackStream) : List Nat :=
  if is_default = false ∧ is_constant = true then
    (track.get_raw_sample_ptr 0).take track.get_sample_size
  else []

/-- Every channel of the bone that `write_clip_track_data` copies as a constant
holds its raw sample 0 in full. -/
def constant_samples_present (has_scale : Bool) (bone_stream : BoneStreams) : Prop :=
  (bone_stream.is_rotation_default = false → bone_stream.is_rotation_constant = true →
      bone_stream.rotations.sample_size ≤ bone_stream.rotations.samples.length)
  ∧ (bone_stream.is_translation_default = false → bone_stream.is_translation_constant = true →
      bone_stream.translations.sample_size ≤ bone_stream.translations.samples.length)
  ∧ (has_scale = true → bone_stream.is_scale_default = false →
      bone_stream.is_scale_constant = true →
      bone_stream.scales.sample_size ≤ bone_stream.scales.samples.length)

instance (has_scale : Bool) (bone_stream : BoneStreams) :
    Decidable (constant_samples_present has_scale bone_stream) := by
  unfold constant_samples_present
  infer_instance

/-- Order stability of a pass `run` whose entries have the blocks `block`: the
pass appends the blocks of the entries of the mapping in the order of the
mapping; the pass over `m1 ++ m2` is the pass over `m1` followed by the pass
over `m2`; and permuting the mapping permutes the blocks with it, each entry
keeping its block. -/
def order_stable (run : List Nat → OutBuffer → Except Fault OutBuffer)
    (block : Nat → Except Fault (List Nat)) : Prop :=
  (∀ m out, run m out = (mapping_blocks block m).map (fun bl => out.write bl.flatten))
  ∧ (∀ m1 m2 out, run (m1 ++ m2) out = run m1 out >>= run m2)
  ∧ (∀ m1 m2 bl1, m1.Perm m2 → mapping_blocks block m1 = .ok bl1 →
      ∃ bl2, mapping_blocks block m2 = .ok bl2 ∧ bl1.length = m1.length
        ∧ bl2.length = m2.length ∧ (m1.zip bl1).Perm (m2.zip bl2))

/-- A segment of one bone, `shortcut_bone`. -/
def shortcut_segment : SegmentContext :=
  { bone_streams := [shortcut_bone], ranges := [sample_bone_ranges] }

/-- A clip over `shortcut_segment` that has no scale. -/
def shortcut_noscale_clip : ClipContext :=
  { segments := [shortcut_segment], ranges := [sample_bone_ranges], has_scale := false }

/-- Two bone streams that differ at most in the bit rates and in the raw
samples of their channels: they have the same rotation format and the same
classification of each channel. -/
def same_up_to_samples (a b : BoneStreams) : Prop :=
  a.rotations.rotation_format = b.rotations.rotation_format
  ∧ a.is_rotation_constant = b.is_rotation_constant
  ∧ a.is_rotation_default = b.is_rotation_default
  ∧ a.is_translation_constant = b.is_translation_constant
  ∧ a.is_translation_default = b.is_translation_default
  ∧ a.is_scale_constant = b.is_scale_constant
  ∧ a.is_scale_default = b.is_scale_default

instance (a b : BoneStreams) : Decidable (same_up_to_samples a b) := by
  unfold same_up_to_samples
  infer_instance

/-- The segment `mixed_segment` with other bit rates and other raw samples. -/
def mixed_segment_resampled : SegmentContext :=
  { bone_streams :=
      [{ animated_bone with
          rotations := { samples := [1, 2, 3], sample_size := 3, bit_rate := 0,
                         rotation_format := .Narrower 0 }
          translations := { samples := [], sample_size := 0, bit_rate := 9 } },
        { constant_bone with scales := shortcut_track },
        default_bone]
    ranges := [] }

/-- The clip `scale_clip` over `mixed_segment_resampled`. -/
def scale_clip_resampled : ClipContext :=
  { segments := [mixed_segment_resampled, mixed_segment]
    ranges := [sample_bone_ranges, sample_bone_ranges, sample_bone_ranges]
    has_scale := true }

/-- A bone whose rotation is animated in the `Quat_128` format at the constant
bit rate of `sample_primitives`; its translation and scale are default. -/
def quat_shortcut_bone : BoneStreams :=
  { quat_bone with rotations := { shortcut_track with rotation_format := .Quat_128 } }

/-- The clip `scale_clip` with other ranges in its segments and another segment
after segment 0. -/
def scale_clip_other_segments : ClipContext :=
  { segments := [{ mixed_segment with ranges := [] }, scenario_segment]
    ranges := [sample_bone_ranges, sample_bone_ranges, sample_bone_ranges]
    has_scale := true }

/-- A clip with scale that has no segment and no range. -/
def empty_scale_clip : ClipContext :=
  { segments := [], ranges := [], has_scale := true }

/-- The 32-bit float whose four bytes in memory are `b0 b1 b2 b3`, least
significant first. -/
def float_of_bytes (b0 b1 b2 b3 : Nat) : Nat :=
  b0 + 256 * b1 + 65536 * b2 + 16777216 * b3

/-- Reads bytes back as floats, four bytes each. -/
def read_floats : List Nat → List Nat
  | b0 :: b1 :: b2 :: b3 :: rest => float_of_bytes b0 b1 b2 b3 :: read_floats rest
  | _ => []

/-- The four components of the vector are bit patterns of 32-bit floats. -/
def Vector4_32.is_float32 (v : Vector4_32) : Prop :=
  v.x < 2 ^ 32 ∧ v.y < 2 ^ 32 ∧ v.z < 2 ^ 32 ∧ v.w < 2 ^ 32

instance (v : Vector4_32) : Decidable v.is_float32 := by
  unfold Vector4_32.is_float32
  infer_instance

/-- No channel of the bone is constant without being default: every channel is
default or animated. -/
def no_constant_channel (bone_stream : BoneStreams) : Prop :=
  (bone_stream.is_rotation_constant = true → bone_stream.is_rotation_default = true)
  ∧ (bone_stream.is_translation_constant = true → bone_stream.is_translation_default = true)
  ∧ (bone_stream.is_scale_constant = true → bone_stream.is_scale_default = true)

instance (bone_stream : BoneStreams) : Decidable (no_constant_channel bone_stream) := by
  unfold no_constant_channel
  infer_instance

/-- The copy of the raw sample 0 of a constant channel by
`write_clip_track_data`: `memcpy` of the sample at its full size, then the
cursor moves past it. -/
def copy_constant_sample (track : TrackStream) (out_track_data : OutBuffer) :
    Except Fault OutBuffer := do
  let sample_ptr := track.get_raw_sample_ptr 0
  let sample_size := track.get_sample_size
  let out_track_data ← memcpy out_track_data sample_ptr sample_size
  let out_track_data := out_track_data.advance sample_size
  return out_track_data

/-! ## Lemmas on the destination buffer -/

theorem OutBuffer.eq_of (a b : OutBuffer) (hm : ∀ x, a.memory x = b.memory x) (hp : a.ptr = b.ptr) :
    a = b := by
  cases a; cases b
  simp only [OutBuffer.mk.injEq]
  exact ⟨funext hm, hp⟩

@[simp] theorem OutBuffer.write_ptr (out : OutBuffer) (bytes : List Nat) :
    (out.write bytes).ptr = out.ptr + bytes.length := rfl

@[simp] theorem OutBuffer.write_nil (out : OutBuffer) : out.write [] = out := by
  apply OutBuffer.eq_of
  · intro x; simp [OutBuffer.write, OutBuffer.store, OutBuffer.advance]
  · rfl

theorem OutBuffer.write_memory (out : OutBuffer) (bytes : List Nat) (a : Nat) :
    (out.write bytes).memory a =
      if out.ptr ≤ a ∧ a < out.ptr + bytes.length then bytes.getD (a - out.ptr) 0
      else out.memory a := rfl

theorem OutBuffer.write_write (out : OutBuffer) (a b : List Nat) :
    (out.write a).write b = out.write (a ++ b) := by
  apply OutBuffer.eq_of
  · intro x
    simp only [OutBuffer.write_memory, OutBuffer.write_ptr, List.length_append]
    by_cases h1 : out.ptr + a.length ≤ x
    · by_cases h2 : x < out.ptr + a.length + b.length
      · have h3 : out.ptr ≤ x := by omega
        have h4 : x < out.ptr + (a.length + b.length) := by omega
        have h5 : a.length ≤ x - out.ptr := by omega
        have h6 : x - (out.ptr + a.length) = x - out.ptr - a.length := by omega
        simp [h1, h2, h3, h4, List.getD_eq_getElem?_getD, List.getElem?_append_right h5, h6]
      · have h4 : ¬ x < out.ptr + (a.length + b.length) := by omega
        have h7 : ¬ x < out.ptr + a.length := by omega
        simp [h1, h2, h4, h7]
    · have h7 : x < out.ptr + a.length := by omega
      have h4 : x < out.ptr + (a.length + b.length) := by omega
      by_cases h3 : out.ptr ≤ x
      · have h8 : x - out.ptr < a.length := by omega
        simp [h1, h3, h4, h7, List.getD_eq_getElem?_getD, List.getElem?_append_left h8]
      · simp [h1, h3]
  · simp [List.length_append, Nat.add_assoc]

theorem read_bytes_write (out : OutBuffer) (bytes : List Nat) :
    read_bytes (out.write bytes).memory out.ptr bytes.length = bytes := by
  apply List.ext_getElem
  · simp [read_bytes]
  · intro i h1 h2
    simp only [read_bytes, List.length_map, List.length_range] at h1
    simp [read_bytes, OutBuffer.write_memory, h1, List.getD_eq_getElem?_getD]

theorem OutBuffer.write_memory_below (out : OutBuffer) (bytes : List Nat) (a : Nat)
    (h : a < out.ptr) : (out.write bytes).memory a = out.memory a := by
  have : ¬ out.ptr ≤ a := by omega
  simp [OutBuffer.write_memory, this]

theorem OutBuffer.write_memory_above (out : OutBuffer) (bytes : List Nat) (a : Nat)
    (h : out.ptr + bytes.length ≤ a) : (out.write bytes).memory a = out.memory a := by
  have : ¬ a < out.ptr + bytes.length := by omega
  simp [OutBuffer.write_memory, this]

theorem OutBuffer.write_inj (out : OutBuffer) (a b : List Nat) (h : out.write a = out.write b) :
    a = b := by
  have hl : a.length = b.length := by
    have := congrArg OutBuffer.ptr h
    simpa using this
  have := read_bytes_write out a
  rw [h, hl, read_bytes_write] at this
  exact this.symm

theorem vector_as_float_ptr_length (v : Vector4_32) : (vector_as_float_ptr v).length = 16 := rfl

theorem range_pair_bytes_length (range : TrackStreamRange) (n : Nat) (h : n ≤ 16) :
    (range_pair_bytes range n).length = 2 * n := by
  simp [range_pair_bytes, vector_as_float_ptr_length, Nat.min_eq_left h]; omega

theorem rotation_member_size_le (bone_stream : BoneStreams) :
    rotation_member_size bone_stream ≤ 16 := by
  unfold rotation_member_size; split <;> omega

theorem take_bytes_length (src : List Nat) (n : Nat) (b : List Nat)
    (h : take_bytes src n = .ok b) : b.length = n := by
  unfold take_bytes at h
  split at h
  · rename_i hn
    simp only [Except.ok.injEq] at h
    subst h
    simp [Nat.min_eq_left hn]
  · simp at h

theorem take_bytes_ok (src : List Nat) (n : Nat) (h : n ≤ src.length) :
    take_bytes src n = .ok (src.take n) := by
  simp [take_bytes, h]

theorem memcpy_advance_eq (out : OutBuffer) (src : List Nat) (n : Nat) :
    (do let o ← memcpy out src n; pure (o.advance n) : Except Fault OutBuffer)
      = (take_bytes src n).map out.write := by
  unfold memcpy take_bytes
  split
  · rename_i h
    simp [bind, Except.bind, pure, Except.pure, Except.map, OutBuffer.write, Nat.min_eq_left h]
  · rfl

theorem store_pack_eq (out : OutBuffer) (a b : List Nat) (n : Nat) (ha : a.length = n)
    (hb : b.length = n) :
    (((out.store a).advance n).store b).advance n = out.write (a ++ b) := by
  subst ha
  rw [← OutBuffer.write_write]
  simp only [OutBuffer.write, hb]

/-! ## The channel writers and their views -/

theorem write_range_data_eq (range : TrackStreamRange) (n : Nat) (out : OutBuffer) (h : n ≤ 16) :
    write_range_data range n out = .ok (out.write (range_pair_bytes range n)) := by
  have h1 : n ≤ (vector_as_float_ptr range.min).length := by
    rw [vector_as_float_ptr_length]; exact h
  have h2 : n ≤ (vector_as_float_ptr range.extent).length := by
    rw [vector_as_float_ptr_length]; exact h
  have e1 : ((vector_as_float_ptr range.min).take n).length = n := by simp [List.length_take, h1]
  have e2 : ((vector_as_float_ptr range.extent).take n).length = n := by
    simp [List.length_take, h2]
  simp only [write_range_data, memcpy, TrackStreamRange.get_min, TrackStreamRange.get_extent, h1,
    h2, if_true, bind, Except.bind, pure, Except.pure, range_pair_bytes, ← OutBuffer.write_write]
  simp only [OutBuffer.write, e1, e2, OutBuffer.advance, OutBuffer.store]

theorem write_range_track_data_impl_eq (P : Primitives) (track : TrackStream)
    (range : TrackStreamRange) (is_clip : Bool) (out : OutBuffer)
    (h : is_clip = true ∨ P.exact) :
    write_range_track_data_impl P track range is_clip out
      = (range_impl_bytes P track range is_clip).map out.write := by
  cases is_clip with
  | true =>
    have := write_range_data_eq range 12 out (by omega)
    simp only [write_range_data] at this
    simp only [write_range_track_data_impl, range_impl_bytes, if_true, Except.map]
    exact this
  | false =>
    have hx : P.exact := by simpa using h
    by_cases hc : P.is_constant_bit_rate track.bit_rate = true
    · have := memcpy_advance_eq out (track.get_raw_sample_ptr 0) 6
      simpa [write_range_track_data_impl, range_impl_bytes, TrackStream.get_bit_rate, hc] using this
    · simp only [write_range_track_data_impl, range_impl_bytes, TrackStream.get_bit_rate, hc,
        Bool.false_eq_true, if_false, pure, Except.pure, Except.map, TrackStreamRange.get_min,
        TrackStreamRange.get_extent]
      rw [store_pack_eq _ _ _ 3 (hx.1 _) (hx.1 _)]

theorem write_range_track_data_impl_ptr (P : Primitives) (track : TrackStream)
    (range : TrackStreamRange) (is_clip : Bool) (out out1 : OutBuffer)
    (h : write_range_track_data_impl P track range is_clip out = .ok out1) :
    out1.ptr = out.ptr + (if is_clip then 24 else 6) := by
  cases is_clip with
  | true =>
    rw [write_range_track_data_impl_eq P track range true out (Or.inl rfl)] at h
    simp only [range_impl_bytes, if_true, Except.map, Except.ok.injEq] at h
    subst h
    simp [range_pair_bytes_length]
  | false =>
    by_cases hc : P.is_constant_bit_rate track.bit_rate = true
    · have := memcpy_advance_eq out (track.get_raw_sample_ptr 0) 6
      simp only [write_range_track_data_impl, TrackStream.get_bit_rate, hc, Bool.false_eq_true,
        if_false, if_true, Nat.reduceMul] at h
      rw [this] at h
      cases hb : take_bytes (track.get_raw_sample_ptr 0) 6 with
      | error e => simp [hb, Except.map] at h
      | ok b =>
        simp only [hb, Except.map, Except.ok.injEq] at h
        subst h
        simp [take_bytes_length _ _ _ hb]
    · simp only [write_range_track_data_impl, TrackStream.get_bit_rate, hc, Bool.false_eq_true,
        if_false, pure, Except.pure, Except.ok.injEq] at h
      subst h
      simp [OutBuffer.advance, OutBuffer.store]

theorem except_map_ok_iff {α β : Type} (f : α → β) (r : Except Fault α) (y : β) :
    r.map f = .ok y ↔ ∃ x, r = .ok x ∧ f x = y := by
  cases r <;> simp [Except.map]

theorem write_range_track_data_impl_cursor (P : Primitives) (track : TrackStream)
    (range : TrackStreamRange) (is_clip : Bool) (out : OutBuffer) :
    (write_range_track_data_impl P track range is_clip out).map OutBuffer.ptr
      = (range_impl_bytes P track range is_clip).map
          (fun _ => out.ptr + (if is_clip then 24 else 6)) := by
  cases is_clip with
  | true =>
    rw [write_range_track_data_impl_eq P track range true out (Or.inl rfl)]
    simp [range_impl_bytes, Except.map, range_pair_bytes_length]
  | false =>
    by_cases hc : P.is_constant_bit_rate track.bit_rate = true
    · have := memcpy_advance_eq out (track.get_raw_sample_ptr 0) 6
      simp only [write_range_track_data_impl, range_impl_bytes, TrackStream.get_bit_rate, hc,
        Bool.false_eq_true, if_false, if_true, Nat.reduceMul]
      rw [this]
      cases hb : take_bytes (track.get_raw_sample_ptr 0) 6 with
      | error e => rfl
      | ok b => simp [Except.map, take_bytes_length _ _ _ hb]
    · simp [write_range_track_data_impl, range_impl_bytes, TrackStream.get_bit_rate, hc,
        pure, Except.pure, Except.map, OutBuffer.advance, OutBuffer.store, Nat.add_assoc]

theorem write_range_track_data_rotation_eq (P : Primitives) (bone_stream : BoneStreams)
    (bone_range : BoneRanges) (flags : RangeReductionFlags8) (is_clip : Bool) (out : OutBuffer)
    (h : is_clip = true ∨ P.exact) :
    write_range_track_data_rotation P bone_stream bone_range flags is_clip out
      = (range_rotation_bytes P bone_stream bone_range flags is_clip).map out.write := by
  by_cases hg : (are_any_enum_flags_set flags .Rotations && bone_stream.is_rotation_animated) = true
  · cases is_clip with
    | true =>
      have := write_range_data_eq bone_range.rotation (rotation_member_size bone_stream) out
        (rotation_member_size_le bone_stream)
      simp only [write_range_data, rotation_member_size] at this
      simp only [write_range_track_data_rotation, range_rotation_bytes, hg, if_true, Except.map,
        rotation_member_size]
      exact this
    | false =>
      have hx : P.exact := by simpa using h
      by_cases hq : bone_stream.rotations.rotation_format = .Quat_128
      · simp only [write_range_track_data_rotation, range_rotation_bytes, hg, hq,
          RotationTrackStream.get_rotation_format, Bool.false_eq_true, if_false, if_true, pure,
          Except.pure, Except.map, TrackStreamRange.get_min, TrackStreamRange.get_extent]
        rw [store_pack_eq _ _ _ 4 (hx.2 _ _) (hx.2 _ _)]
      · by_cases hc : P.is_constant_bit_rate bone_stream.rotations.bit_rate = true
        · have := memcpy_advance_eq out (bone_stream.rotations.get_raw_sample_ptr 0) 6
          simpa [write_range_track_data_rotation, range_rotation_bytes, hg, hq,
            RotationTrackStream.get_rotation_format, TrackStream.get_bit_rate, hc] using this
        · simp only [write_range_track_data_rotation, range_rotation_bytes, hg, hq,
            RotationTrackStream.get_rotation_format, TrackStream.get_bit_rate, hc,
            Bool.false_eq_true, if_false, if_true, pure, Except.pure, Except.map,
            TrackStreamRange.get_min, TrackStreamRange.get_extent]
          rw [store_pack_eq _ _ _ 3 (hx.1 _) (hx.1 _)]
  · simp [write_range_track_data_rotation, range_rotation_bytes, hg, pure, Except.pure, Except.map]

theorem write_range_track_data_rotation_cursor (P : Primitives) (bone_stream : BoneStreams)
    (bone_range : BoneRanges) (flags : RangeReductionFlags8) (is_clip : Bool) (out : OutBuffer) :
    (write_range_track_data_rotation P bone_stream bone_range flags is_clip out).map OutBuffer.ptr
      = (range_rotation_bytes P bone_stream bone_range flags is_clip).map
          (fun _ => out.ptr + range_rotation_size bone_stream flags is_clip) := by
  by_cases hg : (are_any_enum_flags_set flags .Rotations && bone_stream.is_rotation_animated) = true
  · cases is_clip with
    | true =>
      rw [write_range_track_data_rotation_eq P bone_stream bone_range flags true out (Or.inl rfl)]
      simp [range_rotation_bytes, range_rotation_size, hg, Except.map,
        range_pair_bytes_length _ _ (rotation_member_size_le bone_stream)]
    | false =>
      by_cases hq : bone_stream.rotations.rotation_format = .Quat_128
      · simp [write_range_track_data_rotation, range_rotation_bytes, range_rotation_size, hg, hq,
          RotationTrackStream.get_rotation_format, pure, Except.pure, Except.map,
          OutBuffer.advance, OutBuffer.store, Nat.add_assoc]
      · by_cases hc : P.is_constant_bit_rate bone_stream.rotations.bit_rate = true
        · have := memcpy_advance_eq out (bone_stream.rotations.get_raw_sample_ptr 0) 6
          simp only [write_range_track_data_rotation, range_rotation_bytes, range_rotation_size,
            hg, hq, RotationTrackStream.get_rotation_format, TrackStream.get_bit_rate, hc,
            Bool.false_eq_true, if_false, if_true, Nat.reduceMul]
          rw [this]
          cases hb : take_bytes (bone_stream.rotations.get_raw_sample_ptr 0) 6 with
          | error e => rfl
          | ok b => simp [Except.map, take_bytes_length _ _ _ hb]
        · simp [write_range_track_data_rotation, range_rotation_bytes, range_rotation_size, hg,
            hq, RotationTrackStream.get_rotation_format, TrackStream.get_bit_rate, hc, pure,
            Except.pure, Except.map, OutBuffer.advance, OutBuffer.store, Nat.add_assoc]
  · simp [write_range_track_data_rotation, range_rotation_bytes, range_rotation_size, hg, pure,
      Except.pure, Except.map]

theorem write_range_track_data_translation_eq (P : Primitives) (bone_stream : BoneStreams)
    (bone_range : BoneRanges) (flags : RangeReductionFlags8) (is_clip : Bool) (out : OutBuffer)
    (h : is_clip = true ∨ P.exact) :
    write_range_track_data_translation P bone_stream bone_range flags is_clip out
      = (range_translation_bytes P bone_stream bone_range flags is_clip).map out.write := by
  unfold write_range_track_data_translation range_translation_bytes
  split
  · exact write_range_track_data_impl_eq P _ _ is_clip out h
  · simp [Except.map]

theorem write_range_track_data_translation_cursor (P : Primitives) (bone_stream : BoneStreams)
    (bone_range : BoneRanges) (flags : RangeReductionFlags8) (is_clip : Bool) (out : OutBuffer) :
    (write_range_track_data_translation P bone_stream bone_range flags is_clip out).map
        OutBuffer.ptr
      = (range_translation_bytes P bone_stream bone_range flags is_clip).map
          (fun _ => out.ptr + range_translation_size bone_stream flags is_clip) := by
  unfold write_range_track_data_translation range_translation_bytes range_translation_size
  split
  · exact write_range_track_data_impl_cursor P _ _ is_clip out
  · simp [Except.map]

theorem write_range_track_data_scale_eq (P : Primitives) (clip_context : ClipContext)
    (bone_stream : BoneStreams) (bone_range : BoneRanges) (flags : RangeReductionFlags8)
    (is_clip : Bool) (out : OutBuffer) (h : is_clip = true ∨ P.exact) :
    write_range_track_data_scale P clip_context bone_stream bone_range flags is_clip out
      = (range_scale_bytes P clip_context.has_scale bone_stream bone_range flags is_clip).map
          out.write := by
  unfold write_range_track_data_scale range_scale_bytes
  split
  · exact write_range_track_data_impl_eq P _ _ is_clip out h
  · simp [Except.map]

theorem write_range_track_data_scale_cursor (P : Primitives) (clip_context : ClipContext)
    (bone_stream : BoneStreams) (bone_range : BoneRanges) (flags : RangeReductionFlags8)
    (is_clip : Bool) (out : OutBuffer) :
    (write_range_track_data_scale P clip_context bone_stream bone_range flags is_clip out).map
        OutBuffer.ptr
      = (range_scale_bytes P clip_context.has_scale bone_stream bone_range flags is_clip).map
          (fun _ => out.ptr + range_scale_size clip_context.has_scale bone_stream flags is_clip) := by
  unfold write_range_track_data_scale range_scale_bytes range_scale_size
  split
  · exact write_range_track_data_impl_cursor P _ _ is_clip out
  · simp [Except.map]

/-! ## Sequencing of writers -/

theorem bind_write (s1 s2 : OutBuffer → Except Fault OutBuffer) (b1 b2 : Except Fault (List Nat))
    (h1 : ∀ o, s1 o = b1.map o.write) (h2 : ∀ o, s2 o = b2.map o.write) (o : OutBuffer) :
    (s1 o >>= s2) = (do let x ← b1; let y ← b2; pure (x ++ y) : Except Fault (List Nat)).map
      o.write := by
  rw [h1 o]
  cases b1 with
  | error e => rfl
  | ok x =>
    simp only [Except.map, bind, Except.bind]
    rw [h2]
    cases b2 with
    | error e => rfl
    | ok y => simp [Except.map, pure, Except.pure, OutBuffer.write_write]

theorem bind_cursor (s1 s2 : OutBuffer → Except Fault OutBuffer) (b1 b2 : Except Fault (List Nat))
    (n1 n2 : Nat)
    (h1 : ∀ o, (s1 o).map OutBuffer.ptr = b1.map (fun _ => o.ptr + n1))
    (h2 : ∀ o, (s2 o).map OutBuffer.ptr = b2.map (fun _ => o.ptr + n2)) (o : OutBuffer) :
    (s1 o >>= s2).map OutBuffer.ptr
      = (do let x ← b1; let y ← b2; pure (x ++ y) : Except Fault (List Nat)).map
          (fun _ => o.ptr + (n1 + n2)) := by
  have he := h1 o
  cases b1 with
  | error e =>
    cases hs : s1 o with
    | error f => rw [hs] at he; simp only [Except.map, Except.error.injEq] at he; subst he; rfl
    | ok o1 => rw [hs] at he; simp [Except.map] at he
  | ok x =>
    cases hs : s1 o with
    | error f => rw [hs] at he; simp [Except.map] at he
    | ok o1 =>
      rw [hs] at he
      simp only [Except.map, Except.ok.injEq] at he
      have e2 := h2 o1
      simp only [bind, Except.bind]
      rw [e2, he]
      cases b2 with
      | error e => rfl
      | ok y => simp [Except.map, pure, Except.pure, Nat.add_assoc]

/-! ## The loop body of `write_range_track_data` -/

theorem write_range_track_data_block_eq (P : Primitives) (clip_context : ClipContext)
    (bone_stream : BoneStreams) (bone_range : BoneRanges) (flags : RangeReductionFlags8)
    (is_clip : Bool) (h : is_clip = true ∨ P.exact) (out : OutBuffer) :
    (write_range_track_data_rotation P bone_stream bone_range flags is_clip out
      >>= write_range_track_data_translation P bone_stream bone_range flags is_clip
      >>= write_range_track_data_scale P clip_context bone_stream bone_range flags is_clip)
      = (range_block_bytes P clip_context.has_scale flags is_clip bone_stream bone_range).map
          out.write := by
  have h12 := bind_write _ _ _ _
    (fun o => write_range_track_data_rotation_eq P bone_stream bone_range flags is_clip o h)
    (fun o => write_range_track_data_translation_eq P bone_stream bone_range flags is_clip o h)
  have h123 := bind_write _ _ _ _ h12
    (fun o => write_range_track_data_scale_eq P clip_context bone_stream bone_range flags is_clip
      o h) out
  rw [h123]
  congr 1
  unfold range_block_bytes
  cases range_rotation_bytes P bone_stream bone_range flags is_clip <;>
    cases range_translation_bytes P bone_stream bone_range flags is_clip <;>
    cases range_scale_bytes P clip_context.has_scale bone_stream bone_range flags is_clip <;> rfl

theorem write_range_track_data_block_cursor (P : Primitives) (clip_context : ClipContext)
    (bone_stream : BoneStreams) (bone_range : BoneRanges) (flags : RangeReductionFlags8)
    (is_clip : Bool) (out : OutBuffer) :
    (write_range_track_data_rotation P bone_stream bone_range flags is_clip out
      >>= write_range_track_data_translation P bone_stream bone_range flags is_clip
      >>= write_range_track_data_scale P clip_context bone_stream bone_range flags is_clip).map
        OutBuffer.ptr
      = (range_block_bytes P clip_context.has_scale flags is_clip bone_stream bone_range).map
          (fun _ => out.ptr + range_block_size clip_context.has_scale flags is_clip bone_stream) := by
  have h12 := bind_cursor _ _ _ _ _ _
    (fun o => write_range_track_data_rotation_cursor P bone_stream bone_range flags is_clip o)
    (fun o => write_range_track_data_translation_cursor P bone_stream bone_range flags is_clip o)
  have h123 := bind_cursor _ _ _ _ _ _ h12
    (fun o => write_range_track_data_scale_cursor P clip_context bone_stream bone_range flags
      is_clip o) out
  rw [h123]
  unfold range_block_bytes range_block_size
  cases range_rotation_bytes P bone_stream bone_range flags is_clip <;>
    cases range_translation_bytes P bone_stream bone_range flags is_clip <;>
    cases range_scale_bytes P clip_context.has_scale bone_stream bone_range flags is_clip <;> rfl

theorem write_range_track_data_bone_unfold (P : Primitives) (clip_context : ClipContext)
    (bone_streams : List BoneStreams) (bone_ranges : List BoneRanges)
    (flags : RangeReductionFlags8) (is_clip : Bool) (b : Nat) (out : OutBuffer) :
    write_range_track_data_bone P clip_context bone_streams bone_ranges flags is_clip b out
      = (do
          let bone_stream ← at_index bone_streams b
          let bone_range ← at_index bone_ranges b
          (write_range_track_data_rotation P bone_stream bone_range flags is_clip out
            >>= write_range_track_data_translation P bone_stream bone_range flags is_clip
            >>= write_range_track_data_scale P clip_context bone_stream bone_range flags
              is_clip)) := by
  unfold write_range_track_data_bone
  cases at_index bone_streams b with
  | error e => rfl
  | ok bs =>
    cases at_index bone_ranges b with
    | error e => rfl
    | ok br =>
      simp only [bind, Except.bind, pure, Except.pure]
      cases write_range_track_data_rotation P bs br flags is_clip out with
      | error e => rfl
      | ok o1 =>
        simp only []
        cases write_range_track_data_translation P bs br flags is_clip o1 with
        | error e => rfl
        | ok o2 =>
          simp only []
          cases write_range_track_data_scale P clip_context bs br flags is_clip o2 <;> rfl

theorem write_range_track_data_bone_eq (P : Primitives) (clip_context : ClipContext)
    (bone_streams : List BoneStreams) (bone_ranges : List BoneRanges)
    (flags : RangeReductionFlags8) (is_clip : Bool) (h : is_clip = true ∨ P.exact) (b : Nat)
    (out : OutBuffer) :
    write_range_track_data_bone P clip_context bone_streams bone_ranges flags is_clip b out
      = (entry_block bone_streams bone_ranges
          (range_block_bytes P clip_context.has_scale flags is_clip) b).map out.write := by
  rw [write_range_track_data_bone_unfold]
  unfold entry_block
  cases at_index bone_streams b with
  | error e => rfl
  | ok bs =>
    cases at_index bone_ranges b with
    | error e => rfl
    | ok br =>
      exact write_range_track_data_block_eq P clip_context bs br flags is_clip h out

theorem write_range_track_data_bone_cursor (P : Primitives) (clip_context : ClipContext)
    (bone_streams : List BoneStreams) (bone_ranges : List BoneRanges)
    (flags : RangeReductionFlags8) (is_clip : Bool) (b : Nat) (bs : BoneStreams)
    (br : BoneRanges) (hs : at_index bone_streams b = .ok bs)
    (hr : at_index bone_ranges b = .ok br) (out : OutBuffer) :
    (write_range_track_data_bone P clip_context bone_streams bone_ranges flags is_clip b
        out).map OutBuffer.ptr
      = (range_block_bytes P clip_context.has_scale flags is_clip bs br).map
          (fun _ => out.ptr + range_block_size clip_context.has_scale flags is_clip bs) := by
  rw [write_range_track_data_bone_unfold, hs, hr]
  exact write_range_track_data_block_cursor P clip_context bs br flags is_clip out

/-! ## The loop body of `write_clip_track_data` -/

theorem write_clip_track_data_rotation_eq (bone_stream : BoneStreams) (bone_range : BoneRanges)
    (flags : RangeReductionFlags8) (out : OutBuffer) :
    write_clip_track_data_rotation bone_stream bone_range flags out
      = (track_rotation_bytes bone_stream bone_range flags).map out.write := by
  by_cases hd : bone_stream.is_rotation_default = true
  · simp [write_clip_track_data_rotation, track_rotation_bytes, hd, pure, Except.pure, Except.map]
  · by_cases hc : bone_stream.is_rotation_constant = true
    · have := memcpy_advance_eq out (bone_stream.rotations.get_raw_sample_ptr 0)
        bone_stream.rotations.sample_size
      simpa [write_clip_track_data_rotation, track_rotation_bytes, hd, hc,
        TrackStream.get_sample_size] using this
    · by_cases hg : (are_any_enum_flags_set flags .Rotations
          && bone_stream.is_rotation_animated) = true
      · have := write_range_data_eq bone_range.rotation (rotation_member_size bone_stream) out
          (rotation_member_size_le bone_stream)
        simp only [write_clip_track_data_rotation, track_rotation_bytes, hd, hc, hg,
          Bool.not_eq_true, Bool.not_false, Bool.not_true, if_true, if_false, Bool.false_eq_true,
          Except.map]
        simpa [rotation_member_size] using this
      · simp [write_clip_track_data_rotation, track_rotation_bytes, hd, hc, hg, pure, Except.pure,
          Except.map]

theorem write_clip_track_data_translation_eq (bone_stream : BoneStreams)
    (bone_range : BoneRanges) (flags : RangeReductionFlags8) (out : OutBuffer) :
    write_clip_track_data_translation bone_stream bone_range flags out
      = (track_translation_bytes bone_stream bone_range flags).map out.write := by
  by_cases hd : bone_stream.is_translation_default = true
  · simp [write_clip_track_data_translation, track_translation_bytes, hd, pure, Except.pure,
      Except.map]
  · by_cases hc : bone_stream.is_translation_constant = true
    · have := memcpy_advance_eq out (bone_stream.translations.get_raw_sample_ptr 0)
        bone_stream.translations.sample_size
      simpa [write_clip_track_data_translation, track_translation_bytes, hd, hc,
        TrackStream.get_sample_size] using this
    · by_cases hg : (are_any_enum_flags_set flags .Translations
          && bone_stream.is_translation_animated) = true
      · have := write_range_data_eq bone_range.translation 12 out (by omega)
        simp only [write_clip_track_data_translation, track_translation_bytes, hd, hc, hg,
          Bool.not_eq_true, Bool.not_false, Bool.not_true, if_true, if_false, Bool.false_eq_true,
          Except.map]
        simpa using this
      · simp [write_clip_track_data_translation, track_translation_bytes, hd, hc, hg, pure,
          Except.pure, Except.map]

theorem write_clip_track_data_scale_eq (clip_context : ClipContext) (bone_stream : BoneStreams)
    (bone_range : BoneRanges) (flags : RangeReductionFlags8) (out : OutBuffer) :
    write_clip_track_data_scale clip_context bone_stream bone_range flags out
      = (track_scale_bytes clip_context.has_scale bone_stream bone_range flags).map out.write := by
  by_cases hd : (clip_context.has_scale && !bone_stream.is_scale_default) = true
  · by_cases hc : bone_stream.is_scale_constant = true
    · have := memcpy_advance_eq out (bone_stream.scales.get_raw_sample_ptr 0)
        bone_stream.scales.sample_size
      simp only [write_clip_track_data_scale, track_scale_bytes, hd, hc, if_true,
        TrackStream.get_sample_size]
      simpa using this
    · by_cases hg : (are_any_enum_flags_set flags .Scales && bone_stream.is_scale_animated) = true
      · have := write_range_data_eq bone_range.scale 12 out (by omega)
        simp only [write_clip_track_data_scale, track_scale_bytes, hd, hc, hg, if_true, if_false,
          Bool.false_eq_true, Except.map]
        simpa using this
      · simp only [write_clip_track_data_scale, track_scale_bytes, hd, hc, hg, if_true, if_false,
          Bool.false_eq_true, pure, Except.pure, Except.map, OutBuffer.write_nil]
  · simp only [write_clip_track_data_scale, track_scale_bytes, hd, if_false, Bool.false_eq_true,
      pure, Except.pure, Except.map, OutBuffer.write_nil]

theorem write_clip_track_data_block_eq (clip_context : ClipContext) (bone_stream : BoneStreams)
    (bone_range : BoneRanges) (flags : RangeReductionFlags8) (out : OutBuffer) :
    (write_clip_track_data_rotation bone_stream bone_range flags out
      >>= write_clip_track_data_translation bone_stream bone_range flags
      >>= write_clip_track_data_scale clip_context bone_stream bone_range flags)
      = (track_block_bytes clip_context.has_scale flags bone_stream bone_range).map out.write := by
  have h12 := bind_write _ _ _ _
    (fun o => write_clip_track_data_rotation_eq bone_stream bone_range flags o)
    (fun o => write_clip_track_data_translation_eq bone_stream bone_range flags o)
  have h123 := bind_write _ _ _ _ h12
    (fun o => write_clip_track_data_scale_eq clip_context bone_stream bone_range flags o) out
  rw [h123]
  congr 1
  unfold track_block_bytes
  cases track_rotation_bytes bone_stream bone_range flags <;>
    cases track_translation_bytes bone_stream bone_range flags <;>
    cases track_scale_bytes clip_context.has_scale bone_stream bone_range flags <;> rfl

theorem write_clip_track_data_bone_unfold (clip_context : ClipContext) (segment : SegmentContext)
    (flags : RangeReductionFlags8) (b : Nat) (out : OutBuffer) :
    write_clip_track_data_bone clip_context segment flags b out
      = (do
          let bone_stream ← at_index segment.bone_streams b
          let bone_range ← at_index clip_context.ranges b
          (write_clip_track_data_rotation bone_stream bone_range flags out
            >>= write_clip_track_data_translation bone_stream bone_range flags
            >>= write_clip_track_data_scale clip_context bone_stream bone_range flags)) := by
  unfold write_clip_track_data_bone
  cases at_index segment.bone_streams b with
  | error e => rfl
  | ok bs =>
    cases at_index clip_context.ranges b with
    | error e => rfl
    | ok br =>
      simp only [bind, Except.bind, pure, Except.pure]
      cases write_clip_track_data_rotation bs br flags out with
      | error e => rfl
      | ok o1 =>
        simp only []
        cases write_clip_track_data_translation bs br flags o1 with
        | error e => rfl
        | ok o2 =>
          simp only []
          cases write_clip_track_data_scale clip_context bs br flags o2 <;> rfl

theorem write_clip_track_data_bone_eq (clip_context : ClipContext) (segment : SegmentContext)
    (flags : RangeReductionFlags8) (b : Nat) (out : OutBuffer) :
    write_clip_track_data_bone clip_context segment flags b out
      = (entry_block segment.bone_streams clip_context.ranges
          (track_block_bytes clip_context.has_scale flags) b).map out.write := by
  rw [write_clip_track_data_bone_unfold]
  unfold entry_block
  cases at_index segment.bone_streams b with
  | error e => rfl
  | ok bs =>
    cases at_index clip_context.ranges b with
    | error e => rfl
    | ok br => exact write_clip_track_data_block_eq clip_context bs br flags out

/-! ## The loop over the output bone mapping -/

theorem output_bone_loop_write (assert_checks : Bool) (data_end : Nat)
    (body : Nat → OutBuffer → Except Fault OutBuffer) (blk : Nat → Except Fault (List Nat))
    (hbody : ∀ b o, body b o = (blk b).map o.write) (m : List Nat) :
    ∀ (i : Nat) (out : OutBuffer), assert_checks = false →
      output_bone_loop assert_checks data_end body m i out
        = (mapping_blocks blk m).map (fun bl => out.write bl.flatten) := by
  induction m with
  | nil => intro i out _; simp [output_bone_loop, mapping_blocks, Except.map]
  | cons b rest ih =>
    intro i out hc
    subst hc
    simp only [output_bone_loop, mapping_blocks, hbody b out]
    cases blk b with
    | error e => rfl
    | ok x =>
      simp only [Except.map, bind, Except.bind, ACL_ASSERT, Bool.false_and, Bool.false_eq_true,
        if_false]
      rw [ih (i + 1) (out.write x) rfl]
      cases mapping_blocks blk rest with
      | error e => rfl
      | ok xs => simp [Except.map, pure, Except.pure, OutBuffer.write_write]

theorem output_bone_loop_cursor (data_end : Nat)
    (body : Nat → OutBuffer → Except Fault OutBuffer) (blk : Nat → Except Fault (List Nat))
    (sz : Nat → Nat)
    (hbody : ∀ b o, (body b o).map OutBuffer.ptr = (blk b).map (fun _ => o.ptr + sz b))
    (m : List Nat) :
    ∀ (i : Nat) (out : OutBuffer),
      (output_bone_loop false data_end body m i out).map OutBuffer.ptr
        = (mapping_blocks blk m).map (fun _ => out.ptr + (m.map sz).sum) := by
  induction m with
  | nil => intro i out; simp [output_bone_loop, mapping_blocks, Except.map]
  | cons b rest ih =>
    intro i out
    have hb := hbody b out
    simp only [output_bone_loop, mapping_blocks]
    cases hx : blk b with
    | error e =>
      rw [hx] at hb
      cases hs : body b out with
      | error f => rw [hs] at hb; simp only [Except.map, Except.error.injEq] at hb; subst hb; rfl
      | ok o1 => rw [hs] at hb; simp [Except.map] at hb
    | ok x =>
      rw [hx] at hb
      cases hs : body b out with
      | error f => rw [hs] at hb; simp [Except.map] at hb
      | ok o1 =>
        rw [hs] at hb
        simp only [Except.map, Except.ok.injEq] at hb
        simp only [bind, Except.bind, ACL_ASSERT, Bool.false_and, Bool.false_eq_true, if_false]
        rw [ih (i + 1) o1, hb]
        cases mapping_blocks blk rest with
        | error e => rfl
        | ok xs => simp [Except.map, pure, Except.pure, Nat.add_assoc]

theorem output_bone_loop_checked (data_end : Nat)
    (body : Nat → OutBuffer → Except Fault OutBuffer) (blk : Nat → Except Fault (List Nat))
    (sz : Nat → Nat)
    (hbody : ∀ b o, (body b o).map OutBuffer.ptr = (blk b).map (fun _ => o.ptr + sz b))
    (m : List Nat) :
    ∀ (i : Nat) (out : OutBuffer) (bl : List (List Nat)), mapping_blocks blk m = .ok bl →
      output_bone_loop true data_end body m i out
        = match first_overrun sz data_end m out.ptr i with
          | some j => .error (.wrote_too_much j)
          | none => output_bone_loop false data_end body m i out := by
  induction m with
  | nil => intro i out bl _; simp [output_bone_loop, first_overrun]
  | cons b rest ih =>
    intro i out bl hbl
    have hb := hbody b out
    simp only [mapping_blocks] at hbl
    cases hx : blk b with
    | error e => rw [hx] at hbl; simp [bind, Except.bind] at hbl
    | ok x =>
      rw [hx] at hbl hb
      cases hr : mapping_blocks blk rest with
      | error e => rw [hr] at hbl; simp [bind, Except.bind] at hbl
      | ok xs =>
        cases hs : body b out with
        | error f => rw [hs] at hb; simp [Except.map] at hb
        | ok o1 =>
          rw [hs] at hb
          simp only [Except.map, Except.ok.injEq] at hb
          simp only [output_bone_loop, first_overrun, hs, bind, Except.bind, ACL_ASSERT,
            Bool.true_and, Bool.false_and, Bool.false_eq_true, if_false, hb]
          by_cases hle : out.ptr + sz b ≤ data_end
          · simp only [hle, decide_True, Bool.not_true, Bool.false_eq_true, if_false, if_true]
            rw [ih (i + 1) o1 xs hr, hb]
          · simp [hle]

theorem mapping_blocks_append (blk : Nat → Except Fault (List Nat)) (m1 m2 : List Nat) :
    mapping_blocks blk (m1 ++ m2)
      = (do let a ← mapping_blocks blk m1; let b ← mapping_blocks blk m2; pure (a ++ b)) := by
  induction m1 with
  | nil =>
    simp only [List.nil_append, mapping_blocks, bind, Except.bind, pure, Except.pure]
    cases mapping_blocks blk m2 <;> rfl
  | cons b rest ih =>
    rw [List.cons_append]
    simp only [mapping_blocks]
    rw [ih]
    cases blk b with
    | error e => rfl
    | ok x =>
      cases mapping_blocks blk rest with
      | error e => rfl
      | ok xs =>
        cases mapping_blocks blk m2 <;> rfl

theorem mapping_blocks_take (blk : Nat → Except Fault (List Nat)) (m : List Nat)
    (bl : List (List Nat)) (h : mapping_blocks blk m = .ok bl) (k : Nat) :
    mapping_blocks blk (m.take k) = .ok (bl.take k) := by
  induction m generalizing bl k with
  | nil =>
    simp only [mapping_blocks, Except.ok.injEq] at h
    subst h
    simp [mapping_blocks]
  | cons b rest ih =>
    simp only [mapping_blocks] at h
    cases hx : blk b with
    | error e => rw [hx] at h; simp [bind, Except.bind] at h
    | ok x =>
      cases hr : mapping_blocks blk rest with
      | error e => rw [hx, hr] at h; simp [bind, Except.bind] at h
      | ok xs =>
        rw [hx, hr] at h
        simp only [bind, Except.bind, pure, Except.pure, Except.ok.injEq] at h
        subst h
        cases k with
        | zero => simp [mapping_blocks]
        | succ k =>
          simp only [List.take_succ_cons, mapping_blocks, hx, ih xs hr k]
          rfl

theorem mapping_blocks_length (blk : Nat → Except Fault (List Nat)) (m : List Nat)
    (bl : List (List Nat)) (h : mapping_blocks blk m = .ok bl) : bl.length = m.length := by
  induction m generalizing bl with
  | nil =>
    simp only [mapping_blocks, Except.ok.injEq] at h
    subst h; rfl
  | cons b rest ih =>
    simp only [mapping_blocks] at h
    cases hx : blk b with
    | error e => rw [hx] at h; simp [bind, Except.bind] at h
    | ok x =>
      cases hr : mapping_blocks blk rest with
      | error e => rw [hx, hr] at h; simp [bind, Except.bind] at h
      | ok xs =>
        rw [hx, hr] at h
        simp only [bind, Except.bind, pure, Except.pure, Except.ok.injEq] at h
        subst h
        simp [ih xs hr]

theorem first_overrun_none (sz : Nat → Nat) (data_end : Nat) (m : List Nat) :
    ∀ (c i : Nat), first_overrun sz data_end m c i = none ↔
      ∀ k, k < m.length → c + ((m.take (k + 1)).map sz).sum ≤ data_end := by
  induction m with
  | nil => intro c i; simp [first_overrun]
  | cons b rest ih =>
    intro c i
    simp only [first_overrun]
    by_cases hle : c + sz b ≤ data_end
    · simp only [hle, if_true, ih (c + sz b) (i + 1)]
      constructor
      · intro h k hk
        cases k with
        | zero => simpa using hle
        | succ k =>
          have := h k (by simpa using hk)
          simpa [List.take_succ_cons, Nat.add_assoc] using this
      · intro h k hk
        have := h (k + 1) (by simpa using hk)
        simpa [List.take_succ_cons, Nat.add_assoc] using this
    · simp only [hle, if_false]
      constructor
      · intro h; simp at h
      · intro h
        exact absurd (by simpa using h 0 (by simp)) hle

theorem first_overrun_some (sz : Nat → Nat) (data_end : Nat) (m : List Nat) :
    ∀ (c i j : Nat), first_overrun sz data_end m c i = some j →
      i ≤ j ∧ j - i < m.length
        ∧ data_end < c + ((m.take (j - i + 1)).map sz).sum
        ∧ ∀ k, k < j - i → c + ((m.take (k + 1)).map sz).sum ≤ data_end := by
  induction m with
  | nil => intro c i j h; simp [first_overrun] at h
  | cons b rest ih =>
    intro c i j h
    simp only [first_overrun] at h
    by_cases hle : c + sz b ≤ data_end
    · simp only [hle, if_true] at h
      obtain ⟨h1, h2, h3, h4⟩ := ih (c + sz b) (i + 1) j h
      have e1 : j - i = (j - (i + 1)) + 1 := by omega
      refine ⟨by omega, ?_, ?_, ?_⟩
      · rw [e1]; simpa using h2
      · rw [e1]; simpa [List.take_succ_cons, Nat.add_assoc] using h3
      · intro k hk
        cases k with
        | zero => simpa using hle
        | succ k =>
          have := h4 k (by omega)
          simpa [List.take_succ_cons, Nat.add_assoc] using this
    · simp only [hle, if_false, Option.some.injEq] at h
      subst h
      refine ⟨Nat.le_refl _, by simp, ?_, ?_⟩
      · simp only [Nat.sub_self, Nat.zero_add, List.take_succ_cons, List.take_zero, List.map_cons,
          List.map_nil, List.sum_cons, List.sum_nil, Nat.add_zero]
        omega
      · intro k hk; omega

/-! ## Lookups, totals and whole passes -/

theorem at_index_ok {α : Type} (xs : List α) (i : Nat) (h : i < xs.length) :
    at_index xs i = .ok xs[i] := by
  simp [at_index, List.getElem?_eq_getElem h]

theorem at_index_eq_ok {α : Type} (xs : List α) (i : Nat) (x : α) (h : at_index xs i = .ok x) :
    xs[i]? = some x := by
  unfold at_index at h
  cases hx : xs[i]? with
  | none => rw [hx] at h; simp at h
  | some y => rw [hx] at h; simp only [Except.ok.injEq] at h; rw [h]

theorem at_index_zero {α : Type} (x : α) (xs : List α) : at_index (x :: xs) 0 = .ok x := by
  simp [at_index]

theorem write_range_track_data_bone_cursor_entry (P : Primitives) (clip_context : ClipContext)
    (bone_streams : List BoneStreams) (bone_ranges : List BoneRanges)
    (flags : RangeReductionFlags8) (is_clip : Bool) (b : Nat) (out : OutBuffer) :
    (write_range_track_data_bone P clip_context bone_streams bone_ranges flags is_clip b
        out).map OutBuffer.ptr
      = (entry_block bone_streams bone_ranges
          (range_block_bytes P clip_context.has_scale flags is_clip) b).map
          (fun _ => out.ptr + entry_value bone_streams
            (range_block_size clip_context.has_scale flags is_clip) b) := by
  cases hs : at_index bone_streams b with
  | error e =>
    rw [write_range_track_data_bone_unfold]
    simp [entry_block, hs, bind, Except.bind, Except.map]
  | ok bs =>
    cases hr : at_index bone_ranges b with
    | error e =>
      rw [write_range_track_data_bone_unfold]
      simp [entry_block, hs, hr, bind, Except.bind, Except.map]
    | ok br =>
      rw [write_range_track_data_bone_cursor P clip_context bone_streams bone_ranges flags is_clip
        b bs br hs hr out]
      simp [entry_block, hs, hr, bind, Except.bind, entry_value, at_index_eq_ok _ _ _ hs]

theorem mapping_blocks_ok (blk : Nat → Except Fault (List Nat)) (m : List Nat)
    (h : ∀ b ∈ m, ∃ x, blk b = .ok x) : ∃ bl, mapping_blocks blk m = .ok bl := by
  induction m with
  | nil => exact ⟨[], rfl⟩
  | cons b rest ih =>
    obtain ⟨x, hx⟩ := h b (by simp)
    obtain ⟨xs, hxs⟩ := ih (fun c hc => h c (by simp [hc]))
    exact ⟨x :: xs, by simp [mapping_blocks, hx, hxs, bind, Except.bind, pure, Except.pure]⟩

theorem sum_take_le (sz : Nat → Nat) (m : List Nat) (k : Nat) :
    ((m.take k).map sz).sum ≤ (m.map sz).sum := by
  conv_rhs => rw [← List.take_append_drop k m]
  simp only [List.map_append, List.sum_append]
  omega

theorem output_bone_loop_run (assert_checks : Bool) (data_end : Nat)
    (body : Nat → OutBuffer → Except Fault OutBuffer) (blk : Nat → Except Fault (List Nat))
    (sz : Nat → Nat)
    (hbody : ∀ b o, (body b o).map OutBuffer.ptr = (blk b).map (fun _ => o.ptr + sz b))
    (m : List Nat) (i : Nat) (out : OutBuffer) (bl : List (List Nat))
    (hbl : mapping_blocks blk m = .ok bl)
    (hend : assert_checks = true → out.ptr + (m.map sz).sum ≤ data_end) :
    ∃ o, output_bone_loop assert_checks data_end body m i out = .ok o
      ∧ output_bone_loop false data_end body m i out = .ok o
      ∧ o.ptr = out.ptr + (m.map sz).sum := by
  have hc := output_bone_loop_cursor data_end body blk sz hbody m i out
  rw [hbl] at hc
  obtain ⟨o, ho, hp⟩ := (except_map_ok_iff _ _ _).1 hc
  refine ⟨o, ?_, ho, hp⟩
  cases assert_checks with
  | false => exact ho
  | true =>
    rw [output_bone_loop_checked data_end body blk sz hbody m i out bl hbl]
    have hn : first_overrun sz data_end m out.ptr i = none := by
      rw [first_overrun_none]
      intro k _
      have := sum_take_le sz m (k + 1)
      have := hend rfl
      omega
    rw [hn]
    exact ho

theorem estimated_bone_size_le (has_scale : Bool) (flags : RangeReductionFlags8)
    (F : RotationFormat8) (bs : BoneStreams) : estimated_bone_size has_scale flags F bs ≤ 80 := by
  unfold estimated_bone_size get_range_reduction_rotation_size
    k_clip_range_reduction_vector3_range_size
  cases F <;> (repeat' split) <;> omega

theorem estimated_sum_le (has_scale : Bool) (flags : RangeReductionFlags8) (F : RotationFormat8)
    (bones : List BoneStreams) :
    (bones.map (estimated_bone_size has_scale flags F)).sum ≤ 80 * bones.length := by
  induction bones with
  | nil => simp
  | cons b rest ih =>
    have := estimated_bone_size_le has_scale flags F b
    simp only [List.map_cons, List.sum_cons, List.length_cons]
    omega

theorem estimate_step (acc R T S : Nat) (c1 c2 c3 : Bool)
    (h : acc + ((if c1 then R else 0) + (if c2 then T else 0) + (if c3 then S else 0)) < 2 ^ 32) :
    (if c3 then
        ((if c2 then ((if c1 then (acc + R) % 2 ^ 32 else acc) + T) % 2 ^ 32
          else (if c1 then (acc + R) % 2 ^ 32 else acc)) + S) % 2 ^ 32
      else (if c2 then ((if c1 then (acc + R) % 2 ^ 32 else acc) + T) % 2 ^ 32
          else (if c1 then (acc + R) % 2 ^ 32 else acc)))
      = acc + ((if c1 then R else 0) + (if c2 then T else 0) + (if c3 then S else 0)) := by
  cases c1 <;> cases c2 <;> cases c3 <;>
    simp only [if_true, if_false, Bool.false_eq_true, Nat.add_zero, Nat.zero_add] at h ⊢ <;>
    (try rw [Nat.mod_eq_of_lt (a := acc + R) (by omega)]) <;>
    (try rw [Nat.mod_eq_of_lt (a := acc + T) (by omega)]) <;>
    (try rw [Nat.mod_eq_of_lt (a := acc + R + T) (by omega)]) <;>
    (try rw [Nat.mod_eq_of_lt (by omega)]) <;> omega

theorem estimate_foldl (has_scale : Bool) (flags : RangeReductionFlags8) (F : RotationFormat8)
    (bones : List BoneStreams) :
    ∀ acc : Nat, acc + (bones.map (estimated_bone_size has_scale flags F)).sum < 2 ^ 32 →
      bones.foldl
        (fun range_data_size bone_stream =>
          let range_data_size :=
            if bone_stream.is_rotation_animated then
              (range_data_size + (if are_any_enum_flags_set flags .Rotations then
                get_range_reduction_rotation_size F else 0)) % 2 ^ 32
            else range_data_size
          let range_data_size :=
            if bone_stream.is_translation_animated then
              (range_data_size + (if are_any_enum_flags_set flags .Translations then
                k_clip_range_reduction_vector3_range_size else 0)) % 2 ^ 32
            else range_data_size
          let range_data_size :=
            if has_scale && bone_stream.is_scale_animated then
              (range_data_size + (if are_any_enum_flags_set flags .Scales then
                k_clip_range_reduction_vector3_range_size else 0)) % 2 ^ 32
            else range_data_size
          range_data_size) acc
        = acc + (bones.map (estimated_bone_size has_scale flags F)).sum := by
  induction bones with
  | nil => intro acc _; simp
  | cons b rest ih =>
    intro acc hacc
    simp only [List.map_cons, List.sum_cons] at hacc
    have hstep := estimate_step acc
      (if are_any_enum_flags_set flags .Rotations then get_range_reduction_rotation_size F else 0)
      (if are_any_enum_flags_set flags .Translations then
        k_clip_range_reduction_vector3_range_size else 0)
      (if are_any_enum_flags_set flags .Scales then
        k_clip_range_reduction_vector3_range_size else 0)
      b.is_rotation_animated b.is_translation_animated (has_scale && b.is_scale_animated)
      (by unfold estimated_bone_size at hacc; omega)
    simp only [List.foldl_cons, List.map_cons, List.sum_cons]
    rw [hstep, ih]
    · unfold estimated_bone_size; omega
    · unfold estimated_bone_size at hacc ⊢; omega

theorem write_range_track_data_run (P : Primitives) (assert_checks : Bool)
    (clip_context : ClipContext) (bone_streams : List BoneStreams) (bone_ranges : List BoneRanges)
    (flags : RangeReductionFlags8) (is_clip : Bool) (out : OutBuffer) (size : Nat)
    (m : List Nat) (bl : List (List Nat))
    (hbl : mapping_blocks (entry_block bone_streams bone_ranges
      (range_block_bytes P clip_context.has_scale flags is_clip)) m = .ok bl)
    (hnull : assert_checks = true → out.ptr ≠ 0)
    (hsize : assert_checks = true → size = (m.map (entry_value bone_streams
      (range_block_size clip_context.has_scale flags is_clip))).sum) :
    ∃ o, write_range_track_data P assert_checks clip_context bone_streams bone_ranges flags
        is_clip out size m = .ok o
      ∧ o.ptr = out.ptr + (m.map (entry_value bone_streams
          (range_block_size clip_context.has_scale flags is_clip))).sum := by
  obtain ⟨o, ho, _, hp⟩ := output_bone_loop_run assert_checks (out.ptr + size) _ _ _
    (write_range_track_data_bone_cursor_entry P clip_context bone_streams bone_ranges flags
      is_clip) m 0 out bl hbl (by intro h; rw [hsize h])
  refine ⟨o, ?_, hp⟩
  unfold write_range_track_data
  cases assert_checks with
  | false => simp [ACL_ASSERT, ho, bind, Except.bind, pure, Except.pure]
  | true =>
    have h0 := hnull rfl
    have hs := hsize rfl
    simp [ACL_ASSERT, ho, bind, Except.bind, pure, Except.pure, h0, hp, ← hs]

theorem range_block_bytes_clip_ok (P : Primitives) (has_scale : Bool)
    (flags : RangeReductionFlags8) (bs : BoneStreams) (br : BoneRanges) :
    ∃ x, range_block_bytes P has_scale flags true bs br = .ok x := by
  unfold range_block_bytes range_rotation_bytes range_translation_bytes range_scale_bytes
    range_impl_bytes
  simp only [if_true]
  (repeat' split) <;> exact ⟨_, rfl⟩

theorem entry_block_ok (bone_streams : List BoneStreams) (bone_ranges : List BoneRanges)
    (block : BoneStreams → BoneRanges → Except Fault (List Nat)) (b : Nat)
    (hs : b < bone_streams.length) (hr : b < bone_ranges.length)
    (hblock : ∃ x, block bone_streams[b] bone_ranges[b] = .ok x) :
    ∃ x, entry_block bone_streams bone_ranges block b = .ok x := by
  obtain ⟨x, hx⟩ := hblock
  exact ⟨x, by simp [entry_block, at_index_ok _ _ hs, at_index_ok _ _ hr, bind, Except.bind, hx]⟩

theorem entry_value_range_map (bone_streams : List BoneStreams) (size : BoneStreams → Nat) :
    (List.range bone_streams.length).map (entry_value bone_streams size)
      = bone_streams.map size := by
  apply List.ext_getElem
  · simp
  · intro i h1 h2
    simp only [List.length_map, List.length_range] at h1
    simp [entry_value, List.getElem?_eq_getElem h1]

theorem entry_value_perm_sum (bone_streams : List BoneStreams) (size : BoneStreams → Nat)
    (m : List Nat) (h : m.Perm (List.range bone_streams.length)) :
    (m.map (entry_value bone_streams size)).sum = (bone_streams.map size).sum := by
  rw [← entry_value_range_map]
  exact (h.map _).sum_eq

theorem range_block_size_clip (has_scale : Bool) (flags : RangeReductionFlags8)
    (F : RotationFormat8) (bs : BoneStreams) (h : bs.rotations.get_rotation_format = F) :
    range_block_size has_scale flags true bs = estimated_bone_size has_scale flags F bs := by
  subst h
  unfold range_block_size estimated_bone_size range_rotation_size range_translation_size
    range_scale_size rotation_member_size get_range_reduction_rotation_size
    k_clip_range_reduction_vector3_range_size
  cases are_any_enum_flags_set flags .Rotations <;>
    cases are_any_enum_flags_set flags .Translations <;>
    cases are_any_enum_flags_set flags .Scales <;>
    cases bs.is_rotation_animated <;> cases bs.is_translation_animated <;>
    cases bs.is_scale_animated <;> cases has_scale <;>
    cases bs.rotations.get_rotation_format <;> simp

theorem get_stream_range_data_size_eq (clip_context : ClipContext) (segment : SegmentContext)
    (others : List SegmentContext) (flags : RangeReductionFlags8) (F : RotationFormat8)
    (hseg : clip_context.segments = segment :: others)
    (hbones : segment.bone_streams.length < 65536) :
    get_stream_range_data_size clip_context flags F
      = .ok ((segment.bone_streams.map
          (estimated_bone_size clip_context.has_scale flags F)).sum) := by
  have hle := estimated_sum_le clip_context.has_scale flags F segment.bone_streams
  have hf := estimate_foldl clip_context.has_scale flags F segment.bone_streams 0 (by omega)
  simp only [Nat.zero_add] at hf
  simp only [get_stream_range_data_size, hseg, at_index_zero, bind, Except.bind, pure,
    Except.pure, SegmentContext.bone_iterator]
  rw [hf]

theorem take_bytes_raw_sample_ok (track : TrackStream) (n : Nat) (h : n ≤ track.samples.length) :
    take_bytes (track.get_raw_sample_ptr 0) n = .ok (track.samples.take n) := by
  simp [TrackStream.get_raw_sample_ptr, take_bytes, h]

theorem range_impl_bytes_segment_ok (P : Primitives) (track : TrackStream)
    (range : TrackStreamRange)
    (h : P.is_constant_bit_rate track.bit_rate = true → 6 ≤ track.samples.length) :
    ∃ x, range_impl_bytes P track range false = .ok x := by
  unfold range_impl_bytes
  by_cases hc : P.is_constant_bit_rate track.bit_rate = true
  · simp [hc, take_bytes_raw_sample_ok track 6 (h hc)]
  · simp [hc]

theorem range_block_bytes_segment_ok (P : Primitives) (has_scale : Bool)
    (flags : RangeReductionFlags8) (bs : BoneStreams) (br : BoneRanges)
    (h : shortcut_samples_present P bs) :
    ∃ x, range_block_bytes P has_scale flags false bs br = .ok x := by
  obtain ⟨hr, ht, hs⟩ := h
  have hR : ∃ x, range_rotation_bytes P bs br flags false = .ok x := by
    unfold range_rotation_bytes
    by_cases hc : P.is_constant_bit_rate bs.rotations.bit_rate = true
    · simp only [hc, if_true, Bool.false_eq_true, if_false,
        take_bytes_raw_sample_ok bs.rotations.toTrackStream 6 (hr hc)]
      (repeat' split) <;> exact ⟨_, rfl⟩
    · simp only [hc, Bool.false_eq_true, if_false]
      (repeat' split) <;> exact ⟨_, rfl⟩
  have hT : ∃ x, range_translation_bytes P bs br flags false = .ok x := by
    unfold range_translation_bytes
    split
    · exact range_impl_bytes_segment_ok P _ _ ht
    · exact ⟨_, rfl⟩
  have hS : ∃ x, range_scale_bytes P has_scale bs br flags false = .ok x := by
    unfold range_scale_bytes
    split
    · exact range_impl_bytes_segment_ok P _ _ hs
    · exact ⟨_, rfl⟩
  obtain ⟨r, hr⟩ := hR
  obtain ⟨t, ht⟩ := hT
  obtain ⟨s, hs⟩ := hS
  exact ⟨r ++ t ++ s, by simp [range_block_bytes, hr, ht, hs, bind, Except.bind, pure, Except.pure]⟩

theorem range_block_size_segment (has_scale : Bool) (flags : RangeReductionFlags8)
    (bs : BoneStreams) :
    range_block_size has_scale flags false bs
      = 6 * narrow_channel_count has_scale flags bs + 8 * quat_channel_count flags bs := by
  unfold range_block_size narrow_channel_count quat_channel_count range_rotation_size
    range_translation_size range_scale_size RotationTrackStream.get_rotation_format
  cases are_any_enum_flags_set flags .Rotations <;>
    cases are_any_enum_flags_set flags .Translations <;>
    cases are_any_enum_flags_set flags .Scales <;>
    cases bs.is_rotation_animated <;> cases bs.is_translation_animated <;>
    cases bs.is_scale_animated <;> cases has_scale <;>
    by_cases hq : bs.rotations.rotation_format = .Quat_128 <;> simp [hq]

theorem entry_value_sum_combine (bone_streams : List BoneStreams) (f g h : BoneStreams → Nat)
    (a b : Nat) (hfgh : ∀ bs, f bs = a * g bs + b * h bs) (m : List Nat) :
    (m.map (entry_value bone_streams f)).sum
      = a * (m.map (entry_value bone_streams g)).sum
        + b * (m.map (entry_value bone_streams h)).sum := by
  induction m with
  | nil => simp
  | cons x rest ih =>
    simp only [List.map_cons, List.sum_cons, ih, Nat.mul_add]
    have : entry_value bone_streams f x
        = a * entry_value bone_streams g x + b * entry_value bone_streams h x := by
      unfold entry_value
      cases bone_streams[x]? with
      | none => simp
      | some bs => exact hfgh bs
    omega

theorem segment_entries_ok (P : Primitives) (has_scale : Bool) (flags : RangeReductionFlags8)
    (bone_streams : List BoneStreams) (bone_ranges : List BoneRanges) (m : List Nat)
    (hbounds : mapping_in_bounds bone_streams bone_ranges m)
    (hsamples : ∀ bs ∈ bone_streams, shortcut_samples_present P bs) :
    ∃ bl, mapping_blocks (entry_block bone_streams bone_ranges
      (range_block_bytes P has_scale flags false)) m = .ok bl := by
  apply mapping_blocks_ok
  intro b hb
  obtain ⟨h1, h2⟩ := hbounds b hb
  exact entry_block_ok _ _ _ b h1 h2
    (range_block_bytes_segment_ok P has_scale flags _ _ (hsamples _ (List.getElem_mem h1)))

theorem write_segment_range_data_run (P : Primitives) (assert_checks : Bool)
    (clip_context : ClipContext) (segment : SegmentContext) (flags : RangeReductionFlags8)
    (out : OutBuffer) (m : List Nat)
    (hbounds : mapping_in_bounds segment.bone_streams segment.ranges m)
    (hsamples : ∀ bs ∈ segment.bone_streams, shortcut_samples_present P bs)
    (hnull : out.ptr ≠ 0) :
    ∃ o, write_segment_range_data P assert_checks clip_context segment flags out
        (6 * (m.map (entry_value segment.bone_streams
            (narrow_channel_count clip_context.has_scale flags))).sum
          + 8 * (m.map (entry_value segment.bone_streams (quat_channel_count flags))).sum) m
        = .ok o
      ∧ o.ptr = out.ptr
          + (6 * (m.map (entry_value segment.bone_streams
              (narrow_channel_count clip_context.has_scale flags))).sum
            + 8 * (m.map (entry_value segment.bone_streams (quat_channel_count flags))).sum) := by
  obtain ⟨bl, hbl⟩ := segment_entries_ok P clip_context.has_scale flags segment.bone_streams
    segment.ranges m hbounds hsamples
  have hsum := entry_value_sum_combine segment.bone_streams
    (range_block_size clip_context.has_scale flags false)
    (narrow_channel_count clip_context.has_scale flags) (quat_channel_count flags) 6 8
    (range_block_size_segment clip_context.has_scale flags) m
  obtain ⟨o, ho, hp⟩ := write_range_track_data_run P assert_checks clip_context
    segment.bone_streams segment.ranges flags false out _ m bl hbl (fun _ => hnull)
    (fun _ => hsum.symm)
  exact ⟨o, ho, by rw [hp, hsum]⟩

/-! ## The cursor checks -/

theorem output_bone_loop_checks (data_end : Nat)
    (body : Nat → OutBuffer → Except Fault OutBuffer) (blk : Nat → Except Fault (List Nat))
    (sz : Nat → Nat)
    (hbody : ∀ b o, (body b o).map OutBuffer.ptr = (blk b).map (fun _ => o.ptr + sz b))
    (m : List Nat) (out out0 : OutBuffer) (hstart : out.ptr ≤ data_end)
    (hrun : output_bone_loop false data_end body m 0 out = .ok out0) :
    out.ptr ≤ out0.ptr
    ∧ (out0.ptr ≤ data_end → output_bone_loop true data_end body m 0 out = .ok out0)
    ∧ (data_end < out0.ptr → ∃ j, j < m.length
        ∧ output_bone_loop true data_end body m 0 out = .error (.wrote_too_much j)
        ∧ (∃ o, output_bone_loop false data_end body (m.take (j + 1)) 0 out = .ok o
            ∧ data_end < o.ptr)
        ∧ ∀ k, k < j → ∃ o, output_bone_loop false data_end body (m.take (k + 1)) 0 out = .ok o
            ∧ o.ptr ≤ data_end) := by
  have hc := output_bone_loop_cursor data_end body blk sz hbody m 0 out
  rw [hrun] at hc
  obtain ⟨bl, hbl, hp⟩ := (except_map_ok_iff _ _ _).1 hc.symm
  simp only [Except.map] at hc
  have hptr : out0.ptr = out.ptr + (m.map sz).sum := by
    rw [hbl] at hc
    simpa using hc
  have hchk := output_bone_loop_checked data_end body blk sz hbody m 0 out bl hbl
  have hprefix : ∀ k, ∃ o, output_bone_loop false data_end body (m.take k) 0 out = .ok o
      ∧ o.ptr = out.ptr + ((m.take k).map sz).sum := by
    intro k
    have h1 := output_bone_loop_cursor data_end body blk sz hbody (m.take k) 0 out
    rw [mapping_blocks_take blk m bl hbl k] at h1
    obtain ⟨o, ho, hpo⟩ := (except_map_ok_iff _ _ _).1 h1
    exact ⟨o, ho, hpo⟩
  refine ⟨by omega, ?_, ?_⟩
  · intro hle
    have hn : first_overrun sz data_end m out.ptr 0 = none := by
      rw [first_overrun_none]
      intro k _
      have := sum_take_le sz m (k + 1)
      omega
    rw [hchk, hn]
    exact hrun
  · intro hlt
    cases hf : first_overrun sz data_end m out.ptr 0 with
    | none =>
      exfalso
      rw [first_overrun_none] at hf
      cases hm : m.length with
      | zero =>
        have : m = [] := List.eq_nil_of_length_eq_zero hm
        subst this
        simp only [List.map_nil, List.sum_nil, Nat.add_zero] at hptr
        have hx := hf
        omega
      | succ n =>
        have h1 := hf n (by omega)
        have h2 : m.take (n + 1) = m := List.take_of_length_le (by omega)
        rw [h2] at h1
        omega
    | some j =>
      obtain ⟨_, h2, h3, h4⟩ := first_overrun_some sz data_end m out.ptr 0 j hf
      simp only [Nat.sub_zero] at h2 h3 h4
      refine ⟨j, h2, by rw [hchk, hf], ?_, ?_⟩
      · obtain ⟨o, ho, hpo⟩ := hprefix (j + 1)
        exact ⟨o, ho, by omega⟩
      · intro k hk
        obtain ⟨o, ho, hpo⟩ := hprefix (k + 1)
        have := h4 k hk
        exact ⟨o, ho, by omega⟩

theorem write_range_track_data_unchecked (P : Primitives) (clip_context : ClipContext)
    (bone_streams : List BoneStreams) (bone_ranges : List BoneRanges)
    (flags : RangeReductionFlags8) (is_clip : Bool) (out : OutBuffer) (size : Nat)
    (m : List Nat) :
    write_range_track_data P false clip_context bone_streams bone_ranges flags is_clip out size m
      = output_bone_loop false (out.ptr + size)
          (write_range_track_data_bone P clip_context bone_streams bone_ranges flags is_clip)
          m 0 out := by
  unfold write_range_track_data
  simp only [ACL_ASSERT, Bool.false_and, Bool.false_eq_true, if_false, bind, Except.bind, pure,
    Except.pure]
  cases output_bone_loop false (out.ptr + size)
    (write_range_track_data_bone P clip_context bone_streams bone_ranges flags is_clip) m 0 out <;>
    rfl

theorem write_range_track_data_checked (P : Primitives) (clip_context : ClipContext)
    (bone_streams : List BoneStreams) (bone_ranges : List BoneRanges)
    (flags : RangeReductionFlags8) (is_clip : Bool) (out : OutBuffer) (size : Nat)
    (m : List Nat) (hnull : out.ptr ≠ 0) :
    write_range_track_data P true clip_context bone_streams bone_ranges flags is_clip out size m
      = (output_bone_loop true (out.ptr + size)
          (write_range_track_data_bone P clip_context bone_streams bone_ranges flags is_clip)
          m 0 out >>= fun o =>
            if o.ptr = out.ptr + size then .ok o else .error .wrote_too_little) := by
  unfold write_range_track_data
  simp only [ACL_ASSERT, Bool.true_and, hnull, ne_eq, not_false_eq_true, decide_True,
    Bool.not_true, Bool.false_eq_true, if_false, bind, Except.bind, pure, Except.pure]
  cases output_bone_loop true (out.ptr + size)
    (write_range_track_data_bone P clip_context bone_streams bone_ranges flags is_clip) m 0
    out with
  | error e => rfl
  | ok o =>
    simp only []
    by_cases h : o.ptr = out.ptr + size <;> simp [h]

theorem write_clip_track_data_bone_cursor_entry (clip_context : ClipContext)
    (segment : SegmentContext) (flags : RangeReductionFlags8) (b : Nat) (out : OutBuffer) :
    (write_clip_track_data_bone clip_context segment flags b out).map OutBuffer.ptr
      = (entry_block segment.bone_streams clip_context.ranges
          (track_block_bytes clip_context.has_scale flags) b).map
          (fun _ => out.ptr
            + (match entry_block segment.bone_streams clip_context.ranges
                (track_block_bytes clip_context.has_scale flags) b with
              | .ok x => x.length
              | .error _ => 0)) := by
  rw [write_clip_track_data_bone_eq]
  cases entry_block segment.bone_streams clip_context.ranges
    (track_block_bytes clip_context.has_scale flags) b <;> simp [Except.map]

theorem write_clip_track_data_unchecked (clip_context : ClipContext) (segment : SegmentContext)
    (others : List SegmentContext) (flags : RangeReductionFlags8) (out : OutBuffer) (size : Nat)
    (m : List Nat) (hseg : clip_context.segments = segment :: others) :
    write_clip_track_data false clip_context flags out size m
      = output_bone_loop false (out.ptr + size)
          (write_clip_track_data_bone clip_context segment flags) m 0 out := by
  unfold write_clip_track_data
  simp only [ACL_ASSERT, Bool.false_and, Bool.false_eq_true, if_false, bind, Except.bind, pure,
    Except.pure, hseg, at_index_zero]
  cases output_bone_loop false (out.ptr + size)
    (write_clip_track_data_bone clip_context segment flags) m 0 out <;> rfl

theorem write_clip_track_data_checked (clip_context : ClipContext) (segment : SegmentContext)
    (others : List SegmentContext) (flags : RangeReductionFlags8) (out : OutBuffer) (size : Nat)
    (m : List Nat) (hseg : clip_context.segments = segment :: others) (hnull : out.ptr ≠ 0) :
    write_clip_track_data true clip_context flags out size m
      = (output_bone_loop true (out.ptr + size)
          (write_clip_track_data_bone clip_context segment flags) m 0 out >>= fun o =>
            if o.ptr = out.ptr + size then .ok o else .error .wrote_too_little) := by
  unfold write_clip_track_data
  simp only [ACL_ASSERT, Bool.true_and, hnull, ne_eq, not_false_eq_true, decide_True,
    Bool.not_true, Bool.false_eq_true, if_false, bind, Except.bind, pure, Except.pure, hseg,
    at_index_zero]
  cases output_bone_loop true (out.ptr + size)
    (write_clip_track_data_bone clip_context segment flags) m 0 out with
  | error e => rfl
  | ok o =>
    simp only []
    by_cases h : o.ptr = out.ptr + size <;> simp [h]

theorem write_clip_track_data_segment (assert_checks : Bool) (clip_context : ClipContext)
    (flags : RangeReductionFlags8) (out out0 : OutBuffer) (size : Nat) (m : List Nat)
    (h : write_clip_track_data assert_checks clip_context flags out size m = .ok out0) :
    ∃ segment others, clip_context.segments = segment :: others := by
  cases hs : clip_context.segments with
  | nil =>
    unfold write_clip_track_data at h
    rw [hs] at h
    simp only [at_index, bind, Except.bind] at h
    generalize ACL_ASSERT assert_checks (decide (out.ptr ≠ 0)) Fault.null_buffer = r at h
    cases r <;> simp at h
  | cons s rest => exact ⟨s, rest, rfl⟩

/-- The behaviour of the cursor checks of a pass, from the loop with and
without assertion checks to the pass with its end-of-pass check. -/
theorem pass_checks (data_end : Nat)
    (loop : Bool → List Nat → Except Fault OutBuffer) (m : List Nat) (out0 : OutBuffer)
    (run : List Nat → Except Fault OutBuffer)
    (hrun : run m = loop true m >>= fun o =>
      if o.ptr = data_end then .ok o else .error .wrote_too_little)
    (hle : out0.ptr ≤ data_end → loop true m = .ok out0)
    (hgt : data_end < out0.ptr → ∃ j, j < m.length ∧ loop true m = .error (.wrote_too_much j)
        ∧ (∃ o, loop false (m.take (j + 1)) = .ok o ∧ data_end < o.ptr)
        ∧ ∀ k, k < j → ∃ o, loop false (m.take (k + 1)) = .ok o ∧ o.ptr ≤ data_end) :
    ((∃ o, run m = .ok o) ↔ data_end = out0.ptr)
    ∧ (data_end = out0.ptr → run m = .ok out0)
    ∧ (data_end < out0.ptr → ∃ j, j < m.length ∧ run m = .error (.wrote_too_much j)
        ∧ (∃ o, loop false (m.take (j + 1)) = .ok o ∧ data_end < o.ptr)
        ∧ ∀ k, k < j → ∃ o, loop false (m.take (k + 1)) = .ok o ∧ o.ptr ≤ data_end)
    ∧ (out0.ptr < data_end → run m = .error .wrote_too_little) := by
  have hEq : data_end = out0.ptr → run m = .ok out0 := by
    intro h
    rw [hrun, hle (by omega)]
    simp [bind, Except.bind, h]
  have hLt : out0.ptr < data_end → run m = .error .wrote_too_little := by
    intro h
    rw [hrun, hle (by omega)]
    have : ¬ out0.ptr = data_end := by omega
    simp [bind, Except.bind, this]
  have hGt : data_end < out0.ptr → ∃ j, j < m.length ∧ run m = .error (.wrote_too_much j)
        ∧ (∃ o, loop false (m.take (j + 1)) = .ok o ∧ data_end < o.ptr)
        ∧ ∀ k, k < j → ∃ o, loop false (m.take (k + 1)) = .ok o ∧ o.ptr ≤ data_end := by
    intro h
    obtain ⟨j, hj, he, h1, h2⟩ := hgt h
    exact ⟨j, hj, by rw [hrun, he]; rfl, h1, h2⟩
  refine ⟨⟨?_, fun h => ⟨out0, hEq h⟩⟩, hEq, hGt, hLt⟩
  rintro ⟨o, ho⟩
  rcases Nat.lt_trichotomy data_end out0.ptr with h | h | h
  · obtain ⟨j, _, he, _⟩ := hGt h
    rw [he] at ho; simp at ho
  · exact h
  · rw [hLt h] at ho; simp at ho

theorem write_range_track_data_stream (P : Primitives) (clip_context : ClipContext)
    (bone_streams : List BoneStreams) (bone_ranges : List BoneRanges)
    (flags : RangeReductionFlags8) (is_clip : Bool) (h : is_clip = true ∨ P.exact)
    (out : OutBuffer) (size : Nat) (m : List Nat) :
    write_range_track_data P false clip_context bone_streams bone_ranges flags is_clip out size m
      = (mapping_blocks (entry_block bone_streams bone_ranges
          (range_block_bytes P clip_context.has_scale flags is_clip)) m).map
          (fun bl => out.write bl.flatten) := by
  rw [write_range_track_data_unchecked]
  exact output_bone_loop_write false _ _ _
    (write_range_track_data_bone_eq P clip_context bone_streams bone_ranges flags is_clip h)
    m 0 out rfl

theorem write_clip_track_data_stream (clip_context : ClipContext) (segment : SegmentContext)
    (others : List SegmentContext) (flags : RangeReductionFlags8) (out : OutBuffer) (size : Nat)
    (m : List Nat) (hseg : clip_context.segments = segment :: others) :
    write_clip_track_data false clip_context flags out size m
      = (mapping_blocks (entry_block segment.bone_streams clip_context.ranges
          (track_block_bytes clip_context.has_scale flags)) m).map
          (fun bl => out.write bl.flatten) := by
  rw [write_clip_track_data_unchecked clip_context segment others flags out size m hseg]
  exact output_bone_loop_write false _ _ _
    (write_clip_track_data_bone_eq clip_context segment flags) m 0 out rfl

theorem write_range_track_data_checks (P : Primitives) (clip_context : ClipContext)
    (bone_streams : List BoneStreams) (bone_ranges : List BoneRanges)
    (flags : RangeReductionFlags8) (is_clip : Bool) (out out0 : OutBuffer) (size : Nat)
    (m : List Nat) (hnull : out.ptr ≠ 0)
    (hrun : write_range_track_data P false clip_context bone_streams bone_ranges flags is_clip
      out size m = .ok out0) :
    out.ptr ≤ out0.ptr
    ∧ ((∃ o, write_range_track_data P true clip_context bone_streams bone_ranges flags is_clip
        out size m = .ok o) ↔ out.ptr + size = out0.ptr)
    ∧ (out.ptr + size = out0.ptr →
        write_range_track_data P true clip_context bone_streams bone_ranges flags is_clip
          out size m = .ok out0)
    ∧ (out.ptr + size < out0.ptr → ∃ j, j < m.length
        ∧ write_range_track_data P true clip_context bone_streams bone_ranges flags is_clip
            out size m = .error (.wrote_too_much j)
        ∧ (∃ o, write_range_track_data P false clip_context bone_streams bone_ranges flags
            is_clip out size (m.take (j + 1)) = .ok o ∧ out.ptr + size < o.ptr)
        ∧ ∀ k, k < j → ∃ o, write_range_track_data P false clip_context bone_streams
            bone_ranges flags is_clip out size (m.take (k + 1)) = .ok o
            ∧ o.ptr ≤ out.ptr + size)
    ∧ (out0.ptr < out.ptr + size →
        write_range_track_data P true clip_context bone_streams bone_ranges flags is_clip
          out size m = .error .wrote_too_little) := by
  rw [write_range_track_data_unchecked] at hrun
  obtain ⟨hmono, hle, hgt⟩ := output_bone_loop_checks (out.ptr + size) _ _ _
    (write_range_track_data_bone_cursor_entry P clip_context bone_streams bone_ranges flags
      is_clip) m out out0 (by omega) hrun
  refine ⟨hmono, ?_⟩
  have := pass_checks (out.ptr + size)
    (fun c m' => output_bone_loop c (out.ptr + size)
      (write_range_track_data_bone P clip_context bone_streams bone_ranges flags is_clip)
      m' 0 out) m out0
    (fun m' => write_range_track_data P true clip_context bone_streams bone_ranges flags is_clip
      out size m')
    (write_range_track_data_checked P clip_context bone_streams bone_ranges flags is_clip out
      size m hnull) hle hgt
  simpa only [write_range_track_data_unchecked] using this

theorem write_clip_track_data_checks (clip_context : ClipContext)
    (flags : RangeReductionFlags8) (out out0 : OutBuffer) (size : Nat)
    (m : List Nat) (hnull : out.ptr ≠ 0)
    (hrun : write_clip_track_data false clip_context flags out size m = .ok out0) :
    out.ptr ≤ out0.ptr
    ∧ ((∃ o, write_clip_track_data true clip_context flags out size m = .ok o)
        ↔ out.ptr + size = out0.ptr)
    ∧ (out.ptr + size = out0.ptr →
        write_clip_track_data true clip_context flags out size m = .ok out0)
    ∧ (out.ptr + size < out0.ptr → ∃ j, j < m.length
        ∧ write_clip_track_data true clip_context flags out size m = .error (.wrote_too_much j)
        ∧ (∃ o, write_clip_track_data false clip_context flags out size (m.take (j + 1)) = .ok o
            ∧ out.ptr + size < o.ptr)
        ∧ ∀ k, k < j → ∃ o, write_clip_track_data false clip_context flags out size
            (m.take (k + 1)) = .ok o ∧ o.ptr ≤ out.ptr + size)
    ∧ (out0.ptr < out.ptr + size →
        write_clip_track_data true clip_context flags out size m = .error .wrote_too_little) := by
  obtain ⟨segment, others, hseg⟩ := write_clip_track_data_segment _ _ _ _ _ _ _ hrun
  rw [write_clip_track_data_unchecked clip_context segment others flags out size m hseg] at hrun
  obtain ⟨hmono, hle, hgt⟩ := output_bone_loop_checks (out.ptr + size) _ _ _
    (write_clip_track_data_bone_cursor_entry clip_context segment flags) m out out0 (by omega)
    hrun
  refine ⟨hmono, ?_⟩
  have := pass_checks (out.ptr + size)
    (fun c m' => output_bone_loop c (out.ptr + size)
      (write_clip_track_data_bone clip_context segment flags) m' 0 out) m out0
    (fun m' => write_clip_track_data true clip_context flags out size m')
    (write_clip_track_data_checked clip_context segment others flags out size m hseg hnull)
    hle hgt
  simpa only [write_clip_track_data_unchecked clip_context segment others flags out size _ hseg]
    using this

theorem write_clip_track_data_run (assert_checks : Bool) (clip_context : ClipContext)
    (segment : SegmentContext) (others : List SegmentContext) (flags : RangeReductionFlags8)
    (out : OutBuffer) (size : Nat) (m : List Nat) (bl : List (List Nat))
    (hseg : clip_context.segments = segment :: others)
    (hbl : mapping_blocks (entry_block segment.bone_streams clip_context.ranges
      (track_block_bytes clip_context.has_scale flags)) m = .ok bl)
    (hnull : out.ptr ≠ 0) (hsize : assert_checks = true → size = bl.flatten.length) :
    write_clip_track_data assert_checks clip_context flags out size m
      = .ok (out.write bl.flatten) := by
  have hs := write_clip_track_data_stream clip_context segment others flags out size m hseg
  rw [hbl] at hs
  cases assert_checks with
  | false => exact hs
  | true =>
    exact (write_clip_track_data_checks clip_context flags out _ size m hnull hs).2.2.1
      (by simp [hsize rfl])

theorem write_range_track_data_run_stream (P : Primitives) (assert_checks : Bool)
    (clip_context : ClipContext) (bone_streams : List BoneStreams) (bone_ranges : List BoneRanges)
    (flags : RangeReductionFlags8) (is_clip : Bool) (h : is_clip = true ∨ P.exact)
    (out : OutBuffer) (size : Nat) (m : List Nat) (bl : List (List Nat))
    (hbl : mapping_blocks (entry_block bone_streams bone_ranges
      (range_block_bytes P clip_context.has_scale flags is_clip)) m = .ok bl)
    (hnull : out.ptr ≠ 0) (hsize : assert_checks = true → size = bl.flatten.length) :
    write_range_track_data P assert_checks clip_context bone_streams bone_ranges flags is_clip
        out size m
      = .ok (out.write bl.flatten) := by
  have hs := write_range_track_data_stream P clip_context bone_streams bone_ranges flags is_clip
    h out size m
  rw [hbl] at hs
  cases assert_checks with
  | false => exact hs
  | true =>
    exact (write_range_track_data_checks P clip_context bone_streams bone_ranges flags is_clip
      out _ size m hnull hs).2.2.1 (by simp [hsize rfl])

theorem entry_block_some (bone_streams : List BoneStreams) (bone_ranges : List BoneRanges)
    (block : BoneStreams → BoneRanges → Except Fault (List Nat)) (b : Nat) (bs : BoneStreams)
    (br : BoneRanges) (hs : bone_streams[b]? = some bs) (hr : bone_ranges[b]? = some br) :
    entry_block bone_streams bone_ranges block b = block bs br := by
  simp [entry_block, at_index, hs, hr, bind, Except.bind]

theorem write_clip_track_data_bone_some (clip_context : ClipContext) (segment : SegmentContext)
    (flags : RangeReductionFlags8) (b : Nat) (bs : BoneStreams) (br : BoneRanges)
    (hs : segment.bone_streams[b]? = some bs) (hr : clip_context.ranges[b]? = some br)
    (out : OutBuffer) :
    write_clip_track_data_bone clip_context segment flags b out
      = (track_block_bytes clip_context.has_scale flags bs br).map out.write := by
  rw [write_clip_track_data_bone_eq, entry_block_some _ _ _ b bs br hs hr]

theorem is_animated_flags (c d : Bool) (h : (!c && !d) = true) : c = false ∧ d = false := by
  cases c <;> cases d <;> simp at h ⊢

theorem take_bytes_raw_sample_ptr_ok (track : TrackStream) (n : Nat)
    (h : n ≤ track.samples.length) :
    take_bytes (track.get_raw_sample_ptr 0) n = .ok ((track.get_raw_sample_ptr 0).take n) := by
  simp [TrackStream.get_raw_sample_ptr, take_bytes, h]

/-! ## Order stability -/

theorem mapping_blocks_cons_ok (blk : Nat → Except Fault (List Nat)) (b : Nat) (rest : List Nat)
    (bl : List (List Nat)) (h : mapping_blocks blk (b :: rest) = .ok bl) :
    ∃ x xs, blk b = .ok x ∧ mapping_blocks blk rest = .ok xs ∧ bl = x :: xs := by
  simp only [mapping_blocks] at h
  cases hx : blk b with
  | error e => rw [hx] at h; simp [bind, Except.bind] at h
  | ok x =>
    cases hr : mapping_blocks blk rest with
    | error e => rw [hx, hr] at h; simp [bind, Except.bind] at h
    | ok xs =>
      rw [hx, hr] at h
      simp only [bind, Except.bind, pure, Except.pure, Except.ok.injEq] at h
      exact ⟨x, xs, rfl, rfl, h.symm⟩

theorem mapping_blocks_cons_of (blk : Nat → Except Fault (List Nat)) (b : Nat) (rest : List Nat)
    (x : List Nat) (xs : List (List Nat)) (hx : blk b = .ok x)
    (hxs : mapping_blocks blk rest = .ok xs) :
    mapping_blocks blk (b :: rest) = .ok (x :: xs) := by
  simp [mapping_blocks, hx, hxs, bind, Except.bind, pure, Except.pure]

theorem mapping_blocks_perm (blk : Nat → Except Fault (List Nat)) (m1 m2 : List Nat)
    (hp : m1.Perm m2) :
    ∀ bl1, mapping_blocks blk m1 = .ok bl1 →
      ∃ bl2, mapping_blocks blk m2 = .ok bl2 ∧ (m1.zip bl1).Perm (m2.zip bl2) := by
  induction hp with
  | nil =>
    intro bl1 h
    exact ⟨bl1, h, List.Perm.refl _⟩
  | cons a _ ih =>
    intro bl1 h
    obtain ⟨x, xs, hx, hxs, rfl⟩ := mapping_blocks_cons_ok blk _ _ _ h
    obtain ⟨ys, hys, hperm⟩ := ih xs hxs
    exact ⟨x :: ys, mapping_blocks_cons_of blk _ _ _ _ hx hys, by
      simpa [List.zip_cons_cons] using hperm⟩
  | swap a b l =>
    intro bl1 h
    obtain ⟨x, xs, hx, hxs, rfl⟩ := mapping_blocks_cons_ok blk _ _ _ h
    obtain ⟨y, ys, hy, hys, rfl⟩ := mapping_blocks_cons_ok blk _ _ _ hxs
    refine ⟨y :: x :: ys, mapping_blocks_cons_of blk _ _ _ _ hy
      (mapping_blocks_cons_of blk _ _ _ _ hx hys), ?_⟩
    simp only [List.zip_cons_cons]
    exact List.Perm.swap _ _ _
  | trans _ _ ih1 ih2 =>
    intro bl1 h
    obtain ⟨bl2, h2, p12⟩ := ih1 bl1 h
    obtain ⟨bl3, h3, p23⟩ := ih2 bl2 h2
    exact ⟨bl3, h3, p12.trans p23⟩

theorem order_stable_of (run : List Nat → OutBuffer → Except Fault OutBuffer)
    (block : Nat → Except Fault (List Nat))
    (h : ∀ m out, run m out = (mapping_blocks block m).map (fun bl => out.write bl.flatten)) :
    order_stable run block := by
  refine ⟨h, ?_, ?_⟩
  · intro m1 m2 out
    rw [h, h, mapping_blocks_append]
    cases h1 : mapping_blocks block m1 with
    | error e => rfl
    | ok a =>
      simp only [Except.map, bind, Except.bind]
      rw [h]
      cases h2 : mapping_blocks block m2 with
      | error e => rfl
      | ok b => simp [Except.map, pure, Except.pure, OutBuffer.write_write]
  · intro m1 m2 bl1 hp h1
    obtain ⟨bl2, h2, hperm⟩ := mapping_blocks_perm block m1 m2 hp bl1 h1
    exact ⟨bl2, h2, mapping_blocks_length _ _ _ h1, mapping_blocks_length _ _ _ h2, hperm⟩

theorem write_clip_range_data_stream (P : Primitives) (clip_context : ClipContext)
    (segment : SegmentContext) (others : List SegmentContext) (flags : RangeReductionFlags8)
    (out : OutBuffer) (size : Nat) (m : List Nat)
    (hseg : clip_context.segments = segment :: others) :
    write_clip_range_data P false clip_context flags out size m
      = (mapping_blocks (entry_block segment.bone_streams clip_context.ranges
          (range_block_bytes P clip_context.has_scale flags true)) m).map
          (fun bl => out.write bl.flatten) := by
  simp only [write_clip_range_data, hseg, at_index_zero, bind, Except.bind]
  exact write_range_track_data_stream P clip_context segment.bone_streams clip_context.ranges
    flags true (Or.inl rfl) out size m

theorem output_bone_loop_checked_ok (data_end : Nat)
    (body : Nat → OutBuffer → Except Fault OutBuffer) (m : List Nat) :
    ∀ (i : Nat) (out o : OutBuffer), output_bone_loop true data_end body m i out = .ok o →
      output_bone_loop false data_end body m i out = .ok o := by
  induction m with
  | nil => intro i out o h; simpa [output_bone_loop] using h
  | cons b rest ih =>
    intro i out o h
    simp only [output_bone_loop] at h ⊢
    cases hb : body b out with
    | error e => rw [hb] at h; simp [bind, Except.bind] at h
    | ok o1 =>
      rw [hb] at h
      simp only [bind, Except.bind, ACL_ASSERT, Bool.true_and, Bool.false_and,
        Bool.false_eq_true, if_false] at h ⊢
      by_cases hle : o1.ptr ≤ data_end
      · simp only [hle, decide_True, Bool.not_true, Bool.false_eq_true, if_false] at h
        exact ih _ _ _ h
      · simp [hle] at h

/-! ## Independence from bit rates, samples and unused ranges -/

theorem forall₂_getElem? {α β : Type} (R : α → β → Prop) (l : List α) (l' : List β)
    (h : List.Forall₂ R l l') (i : Nat) :
    (l[i]? = none ∧ l'[i]? = none) ∨ ∃ x y, l[i]? = some x ∧ l'[i]? = some y ∧ R x y := by
  induction h generalizing i with
  | nil => left; simp
  | cons hxy _ ih =>
    cases i with
    | zero => right; exact ⟨_, _, by simp, by simp, hxy⟩
    | succ i => simpa using ih i

theorem range_block_bytes_clip_congr (P P' : Primitives) (has_scale : Bool)
    (flags : RangeReductionFlags8) (a b : BoneStreams) (br : BoneRanges)
    (h : same_up_to_samples a b) :
    range_block_bytes P has_scale flags true a br
      = range_block_bytes P' has_scale flags true b br := by
  obtain ⟨h1, h2, h3, h4, h5, h6, h7⟩ := h
  simp only [range_block_bytes, range_rotation_bytes, range_translation_bytes,
    range_scale_bytes, range_impl_bytes, rotation_member_size,
    RotationTrackStream.get_rotation_format, BoneStreams.is_rotation_animated,
    BoneStreams.is_translation_animated, BoneStreams.is_scale_animated, h1, h2, h3, h4, h5, h6,
    h7, if_true]

theorem write_range_track_data_bone_clip_congr (P P' : Primitives)
    (clip_context clip_context' : ClipContext) (streams streams' : List BoneStreams)
    (ranges : List BoneRanges) (flags : RangeReductionFlags8)
    (hscale : clip_context'.has_scale = clip_context.has_scale)
    (hstreams : List.Forall₂ same_up_to_samples streams streams') :
    write_range_track_data_bone P clip_context streams ranges flags true
      = write_range_track_data_bone P' clip_context' streams' ranges flags true := by
  funext b o
  rw [write_range_track_data_bone_eq P clip_context streams ranges flags true (Or.inl rfl) b o,
    write_range_track_data_bone_eq P' clip_context' streams' ranges flags true (Or.inl rfl) b o,
    hscale]
  congr 1
  rcases forall₂_getElem? _ _ _ hstreams b with ⟨h1, h2⟩ | ⟨x, y, h1, h2, hR⟩
  · simp [entry_block, at_index, h1, h2, bind, Except.bind]
  · cases hr : ranges[b]? with
    | none => simp [entry_block, at_index, h1, h2, hr, bind, Except.bind]
    | some br =>
      rw [entry_block_some _ _ _ b x br h1 hr, entry_block_some _ _ _ b y br h2 hr]
      exact range_block_bytes_clip_congr P P' _ flags x y br hR

theorem write_range_track_data_congr_body (P P' : Primitives) (assert_checks : Bool)
    (clip_context clip_context' : ClipContext) (streams streams' : List BoneStreams)
    (ranges ranges' : List BoneRanges) (flags : RangeReductionFlags8) (is_clip : Bool)
    (out : OutBuffer) (size : Nat) (m : List Nat)
    (h : write_range_track_data_bone P clip_context streams ranges flags is_clip
      = write_range_track_data_bone P' clip_context' streams' ranges' flags is_clip) :
    write_range_track_data P assert_checks clip_context streams ranges flags is_clip out size m
      = write_range_track_data P' assert_checks clip_context' streams' ranges' flags is_clip out
          size m := by
  unfold write_range_track_data
  rw [h]

theorem range_block_size_ratio (has_scale : Bool) (flags : RangeReductionFlags8)
    (bs : BoneStreams) :
    range_block_size has_scale flags true bs = 4 * range_block_size has_scale flags false bs := by
  unfold range_block_size range_rotation_size range_translation_size range_scale_size
    rotation_member_size RotationTrackStream.get_rotation_format
  cases are_any_enum_flags_set flags .Rotations <;>
    cases are_any_enum_flags_set flags .Translations <;>
    cases are_any_enum_flags_set flags .Scales <;>
    cases bs.is_rotation_animated <;> cases bs.is_translation_animated <;>
    cases bs.is_scale_animated <;> cases has_scale <;>
    by_cases hq : bs.rotations.rotation_format = .Quat_128 <;> simp [hq]

theorem entry_value_sum_mul (bone_streams : List BoneStreams) (f g : BoneStreams → Nat)
    (a : Nat) (hfg : ∀ bs, f bs = a * g bs) (m : List Nat) :
    (m.map (entry_value bone_streams f)).sum = a * (m.map (entry_value bone_streams g)).sum := by
  induction m with
  | nil => simp
  | cons x rest ih =>
    simp only [List.map_cons, List.sum_cons, ih, Nat.mul_add]
    have : entry_value bone_streams f x = a * entry_value bone_streams g x := by
      unfold entry_value
      cases bone_streams[x]? with
      | none => simp
      | some bs => exact hfg bs
    omega

theorem clip_entries_ok (P : Primitives) (has_scale : Bool) (flags : RangeReductionFlags8)
    (bone_streams : List BoneStreams) (bone_ranges : List BoneRanges) (m : List Nat)
    (hbounds : mapping_in_bounds bone_streams bone_ranges m) :
    ∃ bl, mapping_blocks (entry_block bone_streams bone_ranges
      (range_block_bytes P has_scale flags true)) m = .ok bl := by
  apply mapping_blocks_ok
  intro b hb
  obtain ⟨h1, h2⟩ := hbounds b hb
  exact entry_block_ok _ _ _ b h1 h2 (range_block_bytes_clip_ok P has_scale flags _ _)

theorem range_passes (P : Primitives) (assert_checks : Bool) (clip_context : ClipContext)
    (bone_streams : List BoneStreams) (clip_ranges segment_ranges : List BoneRanges)
    (flags : RangeReductionFlags8) (out : OutBuffer) (m : List Nat)
    (hclip : mapping_in_bounds bone_streams clip_ranges m)
    (hsegment : mapping_in_bounds bone_streams segment_ranges m)
    (hsamples : ∀ bs ∈ bone_streams, shortcut_samples_present P bs)
    (hnull : out.ptr ≠ 0) :
    ∃ n oc os,
      n = (m.map (entry_value bone_streams
        (range_block_size clip_context.has_scale flags false))).sum
      ∧ 4 * n = (m.map (entry_value bone_streams
        (range_block_size clip_context.has_scale flags true))).sum
      ∧ write_range_track_data P assert_checks clip_context bone_streams clip_ranges flags true
          out (4 * n) m = .ok oc
      ∧ oc.ptr = out.ptr + 4 * n
      ∧ write_range_track_data P assert_checks clip_context bone_streams segment_ranges flags
          false out n m = .ok os
      ∧ os.ptr = out.ptr + n := by
  have hsum := entry_value_sum_mul bone_streams
    (range_block_size clip_context.has_scale flags true)
    (range_block_size clip_context.has_scale flags false) 4
    (range_block_size_ratio clip_context.has_scale flags) m
  obtain ⟨blc, hblc⟩ := clip_entries_ok P clip_context.has_scale flags bone_streams clip_ranges m
    hclip
  obtain ⟨bls, hbls⟩ := segment_entries_ok P clip_context.has_scale flags bone_streams
    segment_ranges m hsegment hsamples
  obtain ⟨oc, hoc, hpc⟩ := write_range_track_data_run P assert_checks clip_context bone_streams
    clip_ranges flags true out
    (4 * (m.map (entry_value bone_streams
      (range_block_size clip_context.has_scale flags false))).sum) m blc hblc (fun _ => hnull)
    (fun _ => hsum.symm)
  obtain ⟨os, hos, hps⟩ := write_range_track_data_run P assert_checks clip_context bone_streams
    segment_ranges flags false out
    ((m.map (entry_value bone_streams
      (range_block_size clip_context.has_scale flags false))).sum) m bls hbls (fun _ => hnull)
    (fun _ => rfl)
  exact ⟨_, oc, os, rfl, hsum.symm, hoc, by rw [hpc, hsum], hos, hps⟩

theorem cursor_of_map_eq (r : Except Fault OutBuffer) (b : Except Fault (List Nat)) (c : Nat)
    (o : OutBuffer) (h : r.map OutBuffer.ptr = b.map (fun _ => c)) (ho : r = .ok o) :
    o.ptr = c := by
  subst ho
  cases b with
  | error e => simp [Except.map] at h
  | ok x => simpa [Except.map] using h

theorem range_channel_size_ratio (has_scale : Bool) (flags : RangeReductionFlags8)
    (bs : BoneStreams) :
    range_rotation_size bs flags true = 4 * range_rotation_size bs flags false
    ∧ range_translation_size bs flags true = 4 * range_translation_size bs flags false
    ∧ range_scale_size has_scale bs flags true = 4 * range_scale_size has_scale bs flags false := by
  unfold range_rotation_size range_translation_size range_scale_size
    rotation_member_size RotationTrackStream.get_rotation_format
  refine ⟨?_, ?_, ?_⟩
  · by_cases hq : bs.rotations.rotation_format = .Quat_128 <;>
      cases are_any_enum_flags_set flags .Rotations <;>
      cases bs.is_rotation_animated <;> simp [hq]
  · cases are_any_enum_flags_set flags .Translations <;>
      cases bs.is_translation_animated <;> simp
  · cases are_any_enum_flags_set flags .Scales <;> cases bs.is_scale_animated <;>
      cases has_scale <;> simp

theorem write_range_track_data_bone_scale_congr (P : Primitives)
    (clip_context clip_context' : ClipContext) (streams : List BoneStreams)
    (ranges : List BoneRanges) (flags : RangeReductionFlags8) (is_clip : Bool)
    (hscale : clip_context'.has_scale = clip_context.has_scale) :
    write_range_track_data_bone P clip_context streams ranges flags is_clip
      = write_range_track_data_bone P clip_context' streams ranges flags is_clip := by
  funext b o
  simp only [write_range_track_data_bone, write_range_track_data_scale, hscale]

/-! ## Reading floats back -/

theorem float_of_bytes_float_bytes (x : Nat) (h : x < 2 ^ 32) :
    float_of_bytes (x % 256) (x / 256 % 256) (x / 65536 % 256) (x / 16777216 % 256) = x := by
  unfold float_of_bytes
  omega

theorem read_floats_pair_12 (m e : Vector4_32) (hm : m.is_float32) (he : e.is_float32) :
    read_floats ((vector_as_float_ptr m).take 12 ++ (vector_as_float_ptr e).take 12)
      = [m.x, m.y, m.z, e.x, e.y, e.z] := by
  obtain ⟨h1, h2, h3, _⟩ := hm
  obtain ⟨h4, h5, h6, _⟩ := he
  simp only [vector_as_float_ptr, float_bytes, read_floats, List.cons_append, List.nil_append,
    List.take_succ_cons, List.take_zero, List.cons.injEq, and_true]
  exact ⟨float_of_bytes_float_bytes _ h1, float_of_bytes_float_bytes _ h2,
    float_of_bytes_float_bytes _ h3, float_of_bytes_float_bytes _ h4,
    float_of_bytes_float_bytes _ h5, float_of_bytes_float_bytes _ h6⟩

theorem read_floats_pair_16 (m e : Vector4_32) (hm : m.is_float32) (he : e.is_float32) :
    read_floats ((vector_as_float_ptr m).take 16 ++ (vector_as_float_ptr e).take 16)
      = [m.x, m.y, m.z, m.w, e.x, e.y, e.z, e.w] := by
  obtain ⟨h1, h2, h3, h4⟩ := hm
  obtain ⟨h5, h6, h7, h8⟩ := he
  simp only [vector_as_float_ptr, float_bytes, read_floats, List.cons_append, List.nil_append,
    List.take_succ_cons, List.take_zero, List.take_nil, List.cons.injEq, and_true]
  exact ⟨float_of_bytes_float_bytes _ h1, float_of_bytes_float_bytes _ h2,
    float_of_bytes_float_bytes _ h3, float_of_bytes_float_bytes _ h4,
    float_of_bytes_float_bytes _ h5, float_of_bytes_float_bytes _ h6,
    float_of_bytes_float_bytes _ h7, float_of_bytes_float_bytes _ h8⟩

theorem written_window (r : Except Fault OutBuffer) (out : OutBuffer) (bytes : List Nat)
    (n : Nat) (h : r = .ok (out.write bytes)) (hn : bytes.length = n) :
    ∃ out1, r = .ok out1 ∧ out1.ptr = out.ptr + n ∧ read_bytes out1.memory out.ptr n = bytes := by
  subst hn
  exact ⟨_, h, rfl, read_bytes_write out bytes⟩

/-! ## The interleaved writer against the clip-level range writer -/

theorem output_bone_loop_congr (assert_checks : Bool) (data_end : Nat)
    (body body' : Nat → OutBuffer → Except Fault OutBuffer) (m : List Nat) :
    ∀ (i : Nat) (out : OutBuffer), (∀ b ∈ m, ∀ o, body b o = body' b o) →
      output_bone_loop assert_checks data_end body m i out
        = output_bone_loop assert_checks data_end body' m i out := by
  induction m with
  | nil => intro i out _; rfl
  | cons b rest ih =>
    intro i out h
    simp only [output_bone_loop]
    rw [h b (by simp) out]
    cases body' b out with
    | error e => rfl
    | ok o1 =>
      simp only [bind, Except.bind]
      cases ACL_ASSERT assert_checks (decide (o1.ptr ≤ data_end)) (Fault.wrote_too_much i) with
      | error e => rfl
      | ok u =>
        simp only []
        exact ih (i + 1) o1 (fun c hc o => h c (by simp [hc]) o)

theorem copy_constant_sample_eq (track : TrackStream) (o : OutBuffer) :
    copy_constant_sample track o
      = (take_bytes (track.get_raw_sample_ptr 0) track.sample_size).map o.write := by
  have := memcpy_advance_eq o (track.get_raw_sample_ptr 0) track.sample_size
  simpa [copy_constant_sample, TrackStream.get_sample_size] using this

theorem track_rotation_bytes_split (P : Primitives) (bs : BoneStreams) (br : BoneRanges)
    (flags : RangeReductionFlags8) :
    track_rotation_bytes bs br flags
      = if bs.is_rotation_default = false ∧ bs.is_rotation_constant = true then
          take_bytes (bs.rotations.get_raw_sample_ptr 0) bs.rotations.sample_size
        else range_rotation_bytes P bs br flags true := by
  unfold track_rotation_bytes range_rotation_bytes BoneStreams.is_rotation_animated
  cases bs.is_rotation_default <;> cases bs.is_rotation_constant <;> simp

theorem track_translation_bytes_split (P : Primitives) (bs : BoneStreams) (br : BoneRanges)
    (flags : RangeReductionFlags8) :
    track_translation_bytes bs br flags
      = if bs.is_translation_default = false ∧ bs.is_translation_constant = true then
          take_bytes (bs.translations.get_raw_sample_ptr 0) bs.translations.sample_size
        else range_translation_bytes P bs br flags true := by
  unfold track_translation_bytes range_translation_bytes range_impl_bytes
    BoneStreams.is_translation_animated
  cases bs.is_translation_default <;> cases bs.is_translation_constant <;> simp

theorem track_scale_bytes_split (P : Primitives) (has_scale : Bool) (bs : BoneStreams)
    (br : BoneRanges) (flags : RangeReductionFlags8) :
    track_scale_bytes has_scale bs br flags
      = if has_scale = true ∧ bs.is_scale_default = false ∧ bs.is_scale_constant = true then
          take_bytes (bs.scales.get_raw_sample_ptr 0) bs.scales.sample_size
        else range_scale_bytes P has_scale bs br flags true := by
  unfold track_scale_bytes range_scale_bytes range_impl_bytes BoneStreams.is_scale_animated
  cases has_scale <;> cases bs.is_scale_default <;> cases bs.is_scale_constant <;> simp

theorem track_block_bytes_eq_range (P : Primitives) (has_scale : Bool)
    (flags : RangeReductionFlags8) (bs : BoneStreams) (br : BoneRanges)
    (h : no_constant_channel bs) :
    track_block_bytes has_scale flags bs br = range_block_bytes P has_scale flags true bs br := by
  obtain ⟨h1, h2, h3⟩ := h
  have e1 : ¬ (bs.is_rotation_default = false ∧ bs.is_rotation_constant = true) := by
    rintro ⟨hd, hc⟩; rw [h1 hc] at hd; exact absurd hd (by decide)
  have e2 : ¬ (bs.is_translation_default = false ∧ bs.is_translation_constant = true) := by
    rintro ⟨hd, hc⟩; rw [h2 hc] at hd; exact absurd hd (by decide)
  have e3 : ¬ (has_scale = true ∧ bs.is_scale_default = false ∧ bs.is_scale_constant = true) := by
    rintro ⟨_, hd, hc⟩; rw [h3 hc] at hd; exact absurd hd (by decide)
  unfold track_block_bytes range_block_bytes
  rw [track_rotation_bytes_split P, track_translation_bytes_split P,
    track_scale_bytes_split P, if_neg e1, if_neg e2, if_neg e3]

theorem write_clip_track_data_eq_range (P : Primitives) (assert_checks : Bool)
    (clip_context : ClipContext) (segment : SegmentContext) (others : List SegmentContext)
    (flags : RangeReductionFlags8) (out : OutBuffer) (size : Nat) (m : List Nat)
    (hseg : clip_context.segments = segment :: others)
    (hconst : ∀ b ∈ m, ∀ bs, segment.bone_streams[b]? = some bs → no_constant_channel bs) :
    write_clip_track_data assert_checks clip_context flags out size m
      = write_clip_range_data P assert_checks clip_context flags out size m := by
  have hbody : ∀ b ∈ m, ∀ o, write_clip_track_data_bone clip_context segment flags b o
      = write_range_track_data_bone P clip_context segment.bone_streams clip_context.ranges
          flags true b o := by
    intro b hb o
    rw [write_clip_track_data_bone_eq,
      write_range_track_data_bone_eq P clip_context segment.bone_streams clip_context.ranges
        flags true (Or.inl rfl) b o]
    congr 1
    cases hs : segment.bone_streams[b]? with
    | none => simp [entry_block, at_index, hs, bind, Except.bind]
    | some bs =>
      cases hr : clip_context.ranges[b]? with
      | none => simp [entry_block, at_index, hs, hr, bind, Except.bind]
      | some br =>
        rw [entry_block_some _ _ _ b bs br hs hr, entry_block_some _ _ _ b bs br hs hr]
        exact track_block_bytes_eq_range P _ flags bs br (hconst b hb bs hs)
  have hloop := output_bone_loop_congr assert_checks (out.ptr + size) _ _ m 0 out hbody
  simp only [write_clip_track_data, write_clip_range_data, write_range_track_data, hseg,
    at_index_zero, bind, Except.bind]
  rw [hloop]

/-! ## The claims -/

/-- C1. Exact sizing at clip level: when every rotation stream has the format
given to the estimator and the output bone mapping lists every bone of segment
0 exactly once, `get_stream_range_data_size` returns a size, and
`write_clip_range_data`, given a buffer declared of that size, passes its
cursor checks and ends with the cursor exactly that many bytes after the start
of the buffer.  This holds for all flags, formats, `has_scale` values and
channel classifications, with assertion checks compiled in or not. -/
theorem exact_sizing_clip_level (P : Primitives) (assert_checks : Bool)
    (clip_context : ClipContext) (segment : SegmentContext) (others : List SegmentContext)
    (range_reduction : RangeReductionFlags8) (rotation_format : RotationFormat8)
    (memory : Nat → Nat) (range_data : Nat) (output_bone_mapping : List Nat)
    (hseg : clip_context.segments = segment :: others)
    (hranges : segment.bone_streams.length ≤ clip_context.ranges.length)
    (hformat : ∀ bone_stream ∈ segment.bone_streams,
      bone_stream.rotations.get_rotation_format = rotation_format)
    (hperm : output_bone_mapping.Perm (List.range segment.bone_streams.length))
    (hu16 : output_bone_mapping.length < 65536)
    (hnull : range_data ≠ 0) :
    ∃ size out,
      get_stream_range_data_size clip_context range_reduction rotation_format = .ok size
      ∧ write_clip_range_data P assert_checks clip_context range_reduction
          ⟨memory, range_data⟩ size output_bone_mapping = .ok out
      ∧ out.ptr = range_data + size := by
  have hlen : segment.bone_streams.length < 65536 := by
    have := hperm.length_eq
    simp only [List.length_range] at this
    omega
  have hest := get_stream_range_data_size_eq clip_context segment others range_reduction
    rotation_format hseg hlen
  have hsum : (output_bone_mapping.map (entry_value segment.bone_streams
      (range_block_size clip_context.has_scale range_reduction true))).sum
      = (segment.bone_streams.map
          (estimated_bone_size clip_context.has_scale range_reduction rotation_format)).sum := by
    rw [entry_value_perm_sum _ _ _ hperm]
    congr 1
    apply List.map_congr_left
    intro bs hbs
    exact range_block_size_clip _ _ _ bs (hformat bs hbs)
  obtain ⟨bl, hbl⟩ := mapping_blocks_ok
    (entry_block segment.bone_streams clip_context.ranges
      (range_block_bytes P clip_context.has_scale range_reduction true)) output_bone_mapping
    (by
      intro b hb
      have hb2 : b < segment.bone_streams.length := by
        have := hperm.mem_iff.1 hb
        simpa using this
      exact entry_block_ok _ _ _ b hb2 (by omega) (range_block_bytes_clip_ok _ _ _ _ _))
  obtain ⟨o, ho, hp⟩ := write_range_track_data_run P assert_checks clip_context
    segment.bone_streams clip_context.ranges range_reduction true ⟨memory, range_data⟩
    ((segment.bone_streams.map
      (estimated_bone_size clip_context.has_scale range_reduction rotation_format)).sum)
    output_bone_mapping bl hbl (fun _ => hnull) (fun _ => hsum.symm)
  refine ⟨_, o, hest, ?_, ?_⟩
  · simp only [write_clip_range_data, hseg, at_index_zero, bind, Except.bind]
    exact ho
  · rw [hp, hsum]

/-- C1 at a clip with scale whose three bones are all animated, all constant
and all default, with every kind enabled and the mapping `[2, 0, 1]`. -/
theorem exact_sizing_clip_level_witness :
    ∃ size out,
      get_stream_range_data_size scale_clip all_flags (.Narrower 0) = .ok size
      ∧ write_clip_range_data sample_primitives true scale_clip all_flags
          ⟨zero_memory, 1000⟩ size [2, 0, 1] = .ok out
      ∧ out.ptr = 1000 + size :=
  exact_sizing_clip_level sample_primitives true scale_clip mixed_segment []
    all_flags (.Narrower 0) zero_memory 1000 [2, 0, 1] rfl (by decide) (by decide) (by decide)
    (by decide) (by decide)

/-- C2, as stated, fails: for a bone whose rotation is animated in the
`Quat_128` format, with rotations enabled, `write_segment_range_data` moves the
cursor by 8 bytes, although the mapping has no enabled animated channel in a
3-component format. -/
theorem segment_byte_count_counterexample :
    ∃ out, write_segment_range_data sample_primitives true quat_clip quat_segment
        .Rotations ⟨zero_memory, 1000⟩ 8 [0] = .ok out
      ∧ out.ptr = 1000 + 8
      ∧ out.ptr ≠ 1000 + 6 * ([0].map (entry_value quat_segment.bone_streams
          (narrow_channel_count quat_clip.has_scale .Rotations))).sum := by
  obtain ⟨o, ho, hp⟩ := write_segment_range_data_run sample_primitives true quat_clip
    quat_segment .Rotations ⟨zero_memory, 1000⟩ [0] (by decide) (by decide) (by decide)
  have h8 : 6 * ([0].map (entry_value quat_segment.bone_streams
        (narrow_channel_count quat_clip.has_scale .Rotations))).sum
      + 8 * ([0].map (entry_value quat_segment.bone_streams
        (quat_channel_count .Rotations))).sum = 8 := by decide
  rw [h8] at ho hp
  exact ⟨o, ho, hp, by rw [hp]; decide⟩

/-- C2, amended. In segment-level mode `write_segment_range_data` moves the
cursor, per mapped bone, by 6 bytes for each enabled animated channel stored in
a 3-component format, by 8 bytes for an enabled animated `Quat_128` rotation,
and by nothing for a constant, default or disabled channel: declared of that
total size, the buffer passes the cursor checks and the cursor ends at 6 times
the number of 3-component channels plus 8 times the number of `Quat_128`
rotations. -/
theorem segment_byte_count (P : Primitives) (assert_checks : Bool) (clip_context : ClipContext)
    (segment : SegmentContext) (range_reduction : RangeReductionFlags8) (memory : Nat → Nat)
    (range_data : Nat) (output_bone_mapping : List Nat)
    (hbounds : mapping_in_bounds segment.bone_streams segment.ranges output_bone_mapping)
    (hsamples : ∀ bone_stream ∈ segment.bone_streams, shortcut_samples_present P bone_stream)
    (hnull : range_data ≠ 0) :
    ∃ out, write_segment_range_data P assert_checks clip_context segment range_reduction
        ⟨memory, range_data⟩
        (6 * (output_bone_mapping.map (entry_value segment.bone_streams
            (narrow_channel_count clip_context.has_scale range_reduction))).sum
          + 8 * (output_bone_mapping.map (entry_value segment.bone_streams
            (quat_channel_count range_reduction))).sum) output_bone_mapping = .ok out
      ∧ out.ptr = range_data
          + (6 * (output_bone_mapping.map (entry_value segment.bone_streams
              (narrow_channel_count clip_context.has_scale range_reduction))).sum
            + 8 * (output_bone_mapping.map (entry_value segment.bone_streams
              (quat_channel_count range_reduction))).sum) :=
  write_segment_range_data_run P assert_checks clip_context segment range_reduction
    ⟨memory, range_data⟩ output_bone_mapping hbounds hsamples hnull

/-- C2, amended, at the end-to-end scenario: two bones, scale disabled, flags
rotations and translations; 12 bytes are written and the cursor lands at byte
12, and the same holds for bone 0 alone. -/
theorem segment_byte_count_witness :
    (∃ out, write_segment_range_data sample_primitives true scenario_clip scenario_segment
        scenario_flags ⟨zero_memory, 1000⟩ 12 [0, 1] = .ok out ∧ out.ptr = 1000 + 12)
    ∧ (∃ out, write_segment_range_data sample_primitives true scenario_clip scenario_segment
        scenario_flags ⟨zero_memory, 1000⟩ 12 [0] = .ok out ∧ out.ptr = 1000 + 12) :=
  ⟨segment_byte_count sample_primitives true scenario_clip scenario_segment scenario_flags
      zero_memory 1000 [0, 1] (by decide) (by decide) (by decide),
    segment_byte_count sample_primitives true scenario_clip scenario_segment scenario_flags
      zero_memory 1000 [0] (by decide) (by decide) (by decide)⟩

/-- C3. Cursor checks of `write_range_track_data` and of `write_clip_track_data`
with assertion checks compiled in and a non-null buffer, for a pass that reads
its inputs within bounds (the pass without checks returns `out0`, having
emitted `out0.ptr - range_data` bytes, the cursor never moving back): the call
returns without a fault if and
only if the declared size equals the number of bytes emitted, and then returns
`out0`; if the declared size is smaller, the call stops on the 'wrote too much'
check at the first output index whose cumulative byte count exceeds the
declared size; if it is larger, the call stops on the 'wrote too little' check
at the end of the pass. -/
theorem cursor_checks (P : Primitives) (clip_context : ClipContext)
    (bone_streams : List BoneStreams) (bone_ranges : List BoneRanges)
    (range_reduction : RangeReductionFlags8) (is_clip_range_data : Bool) (memory : Nat → Nat)
    (range_data size : Nat) (output_bone_mapping : List Nat) (hnull : range_data ≠ 0) :
    (∀ out0, write_range_track_data P false clip_context bone_streams bone_ranges
        range_reduction is_clip_range_data ⟨memory, range_data⟩ size output_bone_mapping
        = .ok out0 →
      range_data ≤ out0.ptr
      ∧ ((∃ o, write_range_track_data P true clip_context bone_streams bone_ranges
          range_reduction is_clip_range_data ⟨memory, range_data⟩ size output_bone_mapping
          = .ok o) ↔ size = out0.ptr - range_data)
      ∧ (size = out0.ptr - range_data →
          write_range_track_data P true clip_context bone_streams bone_ranges
            range_reduction is_clip_range_data ⟨memory, range_data⟩ size output_bone_mapping
            = .ok out0)
      ∧ (size < out0.ptr - range_data → ∃ j, j < output_bone_mapping.length
          ∧ write_range_track_data P true clip_context bone_streams bone_ranges
              range_reduction is_clip_range_data ⟨memory, range_data⟩ size output_bone_mapping
              = .error (.wrote_too_much j)
          ∧ (∃ o, write_range_track_data P false clip_context bone_streams bone_ranges
              range_reduction is_clip_range_data ⟨memory, range_data⟩ size
              (output_bone_mapping.take (j + 1)) = .ok o ∧ size < o.ptr - range_data)
          ∧ ∀ k, k < j → ∃ o, write_range_track_data P false clip_context bone_streams
              bone_ranges range_reduction is_clip_range_data ⟨memory, range_data⟩ size
              (output_bone_mapping.take (k + 1)) = .ok o ∧ o.ptr - range_data ≤ size)
      ∧ (out0.ptr - range_data < size →
          write_range_track_data P true clip_context bone_streams bone_ranges
            range_reduction is_clip_range_data ⟨memory, range_data⟩ size output_bone_mapping
            = .error .wrote_too_little))
    ∧ (∀ out0, write_clip_track_data false clip_context range_reduction ⟨memory, range_data⟩
        size output_bone_mapping = .ok out0 →
      range_data ≤ out0.ptr
      ∧ ((∃ o, write_clip_track_data true clip_context range_reduction ⟨memory, range_data⟩
          size output_bone_mapping = .ok o) ↔ size = out0.ptr - range_data)
      ∧ (size = out0.ptr - range_data →
          write_clip_track_data true clip_context range_reduction ⟨memory, range_data⟩
            size output_bone_mapping = .ok out0)
      ∧ (size < out0.ptr - range_data → ∃ j, j < output_bone_mapping.length
          ∧ write_clip_track_data true clip_context range_reduction ⟨memory, range_data⟩
              size output_bone_mapping = .error (.wrote_too_much j)
          ∧ (∃ o, write_clip_track_data false clip_context range_reduction
              ⟨memory, range_data⟩ size (output_bone_mapping.take (j + 1)) = .ok o
              ∧ size < o.ptr - range_data)
          ∧ ∀ k, k < j → ∃ o, write_clip_track_data false clip_context range_reduction
              ⟨memory, range_data⟩ size (output_bone_mapping.take (k + 1)) = .ok o
              ∧ o.ptr - range_data ≤ size)
      ∧ (out0.ptr - range_data < size →
          write_clip_track_data true clip_context range_reduction ⟨memory, range_data⟩
            size output_bone_mapping = .error .wrote_too_little)) := by
  constructor
  · intro out0 hrun
    obtain ⟨hmono, hiff, heq, hgt, hlt⟩ := write_range_track_data_checks P clip_context
      bone_streams bone_ranges range_reduction is_clip_range_data ⟨memory, range_data⟩ out0 size
      output_bone_mapping hnull hrun
    simp only at hmono hiff heq hgt hlt
    refine ⟨hmono, ?_, ?_, ?_, ?_⟩
    · rw [hiff]; omega
    · intro h; exact heq (by omega)
    · intro h
      obtain ⟨j, hj, he, ⟨o, ho, hpo⟩, hk⟩ := hgt (by omega)
      refine ⟨j, hj, he, ⟨o, ho, by omega⟩, ?_⟩
      intro k hkj
      obtain ⟨o', ho', hpo'⟩ := hk k hkj
      exact ⟨o', ho', by omega⟩
    · intro h; exact hlt (by omega)
  · intro out0 hrun
    obtain ⟨hmono, hiff, heq, hgt, hlt⟩ := write_clip_track_data_checks clip_context
      range_reduction ⟨memory, range_data⟩ out0 size output_bone_mapping hnull hrun
    simp only at hmono hiff heq hgt hlt
    refine ⟨hmono, ?_, ?_, ?_, ?_⟩
    · rw [hiff]; omega
    · intro h; exact heq (by omega)
    · intro h
      obtain ⟨j, hj, he, ⟨o, ho, hpo⟩, hk⟩ := hgt (by omega)
      refine ⟨j, hj, he, ⟨o, ho, by omega⟩, ?_⟩
      intro k hkj
      obtain ⟨o', ho', hpo'⟩ := hk k hkj
      exact ⟨o', ho', by omega⟩
    · intro h; exact hlt (by omega)

/-- C3 at the end-to-end scenario: the segment-level pass emits 12 bytes and
the interleaved pass 60 bytes, so a buffer declared of 20 bytes, respectively
of 100 bytes, stops both on the 'wrote too little' check. -/
theorem cursor_checks_witness :
    write_range_track_data sample_primitives true scenario_clip scenario_segment.bone_streams
        scenario_segment.ranges scenario_flags false ⟨zero_memory, 1000⟩ 20 [0, 1]
      = .error .wrote_too_little
    ∧ write_clip_track_data true scenario_clip scenario_flags ⟨zero_memory, 1000⟩ 100 [0, 1]
      = .error .wrote_too_little := by
  have h := cursor_checks sample_primitives scenario_clip scenario_segment.bone_streams
    scenario_segment.ranges scenario_flags false zero_memory 1000
  constructor
  · have hb : ∃ bl, mapping_blocks (entry_block scenario_segment.bone_streams
        scenario_segment.ranges
        (range_block_bytes sample_primitives scenario_clip.has_scale scenario_flags false))
        [0, 1] = .ok bl ∧ bl.flatten.length = 12 := ⟨_, rfl, by decide⟩
    obtain ⟨bl, hbl, hlen⟩ := hb
    have hrun := write_range_track_data_stream sample_primitives scenario_clip
      scenario_segment.bone_streams scenario_segment.ranges scenario_flags false
      (Or.inr ⟨fun _ => rfl, fun _ _ => rfl⟩) ⟨zero_memory, 1000⟩ 20 [0, 1]
    rw [hbl] at hrun
    exact ((h 20 [0, 1] (by decide)).1 _ hrun).2.2.2.2
      (by simp only [Except.map, OutBuffer.write_ptr, hlen]; decide)
  · have hb : ∃ bl, mapping_blocks (entry_block scenario_segment.bone_streams
        scenario_clip.ranges (track_block_bytes scenario_clip.has_scale scenario_flags))
        [0, 1] = .ok bl ∧ bl.flatten.length = 60 := ⟨_, rfl, by decide⟩
    obtain ⟨bl, hbl, hlen⟩ := hb
    have hrun := write_clip_track_data_stream scenario_clip scenario_segment [] scenario_flags
      ⟨zero_memory, 1000⟩ 100 [0, 1] rfl
    rw [hbl] at hrun
    exact ((h 100 [0, 1] (by decide)).2 _ hrun).2.2.2.2
      (by simp only [Except.map, OutBuffer.write_ptr, hlen]; decide)

/-- C4. Size estimator formula: for a clip whose segment 0 has fewer than
`2 ^ 16` bones, `get_stream_range_data_size` returns the sum, over the bones of
segment 0 only, of the rotation size for an animated rotation, of the
translation size for an animated translation and, when the clip has scale, of
the scale size for an animated scale; the rotation size is that of the given
format (32 bytes for `Quat_128`, 24 bytes otherwise), the translation and scale
sizes are the vector3 range size (24 bytes), each size is `0` when the kind is
not in the flags, and constant and default channels add nothing. -/
theorem size_estimator_formula (clip_context : ClipContext) (segment : SegmentContext)
    (others : List SegmentContext) (range_reduction : RangeReductionFlags8)
    (rotation_format : RotationFormat8)
    (hseg : clip_context.segments = segment :: others)
    (hbones : segment.bone_streams.length < 65536) :
    get_stream_range_data_size clip_context range_reduction rotation_format
      = .ok ((segment.bone_streams.map (fun bone_stream =>
          (if bone_stream.is_rotation_animated then
              (if are_any_enum_flags_set range_reduction .Rotations then
                get_range_reduction_rotation_size rotation_format else 0)
            else 0)
          + (if bone_stream.is_translation_animated then
              (if are_any_enum_flags_set range_reduction .Translations then
                k_clip_range_reduction_vector3_range_size else 0)
            else 0)
          + (if clip_context.has_scale = true ∧ bone_stream.is_scale_animated = true then
              (if are_any_enum_flags_set range_reduction .Scales then
                k_clip_range_reduction_vector3_range_size else 0)
            else 0))).sum) := by
  rw [get_stream_range_data_size_eq clip_context segment others range_reduction rotation_format
    hseg hbones]
  congr 2
  apply List.map_congr_left
  intro bs _
  unfold estimated_bone_size
  cases clip_context.has_scale <;> cases bs.is_scale_animated <;> simp

/-- C4 at the end-to-end scenario: the estimate is the rotation size plus the
translation size, from bone 0 only. -/
theorem size_estimator_formula_witness :
    get_stream_range_data_size scenario_clip scenario_flags (.Narrower 0) = .ok (24 + 24) :=
  (size_estimator_formula scenario_clip scenario_segment [] scenario_flags (.Narrower 0) rfl
    (by decide)).trans (congrArg Except.ok (by decide))

/-- C5, as stated, fails: in a clip without scale, an animated scale whose kind
is enabled and whose bit rate is the constant bit rate gets no byte in
segment-level mode; the pass over the bone writes the 6 bytes of the rotation
and the 6 bytes of the translation only. -/
theorem constant_bit_rate_shortcut_counterexample :
    are_any_enum_flags_set all_flags .Scales = true
    ∧ shortcut_bone.is_scale_animated = true
    ∧ sample_primitives.is_constant_bit_rate shortcut_bone.scales.get_bit_rate = true
    ∧ write_range_track_data_scale sample_primitives shortcut_noscale_clip shortcut_bone
        sample_bone_ranges all_flags false ⟨zero_memory, 1000⟩ = .ok ⟨zero_memory, 1000⟩
    ∧ ∃ out, write_segment_range_data sample_primitives true shortcut_noscale_clip
        shortcut_segment all_flags ⟨zero_memory, 1000⟩ 12 [0] = .ok out
      ∧ out.ptr = 1000 + (6 + 6) ∧ out.ptr ≠ 1000 + (6 + 6 + 6) := by
  refine ⟨rfl, rfl, rfl, rfl, ?_⟩
  obtain ⟨o, ho, hp⟩ := write_segment_range_data_run sample_primitives true
    shortcut_noscale_clip shortcut_segment all_flags ⟨zero_memory, 1000⟩ [0] (by decide)
    (by decide) (by decide)
  have h12 : 6 * ([0].map (entry_value shortcut_segment.bone_streams
        (narrow_channel_count shortcut_noscale_clip.has_scale all_flags))).sum
      + 8 * ([0].map (entry_value shortcut_segment.bone_streams
        (quat_channel_count all_flags))).sum = 12 := by decide
  rw [h12] at ho hp
  exact ⟨o, ho, hp, by rw [hp]; decide⟩

/-- C5, amended. Constant-bit-rate shortcut in segment-level mode: an enabled
animated rotation in a narrower format, an enabled animated translation and,
when the clip has scale, an enabled animated scale, whose bit rate is the
constant bit rate and whose stream holds 6 bytes, make the writer store exactly
the first 6 bytes of the raw sample 0 of the channel at the cursor and move the
cursor by 6; the same holds of `write_range_track_data_impl` itself.  The
result does not mention the range: it is the same for every minimum and
extent.  When the clip has no scale, the scale statement returns the buffer it
was given: the scale channel gets no byte, whatever the flags, the
classification and the bit rate are. -/
theorem constant_bit_rate_shortcut (P : Primitives) (clip_context : ClipContext)
    (bone_stream : BoneStreams) (bone_range : BoneRanges)
    (range_reduction : RangeReductionFlags8) (track : TrackStream) (range : TrackStreamRange)
    (out : OutBuffer) :
    (are_any_enum_flags_set range_reduction .Rotations = true →
      bone_stream.is_rotation_animated = true →
      bone_stream.rotations.get_rotation_format ≠ .Quat_128 →
      P.is_constant_bit_rate bone_stream.rotations.get_bit_rate = true →
      6 ≤ bone_stream.rotations.samples.length →
      write_range_track_data_rotation P bone_stream bone_range range_reduction false out
        = .ok ((out.store ((bone_stream.rotations.get_raw_sample_ptr 0).take 6)).advance 6))
    ∧ (are_any_enum_flags_set range_reduction .Translations = true →
      bone_stream.is_translation_animated = true →
      P.is_constant_bit_rate bone_stream.translations.get_bit_rate = true →
      6 ≤ bone_stream.translations.samples.length →
      write_range_track_data_translation P bone_stream bone_range range_reduction false out
        = .ok ((out.store ((bone_stream.translations.get_raw_sample_ptr 0).take 6)).advance 6))
    ∧ (clip_context.has_scale = true →
      are_any_enum_flags_set range_reduction .Scales = true →
      bone_stream.is_scale_animated = true →
      P.is_constant_bit_rate bone_stream.scales.get_bit_rate = true →
      6 ≤ bone_stream.scales.samples.length →
      write_range_track_data_scale P clip_context bone_stream bone_range range_reduction false
          out
        = .ok ((out.store ((bone_stream.scales.get_raw_sample_ptr 0).take 6)).advance 6))
    ∧ (P.is_constant_bit_rate track.get_bit_rate = true →
      6 ≤ track.samples.length →
      write_range_track_data_impl P track range false out
        = .ok ((out.store ((track.get_raw_sample_ptr 0).take 6)).advance 6))
    ∧ (clip_context.has_scale = false →
      write_range_track_data_scale P clip_context bone_stream bone_range range_reduction false
          out
        = .ok out) := by
  have himpl : ∀ (t : TrackStream) (r : TrackStreamRange),
      P.is_constant_bit_rate t.get_bit_rate = true → 6 ≤ t.samples.length →
      write_range_track_data_impl P t r false out
        = .ok ((out.store ((t.get_raw_sample_ptr 0).take 6)).advance 6) := by
    intro t r hc h6
    have h6' : 6 ≤ (t.get_raw_sample_ptr 0).length := by
      simpa [TrackStream.get_raw_sample_ptr] using h6
    simp [write_range_track_data_impl, hc, memcpy, h6', bind, Except.bind, pure, Except.pure]
  refine ⟨?_, ?_, ?_, himpl track range, ?_⟩
  · intro hf ha hq hc h6
    have h6' : 6 ≤ (bone_stream.rotations.get_raw_sample_ptr 0).length := by
      simpa [TrackStream.get_raw_sample_ptr] using h6
    simp [write_range_track_data_rotation, hf, ha, hq, hc, memcpy, h6', bind, Except.bind, pure,
      Except.pure]
  · intro hf ha hc h6
    simp only [write_range_track_data_translation, hf, ha, Bool.and_self, if_true]
    exact himpl _ _ hc h6
  · intro hs hf ha hc h6
    simp only [write_range_track_data_scale, hs, hf, ha, Bool.and_self, if_true]
    exact himpl _ _ hc h6
  · intro hs
    simp [write_range_track_data_scale, hs]

/-- C5, amended, at a bone whose three channels are animated at the constant bit rate
`0`: each channel stores the first 6 bytes of its raw sample; and in a clip
without scale, with the scales alone enabled, the scale statement leaves the
buffer as it was. -/
theorem constant_bit_rate_shortcut_witness :
    write_range_track_data_rotation sample_primitives shortcut_bone sample_bone_ranges
        all_flags false ⟨zero_memory, 1000⟩
      = .ok (((⟨zero_memory, 1000⟩ : OutBuffer).store [10, 11, 12, 13, 14, 15]).advance 6)
    ∧ write_range_track_data_translation sample_primitives shortcut_bone sample_bone_ranges
        all_flags false ⟨zero_memory, 1000⟩
      = .ok (((⟨zero_memory, 1000⟩ : OutBuffer).store [10, 11, 12, 13, 14, 15]).advance 6)
    ∧ write_range_track_data_scale sample_primitives quat_clip shortcut_bone sample_bone_ranges
        all_flags false ⟨zero_memory, 1000⟩
      = .ok (((⟨zero_memory, 1000⟩ : OutBuffer).store [10, 11, 12, 13, 14, 15]).advance 6)
    ∧ write_range_track_data_scale sample_primitives shortcut_noscale_clip shortcut_bone
        sample_bone_ranges RangeReductionFlags8.Scales false ⟨zero_memory, 1000⟩
      = .ok ⟨zero_memory, 1000⟩ :=
  have h := constant_bit_rate_shortcut sample_primitives quat_clip shortcut_bone
    sample_bone_ranges all_flags shortcut_track sample_range ⟨zero_memory, 1000⟩
  ⟨h.1 rfl rfl (by decide) rfl (by decide), h.2.1 rfl rfl rfl (by decide),
    h.2.2.1 rfl rfl rfl rfl (by decide),
    (constant_bit_rate_shortcut sample_primitives shortcut_noscale_clip shortcut_bone
      sample_bone_ranges RangeReductionFlags8.Scales shortcut_track sample_range
      ⟨zero_memory, 1000⟩).2.2.2.2 rfl⟩

/-- C6, as stated, fails: in a clip without scale, for a bone whose three
channels are animated and with the three kinds enabled,
`write_clip_track_data` emits 24 + 24 bytes and nothing for the scale. -/
theorem interleaved_all_animated_counterexample :
    animated_bone.is_rotation_animated = true ∧ animated_bone.is_translation_animated = true
    ∧ animated_bone.is_scale_animated = true
    ∧ ∃ out, write_clip_track_data true noscale_clip all_flags ⟨zero_memory, 1000⟩ 48 [0]
        = .ok out
      ∧ out.ptr = 1000 + (24 + 24) ∧ out.ptr ≠ 1000 + (24 + 24 + 24) := by
  refine ⟨rfl, rfl, rfl, ?_⟩
  have hb : ∃ bl, mapping_blocks (entry_block mixed_segment.bone_streams noscale_clip.ranges
      (track_block_bytes noscale_clip.has_scale all_flags)) [0] = .ok bl
      ∧ bl.flatten.length = 48 := ⟨_, rfl, by decide⟩
  obtain ⟨bl, hbl, hlen⟩ := hb
  have hrun := write_clip_track_data_run true noscale_clip mixed_segment [] all_flags
    ⟨zero_memory, 1000⟩ 48 [0] bl rfl hbl (by decide) (fun _ => hlen.symm)
  exact ⟨_, hrun, by simp [hlen], by simp [hlen]⟩

/-- C6, amended. For a bone whose rotation, translation and scale are animated,
with the three kinds enabled, `write_clip_track_data` appends for that bone the
clip-level minimum then extent of the rotation at full precision (32 bytes for
`Quat_128`, 24 bytes otherwise), then those of the translation (24 bytes),
then, when the clip has scale, those of the scale (24 bytes); when the clip has
no scale the scale adds nothing. -/
theorem interleaved_all_animated (clip_context : ClipContext) (segment : SegmentContext)
    (range_reduction : RangeReductionFlags8) (bone_index : Nat) (bone_stream : BoneStreams)
    (bone_range : BoneRanges) (out : OutBuffer)
    (hstream : segment.bone_streams[bone_index]? = some bone_stream)
    (hrange : clip_context.ranges[bone_index]? = some bone_range)
    (hrotations : are_any_enum_flags_set range_reduction .Rotations = true)
    (htranslations : are_any_enum_flags_set range_reduction .Translations = true)
    (hscales : are_any_enum_flags_set range_reduction .Scales = true)
    (hrotation : bone_stream.is_rotation_animated = true)
    (htranslation : bone_stream.is_translation_animated = true)
    (hscale : bone_stream.is_scale_animated = true) :
    ∃ bytes,
      write_clip_track_data_bone clip_context segment range_reduction bone_index out
        = .ok (out.write bytes)
      ∧ bytes =
          ((vector_as_float_ptr bone_range.rotation.min).take
              (if bone_stream.rotations.get_rotation_format = .Quat_128 then 16 else 12)
            ++ (vector_as_float_ptr bone_range.rotation.extent).take
              (if bone_stream.rotations.get_rotation_format = .Quat_128 then 16 else 12))
          ++ ((vector_as_float_ptr bone_range.translation.min).take 12
            ++ (vector_as_float_ptr bone_range.translation.extent).take 12)
          ++ (if clip_context.has_scale then
              (vector_as_float_ptr bone_range.scale.min).take 12
                ++ (vector_as_float_ptr bone_range.scale.extent).take 12
            else [])
      ∧ bytes.length =
          (if bone_stream.rotations.get_rotation_format = .Quat_128 then 32 else 24) + 24
            + (if clip_context.has_scale then 24 else 0) := by
  obtain ⟨hr1, hr2⟩ := is_animated_flags _ _ hrotation
  obtain ⟨ht1, ht2⟩ := is_animated_flags _ _ htranslation
  obtain ⟨hs1, hs2⟩ := is_animated_flags _ _ hscale
  refine ⟨_, ?_, rfl, ?_⟩
  · rw [write_clip_track_data_bone_some clip_context segment range_reduction bone_index
      bone_stream bone_range hstream hrange]
    simp only [track_block_bytes, track_rotation_bytes, track_translation_bytes,
      track_scale_bytes, hrotations, htranslations, hscales, hrotation, htranslation, hscale,
      hr1, hr2, ht1, ht2, hs1, hs2, range_pair_bytes, rotation_member_size]
    cases clip_context.has_scale <;> simp [bind, Except.bind, pure, Except.pure, Except.map]
  · cases clip_context.has_scale <;>
      by_cases hq : bone_stream.rotations.get_rotation_format = .Quat_128 <;>
      simp [hq, vector_as_float_ptr_length]

/-- C6, amended, at the all-animated bone of a clip with scale: 72 bytes. -/
theorem interleaved_all_animated_witness :
    ∃ bytes,
      write_clip_track_data_bone scale_clip mixed_segment all_flags 0 ⟨zero_memory, 1000⟩
        = .ok ((⟨zero_memory, 1000⟩ : OutBuffer).write bytes)
      ∧ bytes.length = 72 := by
  obtain ⟨bytes, h1, _, h3⟩ := interleaved_all_animated scale_clip mixed_segment all_flags 0
    animated_bone sample_bone_ranges ⟨zero_memory, 1000⟩ rfl rfl rfl rfl rfl rfl rfl rfl
  exact ⟨bytes, h1, h3⟩

/-- C7, as stated, fails: in a clip without scale, for a bone whose three
channels are constant, `write_clip_track_data` emits the raw samples of the
rotation and of the translation, 12 + 12 bytes, and not the raw sample of the
scale. -/
theorem interleaved_all_constant_counterexample :
    constant_bone.is_rotation_constant = true ∧ constant_bone.is_translation_constant = true
    ∧ constant_bone.is_scale_constant = true
    ∧ ∃ out, write_clip_track_data true noscale_clip all_flags ⟨zero_memory, 1000⟩ 24 [1]
        = .ok out
      ∧ out.ptr = 1000 + (12 + 12)
      ∧ out.ptr ≠ 1000 + (constant_bone.rotations.get_sample_size
          + constant_bone.translations.get_sample_size + constant_bone.scales.get_sample_size) := by
  refine ⟨rfl, rfl, rfl, ?_⟩
  have hb : ∃ bl, mapping_blocks (entry_block mixed_segment.bone_streams noscale_clip.ranges
      (track_block_bytes noscale_clip.has_scale all_flags)) [1] = .ok bl
      ∧ bl.flatten.length = 24 := ⟨_, rfl, by decide⟩
  obtain ⟨bl, hbl, hlen⟩ := hb
  have hrun := write_clip_track_data_run true noscale_clip mixed_segment [] all_flags
    ⟨zero_memory, 1000⟩ 24 [1] bl rfl hbl (by decide) (fun _ => hlen.symm)
  exact ⟨_, hrun, by simp [hlen], by simp [hlen]; decide⟩

/-- C7, amended. For a bone whose rotation, translation and scale are constant
(and not default), with each raw sample 0 it copies held in full, `write_clip_track_data`
appends for that bone the raw sample 0 of the rotation, then of the
translation, then, when the clip has scale, of the scale, each at its full
sample size, whatever the flags are; when the clip has no scale the scale adds
nothing. -/
theorem interleaved_all_constant (clip_context : ClipContext) (segment : SegmentContext)
    (range_reduction : RangeReductionFlags8) (bone_index : Nat) (bone_stream : BoneStreams)
    (bone_range : BoneRanges) (out : OutBuffer)
    (hstream : segment.bone_streams[bone_index]? = some bone_stream)
    (hrange : clip_context.ranges[bone_index]? = some bone_range)
    (hrotation : bone_stream.is_rotation_constant = true ∧ bone_stream.is_rotation_default = false)
    (htranslation : bone_stream.is_translation_constant = true
      ∧ bone_stream.is_translation_default = false)
    (hscale : bone_stream.is_scale_constant = true ∧ bone_stream.is_scale_default = false)
    (hsamples : bone_stream.rotations.get_sample_size ≤ bone_stream.rotations.samples.length
      ∧ bone_stream.translations.get_sample_size ≤ bone_stream.translations.samples.length
      ∧ (clip_context.has_scale = true →
        bone_stream.scales.get_sample_size ≤ bone_stream.scales.samples.length)) :
    ∃ bytes,
      write_clip_track_data_bone clip_context segment range_reduction bone_index out
        = .ok (out.write bytes)
      ∧ bytes =
          (bone_stream.rotations.get_raw_sample_ptr 0).take bone_stream.rotations.get_sample_size
          ++ (bone_stream.translations.get_raw_sample_ptr 0).take
              bone_stream.translations.get_sample_size
          ++ (if clip_context.has_scale then
              (bone_stream.scales.get_raw_sample_ptr 0).take bone_stream.scales.get_sample_size
            else [])
      ∧ bytes.length =
          bone_stream.rotations.get_sample_size + bone_stream.translations.get_sample_size
            + (if clip_context.has_scale then bone_stream.scales.get_sample_size else 0) := by
  obtain ⟨hr1, hr2⟩ := hrotation
  obtain ⟨ht1, ht2⟩ := htranslation
  obtain ⟨hs1, hs2⟩ := hscale
  obtain ⟨h1, h2, h3⟩ := hsamples
  simp only [TrackStream.get_sample_size] at h1 h2 h3
  refine ⟨_, ?_, rfl, ?_⟩
  · rw [write_clip_track_data_bone_some clip_context segment range_reduction bone_index
      bone_stream bone_range hstream hrange]
    cases hh : clip_context.has_scale with
    | false =>
      simp only [track_block_bytes, track_rotation_bytes, track_translation_bytes,
        track_scale_bytes, hr1, hr2, ht1, ht2, TrackStream.get_sample_size,
        take_bytes_raw_sample_ok _ _ h1, take_bytes_raw_sample_ok _ _ h2]
      simp [bind, Except.bind, pure, Except.pure, Except.map, TrackStream.get_raw_sample_ptr]
    | true =>
      simp only [track_block_bytes, track_rotation_bytes, track_translation_bytes,
        track_scale_bytes, hr1, hr2, ht1, ht2, hs1, hs2, TrackStream.get_sample_size,
        take_bytes_raw_sample_ok _ _ h1, take_bytes_raw_sample_ok _ _ h2,
        take_bytes_raw_sample_ok _ _ (h3 hh)]
      simp [bind, Except.bind, pure, Except.pure, Except.map, TrackStream.get_raw_sample_ptr]
  · cases hh : clip_context.has_scale with
    | false =>
      simp [TrackStream.get_raw_sample_ptr, TrackStream.get_sample_size, Nat.min_eq_left h1,
        Nat.min_eq_left h2]
    | true =>
      simp [TrackStream.get_raw_sample_ptr, TrackStream.get_sample_size, Nat.min_eq_left h1,
        Nat.min_eq_left h2, Nat.min_eq_left (h3 hh), Nat.add_assoc]

/-- C7, amended, at the all-constant bone of a clip with scale: 36 bytes. -/
theorem interleaved_all_constant_witness :
    ∃ bytes,
      write_clip_track_data_bone scale_clip mixed_segment no_flags 1 ⟨zero_memory, 1000⟩
        = .ok ((⟨zero_memory, 1000⟩ : OutBuffer).write bytes)
      ∧ bytes.length = 36 := by
  obtain ⟨bytes, h1, _, h3⟩ := interleaved_all_constant scale_clip mixed_segment no_flags 1
    constant_bone sample_bone_ranges ⟨zero_memory, 1000⟩ rfl rfl ⟨rfl, rfl⟩ ⟨rfl, rfl⟩
    ⟨rfl, rfl⟩ (by decide)
  exact ⟨bytes, h1, h3⟩

/-- C8. For a bone whose rotation, translation and scale are default,
`write_clip_track_data` emits nothing for that bone: the loop body returns the
buffer it was given, cursor and memory unchanged, for all flags and for both
values of `has_scale`. -/
theorem interleaved_all_default (clip_context : ClipContext) (segment : SegmentContext)
    (range_reduction : RangeReductionFlags8) (bone_index : Nat) (bone_stream : BoneStreams)
    (bone_range : BoneRanges) (out : OutBuffer)
    (hstream : segment.bone_streams[bone_index]? = some bone_stream)
    (hrange : clip_context.ranges[bone_index]? = some bone_range)
    (hrotation : bone_stream.is_rotation_default = true)
    (htranslation : bone_stream.is_translation_default = true)
    (hscale : bone_stream.is_scale_default = true) :
    write_clip_track_data_bone clip_context segment range_reduction bone_index out = .ok out := by
  rw [write_clip_track_data_bone_some clip_context segment range_reduction bone_index
    bone_stream bone_range hstream hrange]
  simp [track_block_bytes, track_rotation_bytes, track_translation_bytes, track_scale_bytes,
    hrotation, htranslation, hscale, bind, Except.bind, pure, Except.pure, Except.map]

/-- C8 at the all-default bone, in a clip with scale and with every kind
enabled. -/
theorem interleaved_all_default_witness :
    write_clip_track_data_bone scale_clip mixed_segment all_flags 2 ⟨zero_memory, 1000⟩
      = .ok ⟨zero_memory, 1000⟩ :=
  interleaved_all_default scale_clip mixed_segment all_flags 2 default_bone sample_bone_ranges
    ⟨zero_memory, 1000⟩ rfl rfl rfl rfl rfl

/-- C9. Reduction disabled: an animated rotation, translation or scale whose
kind is not in the flags makes its block of `write_clip_track_data` return the
buffer unchanged; and with no kind in the flags the loop body appends, for any
bone, only the raw samples of its constant channels (the scale one when the
clip has scale). -/
theorem interleaved_reduction_disabled (clip_context : ClipContext) (segment : SegmentContext)
    (range_reduction : RangeReductionFlags8) (bone_index : Nat) (bone_stream : BoneStreams)
    (bone_range : BoneRanges) (out : OutBuffer) :
    (are_any_enum_flags_set range_reduction .Rotations = false →
      bone_stream.is_rotation_animated = true →
      write_clip_track_data_rotation bone_stream bone_range range_reduction out = .ok out)
    ∧ (are_any_enum_flags_set range_reduction .Translations = false →
      bone_stream.is_translation_animated = true →
      write_clip_track_data_translation bone_stream bone_range range_reduction out = .ok out)
    ∧ (are_any_enum_flags_set range_reduction .Scales = false →
      bone_stream.is_scale_animated = true →
      write_clip_track_data_scale clip_context bone_stream bone_range range_reduction out
        = .ok out)
    ∧ (are_any_enum_flags_set range_reduction .Rotations = false →
      are_any_enum_flags_set range_reduction .Translations = false →
      are_any_enum_flags_set range_reduction .Scales = false →
      segment.bone_streams[bone_index]? = some bone_stream →
      clip_context.ranges[bone_index]? = some bone_range →
      constant_samples_present clip_context.has_scale bone_stream →
      write_clip_track_data_bone clip_context segment range_reduction bone_index out
        = .ok (out.write
            (constant_sample_bytes bone_stream.is_rotation_default
                bone_stream.is_rotation_constant bone_stream.rotations.toTrackStream
              ++ constant_sample_bytes bone_stream.is_translation_default
                bone_stream.is_translation_constant bone_stream.translations
              ++ (if clip_context.has_scale then
                  constant_sample_bytes bone_stream.is_scale_default
                    bone_stream.is_scale_constant bone_stream.scales
                else [])))) := by
  refine ⟨?_, ?_, ?_, ?_⟩
  · intro hf ha
    obtain ⟨h1, h2⟩ := is_animated_flags _ _ ha
    rw [write_clip_track_data_rotation_eq]
    simp [track_rotation_bytes, hf, h1, h2, Except.map]
  · intro hf ha
    obtain ⟨h1, h2⟩ := is_animated_flags _ _ ha
    rw [write_clip_track_data_translation_eq]
    simp [track_translation_bytes, hf, h1, h2, Except.map]
  · intro hf ha
    obtain ⟨h1, h2⟩ := is_animated_flags _ _ ha
    rw [write_clip_track_data_scale_eq]
    simp [track_scale_bytes, hf, h1, h2, Except.map]
  · intro hR hT hS hstream hrange hsamples
    obtain ⟨h1, h2, h3⟩ := hsamples
    rw [write_clip_track_data_bone_some clip_context segment range_reduction bone_index
      bone_stream bone_range hstream hrange]
    have eR : track_rotation_bytes bone_stream bone_range range_reduction
        = .ok (constant_sample_bytes bone_stream.is_rotation_default
            bone_stream.is_rotation_constant bone_stream.rotations.toTrackStream) := by
      unfold track_rotation_bytes constant_sample_bytes
      cases hd : bone_stream.is_rotation_default <;>
        cases hc : bone_stream.is_rotation_constant <;>
        simp [hR, TrackStream.get_sample_size]
      exact take_bytes_raw_sample_ptr_ok _ _ (h1 hd hc)
    have eT : track_translation_bytes bone_stream bone_range range_reduction
        = .ok (constant_sample_bytes bone_stream.is_translation_default
            bone_stream.is_translation_constant bone_stream.translations) := by
      unfold track_translation_bytes constant_sample_bytes
      cases hd : bone_stream.is_translation_default <;>
        cases hc : bone_stream.is_translation_constant <;>
        simp [hT, TrackStream.get_sample_size]
      exact take_bytes_raw_sample_ptr_ok _ _ (h2 hd hc)
    have eS : track_scale_bytes clip_context.has_scale bone_stream bone_range range_reduction
        = .ok (if clip_context.has_scale then
            constant_sample_bytes bone_stream.is_scale_default
              bone_stream.is_scale_constant bone_stream.scales
          else []) := by
      unfold track_scale_bytes constant_sample_bytes
      cases hh : clip_context.has_scale <;>
        cases hd : bone_stream.is_scale_default <;>
        cases hc : bone_stream.is_scale_constant <;>
        simp [hS, TrackStream.get_sample_size]
      exact take_bytes_raw_sample_ptr_ok _ _ (h3 hh hd hc)
    simp [track_block_bytes, eR, eT, eS, bind, Except.bind, pure, Except.pure, Except.map]

/-- C9 at the all-animated bone with no kind enabled (nothing is appended) and
at the all-constant bone (its three raw samples are appended). -/
theorem interleaved_reduction_disabled_witness :
    write_clip_track_data_bone scale_clip mixed_segment no_flags 0 ⟨zero_memory, 1000⟩
      = .ok ((⟨zero_memory, 1000⟩ : OutBuffer).write [])
    ∧ write_clip_track_data_bone scale_clip mixed_segment no_flags 1 ⟨zero_memory, 1000⟩
      = .ok ((⟨zero_memory, 1000⟩ : OutBuffer).write
          ([10, 11, 12, 13, 14, 15, 16, 17, 18, 19, 20, 21]
            ++ [10, 11, 12, 13, 14, 15, 16, 17, 18, 19, 20, 21]
            ++ [10, 11, 12, 13, 14, 15, 16, 17, 18, 19, 20, 21])) :=
  ⟨(interleaved_reduction_disabled scale_clip mixed_segment no_flags 0 animated_bone
      sample_bone_ranges ⟨zero_memory, 1000⟩).2.2.2 rfl rfl rfl rfl rfl (by decide),
    (interleaved_reduction_disabled scale_clip mixed_segment no_flags 1 constant_bone
      sample_bone_ranges ⟨zero_memory, 1000⟩).2.2.2 rfl rfl rfl rfl rfl (by decide)⟩

/-- C10. Order stability of `write_clip_range_data`, `write_segment_range_data`
(for packing primitives that store exactly the bytes the cursor skips) and
`write_clip_track_data`: each pass appends, in the order of the output bone
mapping, one block per entry; the block of an entry is a function of the
streams and ranges of the mapped bone, of the flags, of the mode and of
`has_scale` only; the pass over `m1 ++ m2` is the pass over `m1` followed by
the pass over `m2`; permuting the mapping permutes the blocks with it, each
entry keeping its block; and a pass with assertion checks that returns, returns
what the pass without checks returns. -/
theorem order_stability (P : Primitives) (clip_context : ClipContext)
    (segment0 : SegmentContext) (others : List SegmentContext) (segment : SegmentContext)
    (range_reduction : RangeReductionFlags8) (size : Nat)
    (hseg : clip_context.segments = segment0 :: others) (hexact : P.exact) :
    order_stable
        (fun m out => write_clip_range_data P false clip_context range_reduction out size m)
        (entry_block segment0.bone_streams clip_context.ranges
          (range_block_bytes P clip_context.has_scale range_reduction true))
    ∧ order_stable
        (fun m out =>
          write_segment_range_data P false clip_context segment range_reduction out size m)
        (entry_block segment.bone_streams segment.ranges
          (range_block_bytes P clip_context.has_scale range_reduction false))
    ∧ order_stable
        (fun m out => write_clip_track_data false clip_context range_reduction out size m)
        (entry_block segment0.bone_streams clip_context.ranges
          (track_block_bytes clip_context.has_scale range_reduction))
    ∧ (∀ (bone_streams : List BoneStreams) (bone_ranges : List BoneRanges)
        (block : BoneStreams → BoneRanges → Except Fault (List Nat)) (bone_index : Nat)
        (bone_stream : BoneStreams) (bone_range : BoneRanges),
        bone_streams[bone_index]? = some bone_stream →
        bone_ranges[bone_index]? = some bone_range →
        entry_block bone_streams bone_ranges block bone_index = block bone_stream bone_range)
    ∧ (∀ m out o,
        (write_clip_range_data P true clip_context range_reduction out size m = .ok o →
          write_clip_range_data P false clip_context range_reduction out size m = .ok o)
        ∧ (write_segment_range_data P true clip_context segment range_reduction out size m
            = .ok o →
          write_segment_range_data P false clip_context segment range_reduction out size m
            = .ok o)
        ∧ (write_clip_track_data true clip_context range_reduction out size m = .ok o →
          write_clip_track_data false clip_context range_reduction out size m = .ok o)) := by
  refine ⟨?_, ?_, ?_, ?_, ?_⟩
  · exact order_stable_of _ _ (fun m out =>
      write_clip_range_data_stream P clip_context segment0 others range_reduction out size m hseg)
  · exact order_stable_of _ _ (fun m out =>
      write_range_track_data_stream P clip_context segment.bone_streams segment.ranges
        range_reduction false (Or.inr hexact) out size m)
  · exact order_stable_of _ _ (fun m out =>
      write_clip_track_data_stream clip_context segment0 others range_reduction out size m hseg)
  · intro bone_streams bone_ranges block b bs br hs hr
    exact entry_block_some bone_streams bone_ranges block b bs br hs hr
  · intro m out o
    have hrange : ∀ (streams : List BoneStreams) (ranges : List BoneRanges) (is_clip : Bool),
        write_range_track_data P true clip_context streams ranges range_reduction is_clip out
          size m = .ok o →
        write_range_track_data P false clip_context streams ranges range_reduction is_clip out
          size m = .ok o := by
      intro streams ranges is_clip h
      rw [write_range_track_data_unchecked]
      unfold write_range_track_data at h
      simp only [bind, Except.bind] at h
      cases hn : ACL_ASSERT true (decide (out.ptr ≠ 0)) Fault.null_buffer with
      | error e => rw [hn] at h; simp at h
      | ok u =>
        rw [hn] at h
        simp only [] at h
        cases hl : output_bone_loop true (out.ptr + size)
          (write_range_track_data_bone P clip_context streams ranges range_reduction is_clip)
          m 0 out with
        | error e => rw [hl] at h; simp at h
        | ok o1 =>
          rw [hl] at h
          simp only [] at h
          cases he : ACL_ASSERT true (decide (o1.ptr = out.ptr + size)) Fault.wrote_too_little with
          | error e => rw [he] at h; simp at h
          | ok u2 =>
            rw [he] at h
            simp only [pure, Except.pure, Except.ok.injEq] at h
            subst h
            exact output_bone_loop_checked_ok _ _ _ _ _ _ hl
    refine ⟨?_, hrange _ _ _, ?_⟩
    · intro h
      simp only [write_clip_range_data, hseg, at_index_zero, bind, Except.bind] at h ⊢
      exact hrange _ _ _ h
    · intro h
      rw [write_clip_track_data_unchecked clip_context segment0 others range_reduction out size m
        hseg]
      unfold write_clip_track_data at h
      simp only [bind, Except.bind, hseg, at_index_zero] at h
      cases hn : ACL_ASSERT true (decide (out.ptr ≠ 0)) Fault.null_buffer with
      | error e => rw [hn] at h; simp at h
      | ok u =>
        rw [hn] at h
        simp only [] at h
        cases hl : output_bone_loop true (out.ptr + size)
          (write_clip_track_data_bone clip_context segment0 range_reduction) m 0 out with
        | error e => rw [hl] at h; simp at h
        | ok o1 =>
          rw [hl] at h
          simp only [] at h
          cases he : ACL_ASSERT true (decide (o1.ptr = out.ptr + size)) Fault.wrote_too_little with
          | error e => rw [he] at h; simp at h
          | ok u2 =>
            rw [he] at h
            simp only [pure, Except.pure, Except.ok.injEq] at h
            subst h
            exact output_bone_loop_checked_ok _ _ _ _ _ _ hl

/-- C10 at the end-to-end scenario: the interleaved pass over `[0, 1]` appends
the block of bone 0 then the block of bone 1, and over `[1, 0]` the same two
blocks in the other order. -/
theorem order_stability_witness :
    write_clip_track_data false scenario_clip scenario_flags ⟨zero_memory, 1000⟩ 60 [0, 1]
      = .ok ((⟨zero_memory, 1000⟩ : OutBuffer).write
          ([1, 0, 0, 0, 2, 0, 0, 0, 3, 0, 0, 0, 5, 0, 0, 0, 6, 0, 0, 0, 7, 0, 0, 0,
            1, 0, 0, 0, 2, 0, 0, 0, 3, 0, 0, 0, 5, 0, 0, 0, 6, 0, 0, 0, 7, 0, 0, 0]
            ++ [10, 11, 12, 13, 14, 15, 16, 17, 18, 19, 20, 21]))
    ∧ write_clip_track_data false scenario_clip scenario_flags ⟨zero_memory, 1000⟩ 60 [1, 0]
      = .ok ((⟨zero_memory, 1000⟩ : OutBuffer).write
          ([10, 11, 12, 13, 14, 15, 16, 17, 18, 19, 20, 21]
            ++ [1, 0, 0, 0, 2, 0, 0, 0, 3, 0, 0, 0, 5, 0, 0, 0, 6, 0, 0, 0, 7, 0, 0, 0,
              1, 0, 0, 0, 2, 0, 0, 0, 3, 0, 0, 0, 5, 0, 0, 0, 6, 0, 0, 0, 7, 0, 0, 0])) :=
  have h := (order_stability sample_primitives scenario_clip scenario_segment []
    scenario_segment scenario_flags 60 rfl ⟨fun _ => rfl, fun _ _ => rfl⟩).2.2.1.1
  ⟨h [0, 1] ⟨zero_memory, 1000⟩, h [1, 0] ⟨zero_memory, 1000⟩⟩

/-- C11. Fixed component ordering: for a bone that has streams and ranges, the
block of `write_range_track_data` (in clip-level mode, and in segment-level
mode for packing primitives that store exactly the bytes the cursor skips) and
the block of `write_clip_track_data` are the bytes of the rotation, then those
of the translation, then those of the scale, each being what the channel alone
appends from any cursor, so that a channel that appends nothing leaves the
others in place; and every range pair is the encoding of the minimum followed
by the encoding of the extent, at full precision as when packed. -/
theorem component_ordering (P : Primitives) (clip_context : ClipContext)
    (segment : SegmentContext) (bone_ranges : List BoneRanges)
    (range_reduction : RangeReductionFlags8) (is_clip_range_data : Bool) (bone_index : Nat)
    (bone_stream : BoneStreams) (bone_range clip_range : BoneRanges) (out : OutBuffer)
    (hmode : is_clip_range_data = true ∨ P.exact)
    (hstream : segment.bone_streams[bone_index]? = some bone_stream)
    (hrange : bone_ranges[bone_index]? = some bone_range)
    (hclip : clip_context.ranges[bone_index]? = some clip_range) :
    ((∀ o, write_range_track_data_rotation P bone_stream bone_range range_reduction
          is_clip_range_data o
        = (range_rotation_bytes P bone_stream bone_range range_reduction
            is_clip_range_data).map o.write)
      ∧ (∀ o, write_range_track_data_translation P bone_stream bone_range range_reduction
          is_clip_range_data o
        = (range_translation_bytes P bone_stream bone_range range_reduction
            is_clip_range_data).map o.write)
      ∧ (∀ o, write_range_track_data_scale P clip_context bone_stream bone_range
          range_reduction is_clip_range_data o
        = (range_scale_bytes P clip_context.has_scale bone_stream bone_range range_reduction
            is_clip_range_data).map o.write)
      ∧ write_range_track_data_bone P clip_context segment.bone_streams bone_ranges
          range_reduction is_clip_range_data bone_index out
        = (do
            let r ← range_rotation_bytes P bone_stream bone_range range_reduction
              is_clip_range_data
            let t ← range_translation_bytes P bone_stream bone_range range_reduction
              is_clip_range_data
            let s ← range_scale_bytes P clip_context.has_scale bone_stream bone_range
              range_reduction is_clip_range_data
            pure (r ++ t ++ s) : Except Fault (List Nat)).map out.write)
    ∧ ((∀ o, write_clip_track_data_rotation bone_stream clip_range range_reduction o
        = (track_rotation_bytes bone_stream clip_range range_reduction).map o.write)
      ∧ (∀ o, write_clip_track_data_translation bone_stream clip_range range_reduction o
        = (track_translation_bytes bone_stream clip_range range_reduction).map o.write)
      ∧ (∀ o, write_clip_track_data_scale clip_context bone_stream clip_range range_reduction o
        = (track_scale_bytes clip_context.has_scale bone_stream clip_range
            range_reduction).map o.write)
      ∧ write_clip_track_data_bone clip_context segment range_reduction bone_index out
        = (do
            let r ← track_rotation_bytes bone_stream clip_range range_reduction
            let t ← track_translation_bytes bone_stream clip_range range_reduction
            let s ← track_scale_bytes clip_context.has_scale bone_stream clip_range
              range_reduction
            pure (r ++ t ++ s) : Except Fault (List Nat)).map out.write)
    ∧ (∀ (range : TrackStreamRange) (n : Nat) (o : OutBuffer), n ≤ 16 →
        write_range_data range n o
          = .ok (o.write ((vector_as_float_ptr range.get_min).take n
              ++ (vector_as_float_ptr range.get_extent).take n)))
    ∧ (∀ (track : TrackStream) (range : TrackStreamRange) (o : OutBuffer),
        write_range_track_data_impl P track range true o
          = .ok (o.write ((vector_as_float_ptr range.get_min).take 12
              ++ (vector_as_float_ptr range.get_extent).take 12)))
    ∧ (∀ (track : TrackStream) (range : TrackStreamRange) (o : OutBuffer), P.exact →
        P.is_constant_bit_rate track.get_bit_rate = false →
        write_range_track_data_impl P track range false o
          = .ok (o.write (P.pack_vector3_u24_unsafe range.get_min
              ++ P.pack_vector3_u24_unsafe range.get_extent)))
    ∧ (∀ (o : OutBuffer), are_any_enum_flags_set range_reduction .Rotations = true →
        bone_stream.is_rotation_animated = true →
        write_range_track_data_rotation P bone_stream bone_range range_reduction true o
          = .ok (o.write ((vector_as_float_ptr bone_range.rotation.get_min).take
                (if bone_stream.rotations.get_rotation_format = .Quat_128 then 16 else 12)
              ++ (vector_as_float_ptr bone_range.rotation.get_extent).take
                (if bone_stream.rotations.get_rotation_format = .Quat_128 then 16 else 12))))
    ∧ (∀ (o : OutBuffer), P.exact →
        are_any_enum_flags_set range_reduction .Rotations = true →
        bone_stream.is_rotation_animated = true →
        bone_stream.rotations.get_rotation_format = .Quat_128 →
        write_range_track_data_rotation P bone_stream bone_range range_reduction false o
          = .ok (o.write (P.pack_vector4_32 bone_range.rotation.get_min true
              ++ P.pack_vector4_32 bone_range.rotation.get_extent true)))
    ∧ (∀ (o : OutBuffer), P.exact →
        are_any_enum_flags_set range_reduction .Rotations = true →
        bone_stream.is_rotation_animated = true →
        bone_stream.rotations.get_rotation_format ≠ .Quat_128 →
        P.is_constant_bit_rate bone_stream.rotations.get_bit_rate = false →
        write_range_track_data_rotation P bone_stream bone_range range_reduction false o
          = .ok (o.write (P.pack_vector3_u24_unsafe bone_range.rotation.get_min
              ++ P.pack_vector3_u24_unsafe bone_range.rotation.get_extent))) := by
  refine ⟨?_, ?_, ?_, ?_, ?_, ?_, ?_, ?_⟩
  · refine ⟨?_, ?_, ?_, ?_⟩
    · intro o; exact write_range_track_data_rotation_eq P _ _ _ _ o hmode
    · intro o; exact write_range_track_data_translation_eq P _ _ _ _ o hmode
    · intro o; exact write_range_track_data_scale_eq P _ _ _ _ _ o hmode
    · rw [write_range_track_data_bone_eq P clip_context segment.bone_streams bone_ranges
        range_reduction is_clip_range_data hmode bone_index out,
        entry_block_some _ _ _ bone_index bone_stream bone_range hstream hrange]
      rfl
  · refine ⟨?_, ?_, ?_, ?_⟩
    · intro o; exact write_clip_track_data_rotation_eq _ _ _ o
    · intro o; exact write_clip_track_data_translation_eq _ _ _ o
    · intro o; exact write_clip_track_data_scale_eq _ _ _ _ o
    · rw [write_clip_track_data_bone_some clip_context segment range_reduction bone_index
        bone_stream clip_range hstream hclip]
      rfl
  · intro range n o hn
    exact write_range_data_eq range n o hn
  · intro track range o
    rw [write_range_track_data_impl_eq P track range true o (Or.inl rfl)]
    rfl
  · intro track range o hx hc
    rw [write_range_track_data_impl_eq P track range false o (Or.inr hx)]
    simp only [TrackStream.get_bit_rate] at hc
    simp [range_impl_bytes, hc, Except.map, TrackStreamRange.get_min,
      TrackStreamRange.get_extent]
  · intro o hf ha
    rw [write_range_track_data_rotation_eq P _ _ _ true o (Or.inl rfl)]
    simp [range_rotation_bytes, hf, ha, Except.map, range_pair_bytes, rotation_member_size,
      TrackStreamRange.get_min, TrackStreamRange.get_extent]
  · intro o hx hf ha hq
    rw [write_range_track_data_rotation_eq P _ _ _ false o (Or.inr hx)]
    simp only [RotationTrackStream.get_rotation_format] at hq
    simp [range_rotation_bytes, hf, ha, hq, Except.map, TrackStreamRange.get_min,
      TrackStreamRange.get_extent]
  · intro o hx hf ha hq hc
    rw [write_range_track_data_rotation_eq P _ _ _ false o (Or.inr hx)]
    simp only [RotationTrackStream.get_rotation_format] at hq
    simp only [TrackStream.get_bit_rate] at hc
    simp [range_rotation_bytes, hf, ha, hq, hc, Except.map, TrackStreamRange.get_min,
      TrackStreamRange.get_extent]

/-- C11 at the all-animated bone of a clip with scale, in segment-level mode
(the block is the packed rotation pair, then the packed translation pair, then
the packed scale pair, minimum before extent in each), and at the end-to-end
scenario for the interleaved writer (the rotation pair, then the translation
pair, at full precision). -/
theorem component_ordering_witness :
    write_range_track_data_bone sample_primitives scale_clip mixed_segment.bone_streams
        mixed_segment.ranges all_flags false 0 ⟨zero_memory, 1000⟩
      = .ok ((⟨zero_memory, 1000⟩ : OutBuffer).write
          (([1, 2, 3] ++ [5, 6, 7]) ++ ([1, 2, 3] ++ [5, 6, 7]) ++ ([1, 2, 3] ++ [5, 6, 7])))
    ∧ write_clip_track_data_bone scenario_clip scenario_segment scenario_flags 0
        ⟨zero_memory, 1000⟩
      = .ok ((⟨zero_memory, 1000⟩ : OutBuffer).write
          (([1, 0, 0, 0, 2, 0, 0, 0, 3, 0, 0, 0] ++ [5, 0, 0, 0, 6, 0, 0, 0, 7, 0, 0, 0])
            ++ ([1, 0, 0, 0, 2, 0, 0, 0, 3, 0, 0, 0] ++ [5, 0, 0, 0, 6, 0, 0, 0, 7, 0, 0, 0])
            ++ [])) :=
  ⟨(component_ordering sample_primitives scale_clip mixed_segment mixed_segment.ranges
      all_flags false 0 animated_bone sample_bone_ranges sample_bone_ranges ⟨zero_memory, 1000⟩
      (Or.inr ⟨fun _ => rfl, fun _ _ => rfl⟩) rfl rfl rfl).1.2.2.2,
    (component_ordering sample_primitives scenario_clip scenario_segment
      scenario_segment.ranges scenario_flags false 0 scenario_bone0 sample_bone_ranges
      sample_bone_ranges ⟨zero_memory, 1000⟩ (Or.inr ⟨fun _ => rfl, fun _ _ => rfl⟩) rfl rfl
      rfl).2.1.2.2.2⟩

/-- C12, as stated, fails: in a clip without scale, an animated scale whose
kind is enabled gets no byte in clip-level mode; the pass over the all-animated
bone writes the 24 bytes of the rotation and the 24 bytes of the translation
only. -/
theorem clip_level_override_counterexample :
    are_any_enum_flags_set all_flags .Scales = true
    ∧ animated_bone.is_scale_animated = true
    ∧ write_range_track_data_scale sample_primitives noscale_clip animated_bone
        sample_bone_ranges all_flags true ⟨zero_memory, 1000⟩ = .ok ⟨zero_memory, 1000⟩
    ∧ ∃ out, write_clip_range_data sample_primitives true noscale_clip all_flags
        ⟨zero_memory, 1000⟩ 48 [0] = .ok out
      ∧ out.ptr = 1000 + (24 + 24) ∧ out.ptr ≠ 1000 + (24 + 24 + 24) := by
  refine ⟨rfl, rfl, rfl, ?_⟩
  have hb : ∃ bl, mapping_blocks (entry_block mixed_segment.bone_streams noscale_clip.ranges
      (range_block_bytes sample_primitives noscale_clip.has_scale all_flags true)) [0]
      = .ok bl := ⟨_, rfl⟩
  obtain ⟨bl, hbl⟩ := hb
  obtain ⟨o, ho, hp⟩ := write_range_track_data_run sample_primitives true noscale_clip
    mixed_segment.bone_streams noscale_clip.ranges all_flags true ⟨zero_memory, 1000⟩ 48 [0] bl
    hbl (fun _ => by decide) (fun _ => by decide)
  have h48 : ([0].map (entry_value mixed_segment.bone_streams
      (range_block_size noscale_clip.has_scale all_flags true))).sum = 48 := by decide
  rw [h48] at hp
  refine ⟨o, ?_, hp, by rw [hp]; decide⟩
  simp only [write_clip_range_data, noscale_clip, at_index_zero, bind, Except.bind]
  exact ho

/-- C12, amended. Clip-level override: in clip-level mode an enabled animated
rotation in a 3-component format, an enabled animated translation and, when the
clip has scale, an enabled animated scale get the first 3 float components of
the minimum followed by the first 3 float components of the extent, 24 bytes
at full precision, whatever the bit rate; and two runs of
`write_clip_range_data` whose bone streams differ only in the bit rates and the
raw samples of the channels (and whose packing primitives may differ) return
the same result.  When the clip has no scale, the scale statement returns the
buffer it was given: the scale channel gets no byte, whatever the flags, the
classification and the bit rate are. -/
theorem clip_level_override (P P' : Primitives) (assert_checks : Bool)
    (clip_context clip_context' : ClipContext) (segment segment' : SegmentContext)
    (others others' : List SegmentContext) (range_reduction : RangeReductionFlags8)
    (out : OutBuffer) (size : Nat) (output_bone_mapping : List Nat)
    (hseg : clip_context.segments = segment :: others)
    (hseg' : clip_context'.segments = segment' :: others')
    (hranges : clip_context'.ranges = clip_context.ranges)
    (hscale : clip_context'.has_scale = clip_context.has_scale)
    (hstreams : List.Forall₂ same_up_to_samples segment.bone_streams segment'.bone_streams) :
    (∀ (bone_stream : BoneStreams) (bone_range : BoneRanges) (o : OutBuffer),
      are_any_enum_flags_set range_reduction .Rotations = true →
      bone_stream.is_rotation_animated = true →
      bone_stream.rotations.get_rotation_format ≠ .Quat_128 →
      write_range_track_data_rotation P bone_stream bone_range range_reduction true o
        = .ok (o.write ((vector_as_float_ptr bone_range.rotation.get_min).take 12
            ++ (vector_as_float_ptr bone_range.rotation.get_extent).take 12)))
    ∧ (∀ (bone_stream : BoneStreams) (bone_range : BoneRanges) (o : OutBuffer),
      are_any_enum_flags_set range_reduction .Translations = true →
      bone_stream.is_translation_animated = true →
      write_range_track_data_translation P bone_stream bone_range range_reduction true o
        = .ok (o.write ((vector_as_float_ptr bone_range.translation.get_min).take 12
            ++ (vector_as_float_ptr bone_range.translation.get_extent).take 12)))
    ∧ (∀ (bone_stream : BoneStreams) (bone_range : BoneRanges) (o : OutBuffer),
      clip_context.has_scale = true →
      are_any_enum_flags_set range_reduction .Scales = true →
      bone_stream.is_scale_animated = true →
      write_range_track_data_scale P clip_context bone_stream bone_range range_reduction true o
        = .ok (o.write ((vector_as_float_ptr bone_range.scale.get_min).take 12
            ++ (vector_as_float_ptr bone_range.scale.get_extent).take 12)))
    ∧ (∀ (v w : Vector4_32),
      ((vector_as_float_ptr v).take 12 ++ (vector_as_float_ptr w).take 12).length = 24
      ∧ (vector_as_float_ptr v).take 12 = float_bytes v.x ++ float_bytes v.y ++ float_bytes v.z)
    ∧ write_clip_range_data P assert_checks clip_context range_reduction out size
        output_bone_mapping
      = write_clip_range_data P' assert_checks clip_context' range_reduction out size
        output_bone_mapping
    ∧ (∀ (bone_stream : BoneStreams) (bone_range : BoneRanges) (o : OutBuffer),
      clip_context.has_scale = false →
      write_range_track_data_scale P clip_context bone_stream bone_range range_reduction true o
        = .ok o) := by
  refine ⟨?_, ?_, ?_, ?_, ?_, ?_⟩
  · intro bs br o hf ha hq
    rw [write_range_track_data_rotation_eq P _ _ _ true o (Or.inl rfl)]
    simp [range_rotation_bytes, hf, ha, hq, Except.map, range_pair_bytes, rotation_member_size,
      TrackStreamRange.get_min, TrackStreamRange.get_extent]
  · intro bs br o hf ha
    rw [write_range_track_data_translation_eq P _ _ _ true o (Or.inl rfl)]
    simp [range_translation_bytes, range_impl_bytes, hf, ha, Except.map, range_pair_bytes,
      TrackStreamRange.get_min, TrackStreamRange.get_extent]
  · intro bs br o hs hf ha
    rw [write_range_track_data_scale_eq P _ _ _ _ true o (Or.inl rfl)]
    simp [range_scale_bytes, range_impl_bytes, hs, hf, ha, Except.map, range_pair_bytes,
      TrackStreamRange.get_min, TrackStreamRange.get_extent]
  · intro v w
    exact ⟨rfl, rfl⟩
  · simp only [write_clip_range_data, hseg, hseg', at_index_zero, bind, Except.bind, hranges]
    exact write_range_track_data_congr_body P P' assert_checks clip_context clip_context'
      segment.bone_streams segment'.bone_streams clip_context.ranges clip_context.ranges
      range_reduction true out size output_bone_mapping
      (write_range_track_data_bone_clip_congr P P' clip_context clip_context' _ _ _ _ hscale
        hstreams)
  · intro bs br o hs
    simp [write_range_track_data_scale, hs]

/-- C12, amended, at a clip with scale and the same clip with other bit rates
and raw samples (both runs return the same result), and at a clip without
scale with the scales alone enabled (the scale statement leaves the buffer as
it was). -/
theorem clip_level_override_witness :
    write_clip_range_data sample_primitives true scale_clip all_flags ⟨zero_memory, 1000⟩ 72
        [0, 1, 2]
      = write_clip_range_data sample_primitives true scale_clip_resampled all_flags
        ⟨zero_memory, 1000⟩ 72 [0, 1, 2]
    ∧ write_range_track_data_scale sample_primitives noscale_clip animated_bone
        sample_bone_ranges RangeReductionFlags8.Scales true ⟨zero_memory, 1000⟩
      = .ok ⟨zero_memory, 1000⟩ :=
  ⟨(clip_level_override sample_primitives sample_primitives true scale_clip
      scale_clip_resampled mixed_segment mixed_segment_resampled [] [mixed_segment] all_flags
      ⟨zero_memory, 1000⟩ 72 [0, 1, 2] rfl rfl rfl rfl
      (List.Forall₂.cons (by decide) (List.Forall₂.cons (by decide)
        (List.Forall₂.cons (by decide) List.Forall₂.nil)))).2.2.2.2.1,
    (clip_level_override sample_primitives sample_primitives true noscale_clip
      noscale_clip mixed_segment mixed_segment [] [] RangeReductionFlags8.Scales
      ⟨zero_memory, 1000⟩ 0 [] rfl rfl rfl rfl
      (List.Forall₂.cons (by decide) (List.Forall₂.cons (by decide)
        (List.Forall₂.cons (by decide) List.Forall₂.nil)))).2.2.2.2.2 animated_bone
      sample_bone_ranges ⟨zero_memory, 1000⟩ rfl⟩

/-- C13. `Quat_128` rotation special case: for an enabled animated rotation in
the `Quat_128` format, the clip-level mode appends the 4 float components of
the minimum then the 4 float components of the extent, 16 + 16 = 32 bytes; the
segment-level mode stores what `pack_vector4_32` gives for the minimum, moves
the cursor by 4, stores what it gives for the extent and moves the cursor by 4
again, 8 bytes in all, whatever the bit rate is (the constant bit rate
included: the raw sample is never read); for a primitive that stores exactly 4
bytes these are the packed minimum followed by the packed extent. -/
theorem quat_128_rotation (P : Primitives) (bone_stream : BoneStreams)
    (bone_range : BoneRanges) (range_reduction : RangeReductionFlags8) (out : OutBuffer)
    (hflag : are_any_enum_flags_set range_reduction .Rotations = true)
    (hanimated : bone_stream.is_rotation_animated = true)
    (hquat : bone_stream.rotations.get_rotation_format = .Quat_128) :
    write_range_track_data_rotation P bone_stream bone_range range_reduction true out
        = .ok (out.write
            ((float_bytes bone_range.rotation.get_min.x ++ float_bytes bone_range.rotation.get_min.y
                ++ float_bytes bone_range.rotation.get_min.z
                ++ float_bytes bone_range.rotation.get_min.w)
              ++ (float_bytes bone_range.rotation.get_extent.x
                ++ float_bytes bone_range.rotation.get_extent.y
                ++ float_bytes bone_range.rotation.get_extent.z
                ++ float_bytes bone_range.rotation.get_extent.w)))
    ∧ ((float_bytes bone_range.rotation.get_min.x ++ float_bytes bone_range.rotation.get_min.y
          ++ float_bytes bone_range.rotation.get_min.z
          ++ float_bytes bone_range.rotation.get_min.w)
        ++ (float_bytes bone_range.rotation.get_extent.x
          ++ float_bytes bone_range.rotation.get_extent.y
          ++ float_bytes bone_range.rotation.get_extent.z
          ++ float_bytes bone_range.rotation.get_extent.w)).length = 32
    ∧ write_range_track_data_rotation P bone_stream bone_range range_reduction false out
        = .ok ((((out.store (P.pack_vector4_32 bone_range.rotation.get_min true)).advance 4).store
            (P.pack_vector4_32 bone_range.rotation.get_extent true)).advance 4)
    ∧ ((((out.store (P.pack_vector4_32 bone_range.rotation.get_min true)).advance 4).store
          (P.pack_vector4_32 bone_range.rotation.get_extent true)).advance 4).ptr = out.ptr + 8
    ∧ (P.exact →
        write_range_track_data_rotation P bone_stream bone_range range_reduction false out
          = .ok (out.write (P.pack_vector4_32 bone_range.rotation.get_min true
              ++ P.pack_vector4_32 bone_range.rotation.get_extent true))
        ∧ (P.pack_vector4_32 bone_range.rotation.get_min true
            ++ P.pack_vector4_32 bone_range.rotation.get_extent true).length = 8) := by
  have hq : bone_stream.rotations.rotation_format = .Quat_128 := hquat
  refine ⟨?_, rfl, ?_, ?_, ?_⟩
  · rw [write_range_track_data_rotation_eq P _ _ _ true out (Or.inl rfl)]
    simp only [range_rotation_bytes, hflag, hanimated, Bool.and_self, if_true, Except.map,
      range_pair_bytes, rotation_member_size, RotationTrackStream.get_rotation_format, hq,
      TrackStreamRange.get_min, TrackStreamRange.get_extent]
    rfl
  · simp [write_range_track_data_rotation, hflag, hanimated, hquat, pure, Except.pure]
  · simp [OutBuffer.advance, OutBuffer.store, Nat.add_assoc]
  · intro hx
    refine ⟨?_, ?_⟩
    · rw [write_range_track_data_rotation_eq P _ _ _ false out (Or.inr hx)]
      simp [range_rotation_bytes, hflag, hanimated, hq, Except.map, TrackStreamRange.get_min,
        TrackStreamRange.get_extent]
    · simp [hx.2]

/-- C13 at a `Quat_128` bone whose rotation is at the constant bit rate: the
segment-level mode appends the two packed vectors, not the raw sample. -/
theorem quat_128_rotation_witness :
    sample_primitives.is_constant_bit_rate quat_shortcut_bone.rotations.get_bit_rate = true
    ∧ write_range_track_data_rotation sample_primitives quat_shortcut_bone sample_bone_ranges
        all_flags false ⟨zero_memory, 1000⟩
      = .ok ((⟨zero_memory, 1000⟩ : OutBuffer).write ([1, 2, 3, 4] ++ [5, 6, 7, 8]))
    ∧ write_range_track_data_rotation sample_primitives quat_shortcut_bone sample_bone_ranges
        all_flags true ⟨zero_memory, 1000⟩
      = .ok ((⟨zero_memory, 1000⟩ : OutBuffer).write
          ([1, 0, 0, 0, 2, 0, 0, 0, 3, 0, 0, 0, 4, 0, 0, 0]
            ++ [5, 0, 0, 0, 6, 0, 0, 0, 7, 0, 0, 0, 8, 0, 0, 0])) :=
  have h := quat_128_rotation sample_primitives quat_shortcut_bone sample_bone_ranges all_flags
    ⟨zero_memory, 1000⟩ rfl rfl rfl
  ⟨rfl, (h.2.2.2.2 ⟨fun _ => rfl, fun _ _ => rfl⟩).1, h.1⟩

/-- C14, as stated, fails: at the end-to-end scenario the estimator returns 48
while the segment-level pass emits 12 bytes, so that a buffer declared of the
estimated size stops `write_segment_range_data` on the 'wrote too little'
check. -/
theorem estimator_agreement_counterexample :
    get_stream_range_data_size scenario_clip scenario_flags (.Narrower 0) = .ok 48
    ∧ (∃ out, write_segment_range_data sample_primitives false scenario_clip scenario_segment
        scenario_flags ⟨zero_memory, 1000⟩ 48 [0, 1] = .ok out ∧ out.ptr = 1000 + 12)
    ∧ write_segment_range_data sample_primitives true scenario_clip scenario_segment
        scenario_flags ⟨zero_memory, 1000⟩ 48 [0, 1] = .error .wrote_too_little := by
  have hb : ∃ bl, mapping_blocks (entry_block scenario_segment.bone_streams
      scenario_segment.ranges
      (range_block_bytes sample_primitives scenario_clip.has_scale scenario_flags false))
      [0, 1] = .ok bl ∧ bl.flatten.length = 12 := ⟨_, rfl, by decide⟩
  obtain ⟨bl, hbl, hlen⟩ := hb
  have hrun := write_range_track_data_stream sample_primitives scenario_clip
    scenario_segment.bone_streams scenario_segment.ranges scenario_flags false
    (Or.inr ⟨fun _ => rfl, fun _ _ => rfl⟩) ⟨zero_memory, 1000⟩ 48 [0, 1]
  rw [hbl] at hrun
  refine ⟨?_, ⟨_, hrun, by simp [hlen]⟩, ?_⟩
  · exact (get_stream_range_data_size_eq scenario_clip scenario_segment [] scenario_flags
      (.Narrower 0) rfl (by decide)).trans (congrArg Except.ok (by decide))
  · exact (write_range_track_data_checks sample_primitives scenario_clip
      scenario_segment.bone_streams scenario_segment.ranges scenario_flags false
      ⟨zero_memory, 1000⟩ _ 48 [0, 1] (by decide) hrun).2.2.2.2
      (by simp only [Except.map, OutBuffer.write_ptr, hlen]; decide)

/-- C14, amended. Estimator and writer: when every rotation stream has the
format given to the estimator and the output bone mapping lists every bone of
the template segment exactly once, the number of bytes `write_clip_range_data`
emits is the estimator's count, and the number of bytes
`write_segment_range_data` emits on the template segment is a quarter of it:
each pass, given a buffer declared of its own size, passes its cursor checks
and ends that many bytes after the start of the buffer. -/
theorem estimator_agreement (P : Primitives) (assert_checks : Bool)
    (clip_context : ClipContext) (segment : SegmentContext) (others : List SegmentContext)
    (range_reduction : RangeReductionFlags8) (rotation_format : RotationFormat8)
    (memory : Nat → Nat) (range_data : Nat) (output_bone_mapping : List Nat)
    (hseg : clip_context.segments = segment :: others)
    (hranges : segment.bone_streams.length ≤ clip_context.ranges.length)
    (hsegranges : segment.bone_streams.length ≤ segment.ranges.length)
    (hsamples : ∀ bone_stream ∈ segment.bone_streams, shortcut_samples_present P bone_stream)
    (hformat : ∀ bone_stream ∈ segment.bone_streams,
      bone_stream.rotations.get_rotation_format = rotation_format)
    (hperm : output_bone_mapping.Perm (List.range segment.bone_streams.length))
    (hu16 : output_bone_mapping.length < 65536)
    (hnull : range_data ≠ 0) :
    ∃ size segment_size clip_out segment_out,
      get_stream_range_data_size clip_context range_reduction rotation_format = .ok size
      ∧ write_clip_range_data P assert_checks clip_context range_reduction
          ⟨memory, range_data⟩ size output_bone_mapping = .ok clip_out
      ∧ clip_out.ptr = range_data + size
      ∧ write_segment_range_data P assert_checks clip_context segment range_reduction
          ⟨memory, range_data⟩ segment_size output_bone_mapping = .ok segment_out
      ∧ segment_out.ptr = range_data + segment_size
      ∧ size = 4 * segment_size := by
  have hlen : segment.bone_streams.length < 65536 := by
    have := hperm.length_eq
    simp only [List.length_range] at this
    omega
  have hest := get_stream_range_data_size_eq clip_context segment others range_reduction
    rotation_format hseg hlen
  have hsum : (output_bone_mapping.map (entry_value segment.bone_streams
      (range_block_size clip_context.has_scale range_reduction true))).sum
      = (segment.bone_streams.map
          (estimated_bone_size clip_context.has_scale range_reduction rotation_format)).sum := by
    rw [entry_value_perm_sum _ _ _ hperm]
    congr 1
    apply List.map_congr_left
    intro bs hbs
    exact range_block_size_clip _ _ _ bs (hformat bs hbs)
  have hmem : ∀ b ∈ output_bone_mapping, b < segment.bone_streams.length := by
    intro b hb
    have := hperm.mem_iff.1 hb
    simpa using this
  obtain ⟨n, oc, os, _, h4, hoc, hpc, hos, hps⟩ := range_passes P assert_checks clip_context
    segment.bone_streams clip_context.ranges segment.ranges range_reduction
    ⟨memory, range_data⟩ output_bone_mapping
    (fun b hb => ⟨hmem b hb, by have := hmem b hb; omega⟩)
    (fun b hb => ⟨hmem b hb, by have := hmem b hb; omega⟩) hsamples hnull
  have hsize : (segment.bone_streams.map
      (estimated_bone_size clip_context.has_scale range_reduction rotation_format)).sum
      = 4 * n := by rw [← hsum, h4]
  refine ⟨_, n, oc, os, hest, ?_, ?_, hos, hps, hsize⟩
  · simp only [write_clip_range_data, hseg, at_index_zero, bind, Except.bind]
    rw [hsize]
    exact hoc
  · rw [hsize]
    exact hpc

/-- C14, amended, at the end-to-end scenario. -/
theorem estimator_agreement_witness :
    ∃ size segment_size clip_out segment_out,
      get_stream_range_data_size scenario_clip scenario_flags (.Narrower 0) = .ok size
      ∧ write_clip_range_data sample_primitives true scenario_clip scenario_flags
          ⟨zero_memory, 1000⟩ size [0, 1] = .ok clip_out
      ∧ clip_out.ptr = 1000 + size
      ∧ write_segment_range_data sample_primitives true scenario_clip scenario_segment
          scenario_flags ⟨zero_memory, 1000⟩ segment_size [0, 1] = .ok segment_out
      ∧ segment_out.ptr = 1000 + segment_size
      ∧ size = 4 * segment_size :=
  estimator_agreement sample_primitives true scenario_clip scenario_segment [] scenario_flags
    (.Narrower 0) zero_memory 1000 [0, 1] rfl (by decide) (by decide) (by decide) (by decide)
    (by decide) (by decide) (by decide)

/-- C15. Round trip on the full-precision paths: for a channel whose minimum
and extent are 32-bit float bit patterns, the bytes that the clip-level range
writer (`write_range_track_data_impl` and the rotation block, in clip-level
mode) and the interleaved writer (`write_range_data` and its rotation block)
store at the cursor, read back as floats, are the first 3 components of the
minimum followed by the first 3 components of the extent, or the 4 and 4
components for a `Quat_128` rotation; hence any reconstruction computed from
the decoded pair is the one computed from the original pair. -/
theorem full_precision_round_trip (P : Primitives) (track : TrackStream)
    (range : TrackStreamRange) (bone_stream : BoneStreams) (bone_range : BoneRanges)
    (range_reduction : RangeReductionFlags8) (out : OutBuffer)
    (hmin : range.get_min.is_float32) (hextent : range.get_extent.is_float32)
    (hrotation : bone_range.rotation = range) :
    (∃ out1, write_range_track_data_impl P track range true out = .ok out1
      ∧ out1.ptr = out.ptr + 24
      ∧ read_floats (read_bytes out1.memory out.ptr 24)
        = [range.get_min.x, range.get_min.y, range.get_min.z,
            range.get_extent.x, range.get_extent.y, range.get_extent.z])
    ∧ (∃ out1, write_range_data range 12 out = .ok out1
      ∧ out1.ptr = out.ptr + 24
      ∧ read_floats (read_bytes out1.memory out.ptr 24)
        = [range.get_min.x, range.get_min.y, range.get_min.z,
            range.get_extent.x, range.get_extent.y, range.get_extent.z])
    ∧ (∃ out1, write_range_data range 16 out = .ok out1
      ∧ out1.ptr = out.ptr + 32
      ∧ read_floats (read_bytes out1.memory out.ptr 32)
        = [range.get_min.x, range.get_min.y, range.get_min.z, range.get_min.w,
            range.get_extent.x, range.get_extent.y, range.get_extent.z, range.get_extent.w])
    ∧ (are_any_enum_flags_set range_reduction .Rotations = true →
        bone_stream.is_rotation_animated = true →
        ∃ out1 out2,
          write_range_track_data_rotation P bone_stream bone_range range_reduction true out
            = .ok out1
          ∧ write_clip_track_data_rotation bone_stream bone_range range_reduction out = .ok out2
          ∧ out2 = out1
          ∧ out1.ptr = out.ptr
            + (if bone_stream.rotations.get_rotation_format = .Quat_128 then 32 else 24)
          ∧ read_floats (read_bytes out1.memory out.ptr
              (if bone_stream.rotations.get_rotation_format = .Quat_128 then 32 else 24))
            = (if bone_stream.rotations.get_rotation_format = .Quat_128 then
                [range.get_min.x, range.get_min.y, range.get_min.z, range.get_min.w,
                  range.get_extent.x, range.get_extent.y, range.get_extent.z,
                  range.get_extent.w]
              else
                [range.get_min.x, range.get_min.y, range.get_min.z,
                  range.get_extent.x, range.get_extent.y, range.get_extent.z]))
    ∧ (∀ (reconstruct : Nat → Nat → Nat → Nat) (normalized : Nat) (decoded : List Nat),
        decoded = [range.get_min.x, range.get_min.y, range.get_min.z,
            range.get_extent.x, range.get_extent.y, range.get_extent.z] →
        List.zipWith (reconstruct normalized) (decoded.drop 3) (decoded.take 3)
          = [reconstruct normalized range.get_extent.x range.get_min.x,
              reconstruct normalized range.get_extent.y range.get_min.y,
              reconstruct normalized range.get_extent.z range.get_min.z]) := by
  simp only [TrackStreamRange.get_min, TrackStreamRange.get_extent] at hmin hextent ⊢
  have h12 := read_floats_pair_12 range.min range.extent hmin hextent
  have h16 := read_floats_pair_16 range.min range.extent hmin hextent
  have l12 : ((vector_as_float_ptr range.min).take 12
      ++ (vector_as_float_ptr range.extent).take 12).length = 24 := rfl
  have l16 : ((vector_as_float_ptr range.min).take 16
      ++ (vector_as_float_ptr range.extent).take 16).length = 32 := rfl
  refine ⟨?_, ?_, ?_, ?_, ?_⟩
  · have h := write_range_track_data_impl_eq P track range true out (Or.inl rfl)
    obtain ⟨o, ho, hp, hw⟩ := written_window _ out _ 24 h l12
    exact ⟨o, ho, hp, by rw [hw]; exact h12⟩
  · have h := write_range_data_eq range 12 out (by omega)
    obtain ⟨o, ho, hp, hw⟩ := written_window _ out _ 24 h l12
    exact ⟨o, ho, hp, by rw [hw]; exact h12⟩
  · have h := write_range_data_eq range 16 out (by omega)
    obtain ⟨o, ho, hp, hw⟩ := written_window _ out _ 32 h l16
    exact ⟨o, ho, hp, by rw [hw]; exact h16⟩
  · intro hf ha
    obtain ⟨hc, hd⟩ := is_animated_flags _ _ ha
    have hr := write_range_track_data_rotation_eq P bone_stream bone_range range_reduction true
      out (Or.inl rfl)
    have ht := write_clip_track_data_rotation_eq bone_stream bone_range range_reduction out
    simp only [range_rotation_bytes, hf, ha, Bool.and_self, if_true, Except.map, hrotation,
      range_pair_bytes, rotation_member_size] at hr
    simp only [track_rotation_bytes, hf, ha, hc, hd, Bool.and_self, Bool.not_false, if_true,
      Bool.false_eq_true, if_false, Except.map, hrotation, range_pair_bytes,
      rotation_member_size] at ht
    by_cases hq : bone_stream.rotations.get_rotation_format = .Quat_128
    · simp only [hq, if_true] at hr ht ⊢
      obtain ⟨o, ho, hp, hw⟩ := written_window _ out _ 32 hr l16
      refine ⟨o, o, ho, ?_, rfl, hp, by rw [hw]; exact h16⟩
      rw [ht, ← ho, hr]
    · simp only [hq, if_false] at hr ht ⊢
      obtain ⟨o, ho, hp, hw⟩ := written_window _ out _ 24 hr l12
      refine ⟨o, o, ho, ?_, rfl, hp, by rw [hw]; exact h12⟩
      rw [ht, ← ho, hr]
  · intro reconstruct normalized decoded hd
    subst hd
    rfl

/-- C15 at a sample range. -/
theorem full_precision_round_trip_witness :
    ∃ out1, write_range_track_data_impl sample_primitives sample_track sample_range true
        ⟨zero_memory, 1000⟩ = .ok out1
      ∧ out1.ptr = 1000 + 24
      ∧ read_floats (read_bytes out1.memory 1000 24) = [1, 2, 3, 5, 6, 7] :=
  (full_precision_round_trip sample_primitives sample_track sample_range animated_bone
    sample_bone_ranges all_flags ⟨zero_memory, 1000⟩ (by decide) (by decide) rfl).1

/-- C16. Range source of the two entry points: `write_clip_range_data` is
`write_range_track_data` in clip-level mode on the bone streams of segment 0
and the ranges of the clip, so it returns the same result whatever the ranges
of the segments and the segments after segment 0 are;
`write_segment_range_data` is `write_range_track_data` in segment-level mode on
the bone streams and the ranges of the given segment, so it returns the same
result whatever the ranges and the segments of the clip are. -/
theorem range_sources (P : Primitives) (assert_checks : Bool)
    (clip_context clip_context' : ClipContext) (segment0 segment0' : SegmentContext)
    (others others' : List SegmentContext) (segment : SegmentContext)
    (range_reduction : RangeReductionFlags8) (out : OutBuffer) (size : Nat)
    (output_bone_mapping : List Nat)
    (hseg : clip_context.segments = segment0 :: others)
    (hseg' : clip_context'.segments = segment0' :: others')
    (hstreams : segment0'.bone_streams = segment0.bone_streams)
    (hranges : clip_context'.ranges = clip_context.ranges)
    (hscale : clip_context'.has_scale = clip_context.has_scale) :
    write_clip_range_data P assert_checks clip_context range_reduction out size
        output_bone_mapping
      = write_range_track_data P assert_checks clip_context segment0.bone_streams
          clip_context.ranges range_reduction true out size output_bone_mapping
    ∧ write_clip_range_data P assert_checks clip_context' range_reduction out size
        output_bone_mapping
      = write_clip_range_data P assert_checks clip_context range_reduction out size
          output_bone_mapping
    ∧ write_segment_range_data P assert_checks clip_context segment range_reduction out size
        output_bone_mapping
      = write_range_track_data P assert_checks clip_context segment.bone_streams segment.ranges
          range_reduction false out size output_bone_mapping
    ∧ (∀ clip_context'' : ClipContext, clip_context''.has_scale = clip_context.has_scale →
        write_segment_range_data P assert_checks clip_context'' segment range_reduction out size
            output_bone_mapping
          = write_segment_range_data P assert_checks clip_context segment range_reduction out
              size output_bone_mapping) := by
  refine ⟨?_, ?_, rfl, ?_⟩
  · simp only [write_clip_range_data, hseg, at_index_zero, bind, Except.bind]
  · simp only [write_clip_range_data, hseg, hseg', at_index_zero, bind, Except.bind, hstreams,
      hranges]
    exact (write_range_track_data_congr_body P P assert_checks clip_context clip_context'
      segment0.bone_streams segment0.bone_streams clip_context.ranges clip_context.ranges
      range_reduction true out size output_bone_mapping
      (write_range_track_data_bone_scale_congr P clip_context clip_context' _ _ _ _ hscale)).symm
  · intro c hc
    exact (write_range_track_data_congr_body P P assert_checks clip_context c
      segment.bone_streams segment.bone_streams segment.ranges segment.ranges
      range_reduction false out size output_bone_mapping
      (write_range_track_data_bone_scale_congr P clip_context c _ _ _ _ hc)).symm

/-- C16 at a clip with scale: the clip-level pass is the same for the clip
whose segments have other ranges and another segment, and the segment-level
pass is the same for a clip that has no range and no segment. -/
theorem range_sources_witness :
    write_clip_range_data sample_primitives true scale_clip_other_segments all_flags
        ⟨zero_memory, 1000⟩ 72 [0, 1, 2]
      = write_clip_range_data sample_primitives true scale_clip all_flags
        ⟨zero_memory, 1000⟩ 72 [0, 1, 2]
    ∧ write_segment_range_data sample_primitives true empty_scale_clip mixed_segment all_flags
        ⟨zero_memory, 1000⟩ 18 [0, 1, 2]
      = write_segment_range_data sample_primitives true scale_clip mixed_segment all_flags
        ⟨zero_memory, 1000⟩ 18 [0, 1, 2] :=
  have h := range_sources sample_primitives true scale_clip scale_clip_other_segments
    mixed_segment { mixed_segment with ranges := [] } [] [scenario_segment] mixed_segment
    all_flags ⟨zero_memory, 1000⟩
  ⟨(h 72 [0, 1, 2] rfl rfl rfl rfl rfl).2.1,
    (h 18 [0, 1, 2] rfl rfl rfl rfl rfl).2.2.2 empty_scale_clip rfl⟩

/-- C17. Cursor and frame of `write_range_track_data_impl`: when
`pack_vector3_u24_unsafe` stores exactly 3 bytes (and, on the constant-bit-rate
branch, the track holds the 6 bytes it copies), the call returns, having
stored at the old cursor a block of 24 bytes in clip-level mode and of 6 bytes
in segment-level mode, on either bit-rate branch; the cursor has moved by
exactly the length of that block, and every byte of memory outside
`[old cursor, new cursor)` is unchanged. -/
theorem impl_cursor_and_frame (P : Primitives) (track : TrackStream)
    (range : TrackStreamRange) (is_clip_range_data : Bool) (out : OutBuffer)
    (hpack : ∀ v, (P.pack_vector3_u24_unsafe v).length = 3)
    (hsample : is_clip_range_data = false → P.is_constant_bit_rate track.get_bit_rate = true →
      6 ≤ track.samples.length) :
    ∃ out1 bytes,
      write_range_track_data_impl P track range is_clip_range_data out = .ok out1
      ∧ bytes.length = (if is_clip_range_data then 24 else 6)
      ∧ out1.ptr = out.ptr + bytes.length
      ∧ read_bytes out1.memory out.ptr bytes.length = bytes
      ∧ ∀ a, a < out.ptr ∨ out1.ptr ≤ a → out1.memory a = out.memory a := by
  have hx : ({ P with pack_vector4_32 := fun _ _ => [0, 0, 0, 0] } : Primitives).exact :=
    ⟨hpack, fun _ _ => rfl⟩
  have heq := write_range_track_data_impl_eq
    ({ P with pack_vector4_32 := fun _ _ => [0, 0, 0, 0] } : Primitives) track range
    is_clip_range_data out (Or.inr hx)
  have hsame : write_range_track_data_impl
      ({ P with pack_vector4_32 := fun _ _ => [0, 0, 0, 0] } : Primitives) track range
      is_clip_range_data out
      = write_range_track_data_impl P track range is_clip_range_data out := rfl
  rw [hsame] at heq
  have hcur := write_range_track_data_impl_cursor P track range is_clip_range_data out
  have hok : ∃ bytes, range_impl_bytes
      ({ P with pack_vector4_32 := fun _ _ => [0, 0, 0, 0] } : Primitives) track range
      is_clip_range_data = .ok bytes := by
    cases is_clip_range_data with
    | true => exact ⟨_, rfl⟩
    | false => exact range_impl_bytes_segment_ok _ track range (hsample rfl)
  obtain ⟨bytes, hbytes⟩ := hok
  rw [hbytes] at heq
  simp only [Except.map] at heq
  have hptr := cursor_of_map_eq _ _ _ _ hcur heq
  simp only [OutBuffer.write_ptr] at hptr
  have hlen : bytes.length = (if is_clip_range_data then 24 else 6) := by
    cases is_clip_range_data <;> simp at hptr ⊢ <;> omega
  refine ⟨out.write bytes, bytes, heq, hlen, rfl, read_bytes_write out bytes, ?_⟩
  intro a ha
  rcases ha with ha | ha
  · exact OutBuffer.write_memory_below out bytes a ha
  · exact OutBuffer.write_memory_above out bytes a (by simpa using ha)

/-- C17 at a sample track, in segment-level mode on the quantized branch. -/
theorem impl_cursor_and_frame_witness :
    ∃ out1 bytes,
      write_range_track_data_impl sample_primitives sample_track sample_range false
        ⟨zero_memory, 1000⟩ = .ok out1
      ∧ bytes.length = 6
      ∧ out1.ptr = 1000 + bytes.length
      ∧ read_bytes out1.memory 1000 bytes.length = bytes
      ∧ ∀ a, a < 1000 ∨ out1.ptr ≤ a → out1.memory a = zero_memory a :=
  impl_cursor_and_frame sample_primitives sample_track sample_range false ⟨zero_memory, 1000⟩
    (fun _ => rfl) (by decide)

/-- C18, as stated, fails: in a clip without scale, for the bone whose three
channels are constant and not default, the clip-level range pass emits nothing
and the interleaved pass emits the raw samples of the rotation and of the
translation, 12 + 12 bytes: the raw sample of the constant scale is not
inserted. -/
theorem interleaved_versus_clip_range_counterexample :
    constant_bone.is_scale_constant = true ∧ constant_bone.is_scale_default = false
    ∧ write_clip_track_data_scale noscale_clip constant_bone sample_bone_ranges all_flags
        ⟨zero_memory, 1000⟩ = .ok ⟨zero_memory, 1000⟩
    ∧ write_clip_range_data sample_primitives true noscale_clip all_flags ⟨zero_memory, 1000⟩ 0
        [1] = .ok ((⟨zero_memory, 1000⟩ : OutBuffer).write [])
    ∧ ∃ out, write_clip_track_data true noscale_clip all_flags ⟨zero_memory, 1000⟩ 24 [1]
        = .ok out
      ∧ out.ptr = 1000 + (12 + 12)
      ∧ out.ptr ≠ 1000 + (constant_bone.rotations.get_sample_size
          + constant_bone.translations.get_sample_size + constant_bone.scales.get_sample_size) := by
  refine ⟨rfl, rfl, rfl, ?_, ?_⟩
  · have hb : mapping_blocks (entry_block mixed_segment.bone_streams noscale_clip.ranges
        (range_block_bytes sample_primitives noscale_clip.has_scale all_flags true)) [1]
        = .ok [[]] := rfl
    have h := write_range_track_data_run_stream sample_primitives true noscale_clip
      mixed_segment.bone_streams noscale_clip.ranges all_flags true (Or.inl rfl)
      ⟨zero_memory, 1000⟩ 0 [1] [[]] hb (by decide) (fun _ => rfl)
    simp only [write_clip_range_data, noscale_clip, at_index_zero, bind, Except.bind]
    exact h
  · have hb : ∃ bl, mapping_blocks (entry_block mixed_segment.bone_streams noscale_clip.ranges
        (track_block_bytes noscale_clip.has_scale all_flags)) [1] = .ok bl
        ∧ bl.flatten.length = 24 := ⟨_, rfl, by decide⟩
    obtain ⟨bl, hbl, hlen⟩ := hb
    have hrun := write_clip_track_data_run true noscale_clip mixed_segment [] all_flags
      ⟨zero_memory, 1000⟩ 24 [1] bl rfl hbl (by decide) (fun _ => hlen.symm)
    exact ⟨_, hrun, by simp [hlen], by simp [hlen]; decide⟩

/-- C18, amended. Interleaved writer against the superseded clip-level writer:
when no mapped bone has a constant channel that is not default,
`write_clip_track_data` and `write_clip_range_data` return the same result, so
they write the same bytes; in general each channel block of the interleaved
writer is the copy of the raw sample 0 when the channel is constant and not
default (for the scale: and the clip has scale), a case in which the clip-level
range writer appends nothing for the channel, and is the block of the
clip-level range writer otherwise. -/
theorem interleaved_versus_clip_range (P : Primitives) (assert_checks : Bool)
    (clip_context : ClipContext) (segment : SegmentContext) (others : List SegmentContext)
    (range_reduction : RangeReductionFlags8) (out : OutBuffer) (size : Nat)
    (output_bone_mapping : List Nat)
    (hseg : clip_context.segments = segment :: others)
    (hconst : ∀ bone_index ∈ output_bone_mapping, ∀ bone_stream,
      segment.bone_streams[bone_index]? = some bone_stream → no_constant_channel bone_stream) :
    write_clip_track_data assert_checks clip_context range_reduction out size
        output_bone_mapping
      = write_clip_range_data P assert_checks clip_context range_reduction out size
          output_bone_mapping
    ∧ (∀ (bone_stream : BoneStreams) (bone_range : BoneRanges) (o : OutBuffer),
        write_clip_track_data_rotation bone_stream bone_range range_reduction o
          = (if bone_stream.is_rotation_default = false
                ∧ bone_stream.is_rotation_constant = true then
              copy_constant_sample bone_stream.rotations.toTrackStream o
            else
              write_range_track_data_rotation P bone_stream bone_range range_reduction true o)
        ∧ write_clip_track_data_translation bone_stream bone_range range_reduction o
          = (if bone_stream.is_translation_default = false
                ∧ bone_stream.is_translation_constant = true then
              copy_constant_sample bone_stream.translations o
            else
              write_range_track_data_translation P bone_stream bone_range range_reduction
                true o)
        ∧ write_clip_track_data_scale clip_context bone_stream bone_range range_reduction o
          = (if clip_context.has_scale = true ∧ bone_stream.is_scale_default = false
                ∧ bone_stream.is_scale_constant = true then
              copy_constant_sample bone_stream.scales o
            else
              write_range_track_data_scale P clip_context bone_stream bone_range
                range_reduction true o)
        ∧ (bone_stream.is_rotation_constant = true →
            write_range_track_data_rotation P bone_stream bone_range range_reduction true o
              = .ok o)
        ∧ (bone_stream.is_translation_constant = true →
            write_range_track_data_translation P bone_stream bone_range range_reduction true o
              = .ok o)
        ∧ (bone_stream.is_scale_constant = true →
            write_range_track_data_scale P clip_context bone_stream bone_range range_reduction
              true o = .ok o)) := by
  refine ⟨write_clip_track_data_eq_range P assert_checks clip_context segment others
    range_reduction out size output_bone_mapping hseg hconst, ?_⟩
  intro bs br o
  refine ⟨?_, ?_, ?_, ?_, ?_, ?_⟩
  · rw [write_clip_track_data_rotation_eq, track_rotation_bytes_split P]
    split
    · rw [copy_constant_sample_eq]
    · rw [write_range_track_data_rotation_eq P _ _ _ true o (Or.inl rfl)]
  · rw [write_clip_track_data_translation_eq, track_translation_bytes_split P]
    split
    · rw [copy_constant_sample_eq]
    · rw [write_range_track_data_translation_eq P _ _ _ true o (Or.inl rfl)]
  · rw [write_clip_track_data_scale_eq, track_scale_bytes_split P]
    split
    · rw [copy_constant_sample_eq]
    · rw [write_range_track_data_scale_eq P _ _ _ _ true o (Or.inl rfl)]
  · intro hc
    rw [write_range_track_data_rotation_eq P _ _ _ true o (Or.inl rfl)]
    simp [range_rotation_bytes, BoneStreams.is_rotation_animated, hc, Except.map]
  · intro hc
    rw [write_range_track_data_translation_eq P _ _ _ true o (Or.inl rfl)]
    simp [range_translation_bytes, BoneStreams.is_translation_animated, hc, Except.map]
  · intro hc
    rw [write_range_track_data_scale_eq P _ _ _ _ true o (Or.inl rfl)]
    simp [range_scale_bytes, BoneStreams.is_scale_animated, hc, Except.map]

/-- C18, amended, at a clip with scale and the mapping of its all-animated and
all-default bones. -/
theorem interleaved_versus_clip_range_witness :
    write_clip_track_data true scale_clip all_flags ⟨zero_memory, 1000⟩ 72 [2, 0]
      = write_clip_range_data sample_primitives true scale_clip all_flags ⟨zero_memory, 1000⟩ 72
          [2, 0] :=
  (interleaved_versus_clip_range sample_primitives true scale_clip mixed_segment []
    all_flags ⟨zero_memory, 1000⟩ 72 [2, 0] rfl (by decide)).1

/-- C19. Clip-level to segment-level size ratio: for mapping entries that have
streams and ranges and streams that hold the raw samples the shortcut copies,
both modes of `write_range_track_data` return on the same streams, the
clip-level pass having moved the cursor by exactly 4 times what the
segment-level pass moved it by, whatever the flags, `has_scale`, the ranges and
the bit rates are; so the two passes emit the same number of bytes only when
both emit none.  Channel by channel, the segment-level mode moves the cursor by
8 bytes for an enabled animated `Quat_128` rotation and by 6 bytes for any
other enabled animated channel (the scale when the clip has scale), and the
clip-level mode by 4 times as much. -/
theorem clip_segment_ratio (P : Primitives) (assert_checks : Bool)
    (clip_context : ClipContext) (bone_streams : List BoneStreams)
    (clip_ranges segment_ranges : List BoneRanges) (range_reduction : RangeReductionFlags8)
    (memory : Nat → Nat) (range_data : Nat) (output_bone_mapping : List Nat)
    (hclip : mapping_in_bounds bone_streams clip_ranges output_bone_mapping)
    (hsegment : mapping_in_bounds bone_streams segment_ranges output_bone_mapping)
    (hsamples : ∀ bone_stream ∈ bone_streams, shortcut_samples_present P bone_stream)
    (hnull : range_data ≠ 0) :
    ∃ n clip_out segment_out,
      write_range_track_data P assert_checks clip_context bone_streams clip_ranges
          range_reduction true ⟨memory, range_data⟩ (4 * n) output_bone_mapping = .ok clip_out
      ∧ write_range_track_data P assert_checks clip_context bone_streams segment_ranges
          range_reduction false ⟨memory, range_data⟩ n output_bone_mapping = .ok segment_out
      ∧ segment_out.ptr - range_data = n
      ∧ clip_out.ptr - range_data = 4 * (segment_out.ptr - range_data)
      ∧ (clip_out.ptr - range_data = segment_out.ptr - range_data ↔
          clip_out.ptr - range_data = 0 ∧ segment_out.ptr - range_data = 0)
      ∧ (∀ (bone_stream : BoneStreams) (clip_range segment_range : BoneRanges)
          (o oc os : OutBuffer),
          (write_range_track_data_rotation P bone_stream clip_range range_reduction true o
              = .ok oc →
            write_range_track_data_rotation P bone_stream segment_range range_reduction false o
              = .ok os →
            oc.ptr - o.ptr = 4 * (os.ptr - o.ptr)
              ∧ os.ptr - o.ptr
                = (if are_any_enum_flags_set range_reduction .Rotations = true
                    ∧ bone_stream.is_rotation_animated = true then
                    (if bone_stream.rotations.get_rotation_format = .Quat_128 then 8 else 6)
                  else 0))
          ∧ (write_range_track_data_translation P bone_stream clip_range range_reduction true o
              = .ok oc →
            write_range_track_data_translation P bone_stream segment_range range_reduction
              false o = .ok os →
            oc.ptr - o.ptr = 4 * (os.ptr - o.ptr)
              ∧ os.ptr - o.ptr
                = (if are_any_enum_flags_set range_reduction .Translations = true
                    ∧ bone_stream.is_translation_animated = true then 6 else 0))
          ∧ (write_range_track_data_scale P clip_context bone_stream clip_range range_reduction
              true o = .ok oc →
            write_range_track_data_scale P clip_context bone_stream segment_range
              range_reduction false o = .ok os →
            oc.ptr - o.ptr = 4 * (os.ptr - o.ptr)
              ∧ os.ptr - o.ptr
                = (if clip_context.has_scale = true
                    ∧ are_any_enum_flags_set range_reduction .Scales = true
                    ∧ bone_stream.is_scale_animated = true then 6 else 0))) := by
  obtain ⟨n, oc, os, _, _, hoc, hpc, hos, hps⟩ := range_passes P assert_checks clip_context
    bone_streams clip_ranges segment_ranges range_reduction ⟨memory, range_data⟩
    output_bone_mapping hclip hsegment hsamples hnull
  simp only at hpc hps
  refine ⟨n, oc, os, hoc, hos, by omega, by omega, ?_, ?_⟩
  · constructor
    · intro h; omega
    · intro h; omega
  · intro bs cr sr o oc' os'
    obtain ⟨hr, ht, hs⟩ := range_channel_size_ratio clip_context.has_scale range_reduction bs
    refine ⟨?_, ?_, ?_⟩
    · intro h1 h2
      have e1 := cursor_of_map_eq _ _ _ _
        (write_range_track_data_rotation_cursor P bs cr range_reduction true o) h1
      have e2 := cursor_of_map_eq _ _ _ _
        (write_range_track_data_rotation_cursor P bs sr range_reduction false o) h2
      refine ⟨by omega, ?_⟩
      rw [e2]
      unfold range_rotation_size RotationTrackStream.get_rotation_format
      cases are_any_enum_flags_set range_reduction .Rotations <;>
        cases bs.is_rotation_animated <;> simp
    · intro h1 h2
      have e1 := cursor_of_map_eq _ _ _ _
        (write_range_track_data_translation_cursor P bs cr range_reduction true o) h1
      have e2 := cursor_of_map_eq _ _ _ _
        (write_range_track_data_translation_cursor P bs sr range_reduction false o) h2
      refine ⟨by omega, ?_⟩
      rw [e2]
      unfold range_translation_size
      cases are_any_enum_flags_set range_reduction .Translations <;>
        cases bs.is_translation_animated <;> simp
    · intro h1 h2
      have e1 := cursor_of_map_eq _ _ _ _
        (write_range_track_data_scale_cursor P clip_context bs cr range_reduction true o) h1
      have e2 := cursor_of_map_eq _ _ _ _
        (write_range_track_data_scale_cursor P clip_context bs sr range_reduction false o) h2
      refine ⟨by omega, ?_⟩
      rw [e2]
      unfold range_scale_size
      cases are_any_enum_flags_set range_reduction .Scales <;>
        cases bs.is_scale_animated <;> cases clip_context.has_scale <;> simp

/-- C19 at a segment of three bones, all animated, all constant and all
default, with every kind enabled. -/
theorem clip_segment_ratio_witness :
    ∃ n clip_out segment_out,
      write_range_track_data sample_primitives true scale_clip mixed_segment.bone_streams
          scale_clip.ranges all_flags true ⟨zero_memory, 1000⟩ (4 * n) [0, 1, 2] = .ok clip_out
      ∧ write_range_track_data sample_primitives true scale_clip mixed_segment.bone_streams
          mixed_segment.ranges all_flags false ⟨zero_memory, 1000⟩ n [0, 1, 2]
          = .ok segment_out
      ∧ segment_out.ptr - 1000 = n
      ∧ clip_out.ptr - 1000 = 4 * (segment_out.ptr - 1000)
      ∧ (clip_out.ptr - 1000 = segment_out.ptr - 1000 ↔
          clip_out.ptr - 1000 = 0 ∧ segment_out.ptr - 1000 = 0) := by
  obtain ⟨n, oc, os, h1, h2, h3, h4, h5, _⟩ := clip_segment_ratio sample_primitives true
    scale_clip mixed_segment.bone_streams scale_clip.ranges mixed_segment.ranges all_flags
    zero_memory 1000 [0, 1, 2] (by decide) (by decide) (by decide) (by decide)
  exact ⟨n, oc, os, h1, h2, h3, h4, h5⟩

end acl
